import Mathlib

/-!
# cpp_result: shallow embedding of `result.hpp`

The header implements `Result<T, E>`: a byte buffer large enough for either
payload plus a discriminant `_type`, which is the `hash_code()` of the
`typeid` of the wrapper (`Wrapper::Ok<T>` or `Wrapper::Err<E>`) the storage was
built from.

Modelling decisions.

* A payload type is a Lean type with a `CppType` instance: its type name (what
  `typeid` sees), whether it is `void`, its size, and how a value is written to
  and read back from raw bytes.  `Storage::get<U>()` is a `reinterpret_cast` of
  the buffer, so it is modelled as `CppType.load` of the bytes, whatever they
  were written as.
* `void` is the type `CppVoid` of size 0 that writes no byte.  With it the
  primary template `Storage<T, E>` and its three specialisations
  `Storage<void, E>`, `Storage<T, void>`, `Storage<void, void>` are the same
  definition: the buffer has `max(sizeof T, sizeof E)` bytes, and constructing
  from `Ok<void>` or `Err<void>` leaves it zeroed.
* `std::type_info::hash_code` belongs to the C++ runtime, not to the header; it
  is the parameter `hash_code : TypeInfo → Nat` of every definition using it.
* A member function whose body ends either in `return` or in `RESULT_ERROR`
  (diagnostic on `std::cerr`, then `std::terminate`) returns an `Outcome`.
* `std::move` / `std::decay` are value-level identities here.
* A callable passed to a transform may have side effects.  The transforms are
  given in state-passing form (suffix `_st`): the callable maps its argument and
  the state before the call to its return value and the state after it, and
  the transform returns the final state, which shows whether and how often the
  callable ran.  `Result.map` is the same transform for pure callables.
* The six relational operators are overloaded with bodies that differ in the
  operator alone; each family of overloads is one definition with the operator
  `op : Op` as a parameter, and `Comparable op L R` is the capability that `op`
  exists between `L` and `R`.
* Whether a comparison overload is enabled is a compile-time question; it is
  modelled on a table `cap` of the operators a program declares, with the
  `enable_if` of each overload and the operator its body applies side by side.
* What a call does besides returning a value - the receiver after it and the
  calls of `Storage::get<U>()` it makes - is an `Effect`, one per facade
  operation.
* `RESULT_ERROR` inside a callable or a payload operator ends the transform or
  comparison that invoked it.  The transforms are given a second time (suffix
  `_run`) for callables that may end in `RESULT_ERROR`, statement by statement
  on the objects they touch: the receiver, the local copy of the payload, and
  the temporary returned by `Proxy::map` / `Proxy::map_err`.  On callables that
  always return they compute what the `_st` transforms compute.
-/

namespace CppResult

/-! ## Payload types -/

/-- Object model of a C++ payload type: the name `typeid` reports, whether the
type is `void`, `sizeof`, and the object representation (`store` writes a value
as `sizeof` bytes, `load` reinterprets the leading bytes of a buffer). -/
class CppType (α : Type) where
  name : String
  is_void : Bool
  sizeof : Nat
  store : α → List Nat
  load : List Nat → α
  store_length : ∀ a : α, (store a).length = sizeof
  load_store : ∀ (a : α) (rest : List Nat), load (store a ++ rest) = a

/-- The absent payload, C++ `void`. -/
inductive CppVoid : Type where
  | unit : CppVoid
  deriving DecidableEq, Repr

instance : CppType CppVoid where
  name := "void"
  is_void := true
  sizeof := 0
  store := fun _ => []
  load := fun _ => CppVoid.unit
  store_length := fun _ => rfl
  load_store := fun a _ => by cases a; rfl

/-- C++ `std::uint8_t`: one byte. -/
abbrev uint8_t : Type := Fin 256

instance : CppType uint8_t where
  name := "unsigned char"
  is_void := false
  sizeof := 1
  store := fun a => [a.val]
  load := fun bytes => ⟨bytes.headD 0 % 256, Nat.mod_lt _ (by decide)⟩
  store_length := fun _ => rfl
  load_store := fun a _ => by
    apply Fin.ext
    show a.val % 256 = a.val
    exact Nat.mod_eq_of_lt a.isLt

/-- C++ `std::uint16_t`: two bytes, least significant first. -/
abbrev uint16_t : Type := Fin 65536

instance : CppType uint16_t where
  name := "unsigned short"
  is_void := false
  sizeof := 2
  store := fun a => [a.val % 256, a.val / 256]
  load := fun bytes =>
    ⟨bytes.headD 0 % 256 + 256 * (bytes.tail.headD 0 % 256), by omega⟩
  store_length := fun _ => rfl
  load_store := fun a _ => by
    apply Fin.ext
    show a.val % 256 % 256 + 256 * (a.val / 256 % 256) = a.val
    have h := a.isLt
    omega

/-- Source `Utils::is_convertible<From, To>`: an implicit conversion exists; `convert`
is the conversion the call `fun(std::move(ok))` performs on its argument. -/
class Convertible (From To : Type) where
  convert : From → To

instance (α : Type) : Convertible α α where
  convert := id

/-! ## Run-time type identity -/

/-- The types whose `typeid` the header takes: `Wrapper::Ok<T>` and
`Wrapper::Err<E>`, identified by the name of the payload type. -/
inductive TypeInfo : Type where
  | Ok (payload : String) : TypeInfo
  | Err (payload : String) : TypeInfo
  deriving DecidableEq, Repr

/-- A `type_info::hash_code` that tells every `Ok` wrapper from every `Err`
wrapper (even / odd), used to instantiate the development. -/
def parity_hash : TypeInfo → Nat
  | TypeInfo.Ok payload => 2 * payload.length
  | TypeInfo.Err payload => 2 * payload.length + 1

/-! ## How a call ends -/

/-- How a call of a member function ends: it returns a value, or it runs
`RESULT_ERROR`, which prints a diagnostic and calls `std::terminate`. -/
inductive Outcome (α : Type) : Type where
  | returned (value : α) : Outcome α
  | terminated (diagnostic : String) : Outcome α
  deriving DecidableEq, Repr

/-- Source `RESULT_ERROR(_m)`: `std::cerr << _m << std::endl; std::terminate();`. -/
def RESULT_ERROR {α : Type} (_m : String) : Outcome α :=
  Outcome.terminated _m

/-! ## Wrappers -/

namespace Wrapper

/-- Source `Wrapper::Ok<T>`; `Wrapper::Ok<void>` is the instance at `CppVoid`. -/
structure Ok (T : Type) where
  _t : T

/-- Source `Wrapper::Err<E>`; `Wrapper::Err<void>` is the instance at `CppVoid`. -/
structure Err (E : Type) where
  _e : E

end Wrapper

/-- Source `Ok(T &&t)`. -/
def Ok {T : Type} (t : T) : Wrapper.Ok T :=
  Wrapper.Ok.mk t

/-- Source `Err(E &&e)`. -/
def Err {E : Type} (e : E) : Wrapper.Err E :=
  Wrapper.Err.mk e

/-- Source `Ok()`, the unit success wrapper. -/
def Ok_void : Wrapper.Ok CppVoid :=
  Wrapper.Ok.mk CppVoid.unit

/-- Source `Err()`, the unit failure wrapper. -/
def Err_void : Wrapper.Err CppVoid :=
  Wrapper.Err.mk CppVoid.unit

/-! ## Storage -/

namespace Utils

/-- Source `Utils::max(a, b)`: `a > b ? a : b`. -/
def max (a b : Nat) : Nat :=
  if a > b then a else b

/-- Source `Utils::Storage<T, E>`: the byte buffer `_storage` and the discriminant
`_type`. -/
structure Storage (T E : Type) where
  _storage : List Nat
  _type : Nat

namespace Storage

/-- The member initialiser `_storage = { 0 }`: `max(sizeof(T), sizeof(E))`
zero bytes. -/
def zeroed (T E : Type) [CppType T] [CppType E] : List Nat :=
  List.replicate (Utils.max (CppType.sizeof T) (CppType.sizeof E)) 0

/-- The assignment `*reinterpret_cast<U *>(_storage.data()) = value`: the
object representation of the value replaces the leading bytes. -/
def assign (bytes repr : List Nat) : List Nat :=
  repr ++ bytes.drop repr.length

/-- Source `construct(Wrapper::Ok<T> ok)`. -/
def construct_Ok {T : Type} [CppType T] (bytes : List Nat) (ok : Wrapper.Ok T) : List Nat :=
  assign bytes (CppType.store ok._t)

/-- Source `construct(Wrapper::Err<E> err)`. -/
def construct_Err {E : Type} [CppType E] (bytes : List Nat) (err : Wrapper.Err E) : List Nat :=
  assign bytes (CppType.store err._e)

/-- Source `Storage(Wrapper::Ok<T> &&s)`. -/
def ctor_Ok {T E : Type} [CppType T] [CppType E] (hash_code : TypeInfo → Nat)
    (s : Wrapper.Ok T) : Storage T E :=
  { _storage := construct_Ok (zeroed T E) s
    _type := hash_code (TypeInfo.Ok (CppType.name T)) }

/-- Source `Storage(Wrapper::Err<E> &&s)`. -/
def ctor_Err {T E : Type} [CppType T] [CppType E] (hash_code : TypeInfo → Nat)
    (s : Wrapper.Err E) : Storage T E :=
  { _storage := construct_Err (zeroed T E) s
    _type := hash_code (TypeInfo.Err (CppType.name E)) }

/-- Source `get<U>()`: the buffer reinterpreted as a `U`. -/
def get {T E : Type} (U : Type) [CppType U] (s : Storage T E) : U :=
  CppType.load s._storage

/-- Source `holds_alternative<S>()`: `typeid(S).hash_code() == _type`. -/
def holds_alternative {T E : Type} (hash_code : TypeInfo → Nat) (S : TypeInfo)
    (s : Storage T E) : Bool :=
  hash_code S == s._type

end Storage

end Utils

/-! ## Result -/

/-- Source `Result<T, E>`: one `Utils::Storage<T, E>`. -/
structure Result (T E : Type) where
  _storage : Utils.Storage T E

namespace Result

variable {T E : Type} [CppType T] [CppType E]

/-- Source `Result(Wrapper::Ok<T> &&s)`. -/
def ctor_Ok (hash_code : TypeInfo → Nat) (s : Wrapper.Ok T) : Result T E :=
  { _storage := Utils.Storage.ctor_Ok hash_code s }

/-- Source `Result(Wrapper::Err<E> &&s)`. -/
def ctor_Err (hash_code : TypeInfo → Nat) (s : Wrapper.Err E) : Result T E :=
  { _storage := Utils.Storage.ctor_Err hash_code s }

/-- Source `storage()`. -/
def storage (r : Result T E) : Utils.Storage T E :=
  r._storage

/-- Source `is_ok()`. -/
def is_ok (hash_code : TypeInfo → Nat) (r : Result T E) : Bool :=
  r.storage.holds_alternative hash_code (TypeInfo.Ok (CppType.name T))

/-- Source `is_err()`. -/
def is_err (hash_code : TypeInfo → Nat) (r : Result T E) : Bool :=
  r.storage.holds_alternative hash_code (TypeInfo.Err (CppType.name E))

/-- A `Result` as the program can hold one: built by one of the two
constructors (a move construction or move assignment copies both fields). -/
inductive Constructed (hash_code : TypeInfo → Nat) : Result T E → Prop where
  | from_Ok (s : Wrapper.Ok T) : Constructed hash_code (ctor_Ok hash_code s)
  | from_Err (s : Wrapper.Err E) : Constructed hash_code (ctor_Err hash_code s)

end Result

/-- Object model of a `Result<U, E>` held as a payload, as `and_then` and
`or_else` do with the value their callable returns: its two members occupy two
storage cells, the buffer (as the code of its byte list) and the discriminant,
so that writing a `Result` and reading it back as a `Result` is the identity,
as it is for the member-wise move of `Utils::Storage`. -/
instance (U E : Type) [CppType U] [CppType E] : CppType (Result U E) where
  name := "Result<" ++ CppType.name U ++ ", " ++ CppType.name E ++ ">"
  is_void := false
  sizeof := 2
  store := fun r => [Encodable.encode r._storage._storage, r._storage._type]
  load := fun cells =>
    { _storage :=
        { _storage := (Encodable.decode (cells.headD 0)).getD []
          _type := cells.tail.headD 0 } }
  store_length := fun _ => rfl
  load_store := fun r _ => by
    simp [Encodable.encodek]

namespace Wrapper

namespace Get

/-- Source `Wrapper::Get<Ok<T>>::get(r)`: copies the success payload out of `r`
(`Get<Ok<void>>` is the instance at `CppVoid`). -/
def get_Ok {T E : Type} [CppType T] (r : Result T E) : Wrapper.Ok T :=
  let ok := r.storage.get T
  Wrapper.Ok.mk ok

/-- Source `Wrapper::Get<Err<E>>::get(r)`: copies the failure payload out of `r`
(`Get<Err<void>>` is the instance at `CppVoid`). -/
def get_Err {T E : Type} [CppType E] (r : Result T E) : Wrapper.Err E :=
  let err := r.storage.get E
  Wrapper.Err.mk err

end Get

end Wrapper

/-- A callable as `Utils::result_of` and `Resolve::Map` / `Resolve::MapErr`
see it: a return type `R` and either one parameter of type `Arg` or none.  A
callable returning `void` has `R = CppVoid`. -/
inductive Callable (Arg R : Type) : Type where
  | unary (f : Arg → R) : Callable Arg R
  | nullary (f : CppVoid → R) : Callable Arg R

namespace Impl

namespace Map

variable {T E Arg R : Type} [CppType T] [CppType E] [CppType R]

/-- Source `Impl::Map<R (Arg)>::map` and, at `R = CppVoid`, `Impl::Map<void (Arg)>::map`:
the payload is read, converted to `Arg`, passed to `fun`, and the return value
is wrapped by `Ok`. -/
def map_Arg [Convertible T Arg] (hash_code : TypeInfo → Nat) (r : Result T E)
    (f : Arg → R) : Result R E :=
  let ok := r.storage.get T
  let ret := f (Convertible.convert ok)
  Result.ctor_Ok hash_code (Ok ret)

/-- Source `Impl::Map<R (void)>::map` and, at `R = CppVoid`, `Impl::Map<void (void)>::map`:
`fun` is called without argument. -/
def map_void (hash_code : TypeInfo → Nat) (_r : Result T E) (f : CppVoid → R) :
    Result R E :=
  let ret := f CppVoid.unit
  Result.ctor_Ok hash_code (Ok ret)

end Map

end Impl

namespace Resolve

namespace Map

variable {T E Arg R : Type} [CppType T] [CppType E] [CppType R]

/-- Source `Resolve::Map<F>::map`: the specialisation of `Impl::Map` selected by the
signature of `F`. -/
def map [Convertible T Arg] (hash_code : TypeInfo → Nat) (r : Result T E)
    (f : Callable Arg R) : Result R E :=
  match f with
  | Callable.unary g => Impl.Map.map_Arg hash_code r g
  | Callable.nullary g => Impl.Map.map_void hash_code r g

end Map

end Resolve

namespace Proxy

variable {T E Arg R : Type} [CppType T] [CppType E] [CppType R]

/-- Source `Proxy::map(res, fun)`. -/
def map [Convertible T Arg] (hash_code : TypeInfo → Nat) (res : Result T E)
    (f : Callable Arg R) : Result R E :=
  Resolve.Map.map hash_code res f

end Proxy

namespace Result

variable {T E : Type} [CppType T] [CppType E]

/-- The `enable_if` of `unwrap`, `unwrap_or`, `unwrap_or_default` and `expect`:
`decay<T>` is not `void`. -/
def unwrap_enabled (T E : Type) [CppType T] [CppType E] : Bool :=
  !CppType.is_void T

/-- The `enable_if` of `unwrap_err` and `unwrap_err_unchecked`: `decay<E>` is
not `void`. -/
def unwrap_err_enabled (T E : Type) [CppType T] [CppType E] : Bool :=
  !CppType.is_void E

/-- The `enable_if` written on `unwrap_unchecked`: it tests `decay<E>`, the
failure type, against `void`. -/
def unwrap_unchecked_enabled (T E : Type) [CppType T] [CppType E] : Bool :=
  !CppType.is_void E

/-- Source `unwrap()`. -/
def unwrap (hash_code : TypeInfo → Nat) (r : Result T E) : Outcome T :=
  if r.is_ok hash_code then
    Outcome.returned (r.storage.get T)
  else
    RESULT_ERROR "Tried to unwrap a result containing an error"

/-- Source `unwrap_err()`. -/
def unwrap_err (hash_code : TypeInfo → Nat) (r : Result T E) : Outcome E :=
  if r.is_err hash_code then
    Outcome.returned (r.storage.get E)
  else
    RESULT_ERROR "Tried to unwrap an error containing a result"

/-- Source `unwrap_unchecked()`.  Its template header reads
`typename _ = typename std::decay<E>::type`, so the return type `R` is the
failure type and the body is `get<E>()`. -/
def unwrap_unchecked (r : Result T E) : Outcome E :=
  Outcome.returned (r.storage.get E)

/-- The unchecked success accessor as section 4.3 of the spec words it: the
discriminant check of `unwrap()` is skipped and the success payload is
returned.  It is the specification side of the comparison with
`unwrap_unchecked`, not a translation of the source. -/
def unwrap_unchecked_spec (r : Result T E) : Outcome T :=
  Outcome.returned (r.storage.get T)

/-- Source `unwrap_err_unchecked()`. -/
def unwrap_err_unchecked (r : Result T E) : Outcome E :=
  Outcome.returned (r.storage.get E)

/-- Source `unwrap_or(t)`. -/
def unwrap_or (hash_code : TypeInfo → Nat) (r : Result T E) (t : T) : Outcome T :=
  if r.is_ok hash_code then
    Outcome.returned (r.storage.get T)
  else
    Outcome.returned t

/-- Source `unwrap_or_default()`; `R {}` is the default-constructed value. -/
def unwrap_or_default [Inhabited T] (hash_code : TypeInfo → Nat) (r : Result T E) :
    Outcome T :=
  if r.is_err hash_code then
    Outcome.returned default
  else
    Outcome.returned (r.storage.get T)

/-- Source `expect(s)`. -/
def expect (hash_code : TypeInfo → Nat) (r : Result T E) (s : String) : Outcome T :=
  if r.is_ok hash_code then
    Outcome.returned (r.storage.get T)
  else
    RESULT_ERROR s

/-- Source `map(fun)`. -/
def map {Arg R : Type} [CppType R] [Convertible T Arg] (hash_code : TypeInfo → Nat)
    (r : Result T E) (f : Callable Arg R) : Result R E :=
  if r.is_ok hash_code then
    Proxy.map hash_code r f
  else
    Result.ctor_Err hash_code (Wrapper.Get.get_Err r)

end Result

/-! ## Callables with side effects

A C++ callable may read and write state outside the `Result` (captures,
globals, streams).  That state is a type `σ`, threaded explicitly: an effectful
callable maps an argument and the state before the call to a return value and
the state after it.  A transform leaves the state as it is unless it invokes
a callable, so the state after a transform records which invocations were
made. -/

/-- A callable with side effects on a state `σ`, with one parameter of type `Arg`
or none, returning `R` (`CppVoid` for `void`). -/
inductive CallableSt (σ Arg R : Type) : Type where
  | unary (f : Arg → σ → R × σ) : CallableSt σ Arg R
  | nullary (f : CppVoid → σ → R × σ) : CallableSt σ Arg R

/-- A pure callable, as an effectful one that leaves the state alone. -/
def Callable.lift {Arg R : Type} (σ : Type) : Callable Arg R → CallableSt σ Arg R
  | Callable.unary f => CallableSt.unary (fun a s => (f a, s))
  | Callable.nullary f => CallableSt.nullary (fun a s => (f a, s))

namespace Impl

namespace Map

variable {σ T E Arg R : Type} [CppType T] [CppType E] [CppType R]

/-- Source `Impl::Map<R (Arg)>::map` (and `Impl::Map<void (Arg)>::map` at
`R = CppVoid`) for a callable with side effects. -/
def map_Arg_st [Convertible T Arg] (hash_code : TypeInfo → Nat) (r : Result T E)
    (f : Arg → σ → R × σ) (s : σ) : Result R E × σ :=
  let ok := r.storage.get T
  let ret := f (Convertible.convert ok) s
  (Result.ctor_Ok hash_code (Ok ret.1), ret.2)

/-- Source `Impl::Map<R (void)>::map` (and `Impl::Map<void (void)>::map` at
`R = CppVoid`) for a callable with side effects. -/
def map_void_st (hash_code : TypeInfo → Nat) (_r : Result T E)
    (f : CppVoid → σ → R × σ) (s : σ) : Result R E × σ :=
  let ret := f CppVoid.unit s
  (Result.ctor_Ok hash_code (Ok ret.1), ret.2)

end Map

namespace MapErr

variable {σ T E Arg R : Type} [CppType T] [CppType E] [CppType R]

/-- Source `Impl::MapErr<R (Arg)>::map_err` (and `Impl::MapErr<void (Arg)>::map_err`
at `R = CppVoid`): the failure payload is read, converted to `Arg`, passed to
`fun`, and the return value is wrapped by `Err`. -/
def map_err_Arg_st [Convertible E Arg] (hash_code : TypeInfo → Nat) (r : Result T E)
    (f : Arg → σ → R × σ) (s : σ) : Result T R × σ :=
  let err := r.storage.get E
  let ret := f (Convertible.convert err) s
  (Result.ctor_Err hash_code (Err ret.1), ret.2)

/-- Source `Impl::MapErr<R (void)>::map_err` (and `Impl::MapErr<void (void)>::map_err`
at `R = CppVoid`): `fun` is called without argument. -/
def map_err_void_st (hash_code : TypeInfo → Nat) (_r : Result T E)
    (f : CppVoid → σ → R × σ) (s : σ) : Result T R × σ :=
  let ret := f CppVoid.unit s
  (Result.ctor_Err hash_code (Err ret.1), ret.2)

end MapErr

end Impl

namespace Resolve

namespace Map

variable {σ T E Arg R : Type} [CppType T] [CppType E] [CppType R]

/-- Source `Resolve::Map<F>::map` for a callable with side effects. -/
def map_st [Convertible T Arg] (hash_code : TypeInfo → Nat) (r : Result T E)
    (f : CallableSt σ Arg R) (s : σ) : Result R E × σ :=
  match f with
  | CallableSt.unary g => Impl.Map.map_Arg_st hash_code r g s
  | CallableSt.nullary g => Impl.Map.map_void_st hash_code r g s

end Map

namespace MapErr

variable {σ T E Arg R : Type} [CppType T] [CppType E] [CppType R]

/-- Source `Resolve::MapErr<F>::map_err`: the specialisation of `Impl::MapErr`
selected by the signature of `F`. -/
def map_err_st [Convertible E Arg] (hash_code : TypeInfo → Nat) (r : Result T E)
    (f : CallableSt σ Arg R) (s : σ) : Result T R × σ :=
  match f with
  | CallableSt.unary g => Impl.MapErr.map_err_Arg_st hash_code r g s
  | CallableSt.nullary g => Impl.MapErr.map_err_void_st hash_code r g s

end MapErr

end Resolve

namespace Proxy

variable {σ T E Arg R : Type} [CppType T] [CppType E] [CppType R]

/-- Source `Proxy::map(res, fun)` for a callable with side effects. -/
def map_st [Convertible T Arg] (hash_code : TypeInfo → Nat) (res : Result T E)
    (f : CallableSt σ Arg R) (s : σ) : Result R E × σ :=
  Resolve.Map.map_st hash_code res f s

/-- Source `Proxy::map_err(res, fun)`. -/
def map_err_st [Convertible E Arg] (hash_code : TypeInfo → Nat) (res : Result T E)
    (f : CallableSt σ Arg R) (s : σ) : Result T R × σ :=
  Resolve.MapErr.map_err_st hash_code res f s

end Proxy

namespace Result

variable {σ T E : Type} [CppType T] [CppType E]

/-- Source `map(fun)` for a callable with side effects. -/
def map_st {Arg R : Type} [CppType R] [Convertible T Arg] (hash_code : TypeInfo → Nat)
    (r : Result T E) (f : CallableSt σ Arg R) (s : σ) : Result R E × σ :=
  if r.is_ok hash_code then
    Proxy.map_st hash_code r f s
  else
    (Result.ctor_Err hash_code (Wrapper.Get.get_Err r), s)

/-- Source `map_err(fun)`. -/
def map_err_st {Arg R : Type} [CppType R] [Convertible E Arg] (hash_code : TypeInfo → Nat)
    (r : Result T E) (f : CallableSt σ Arg R) (s : σ) : Result T R × σ :=
  if r.is_err hash_code then
    Proxy.map_err_st hash_code r f s
  else
    (Result.ctor_Ok hash_code (Wrapper.Get.get_Ok r), s)

/-- The `enable_if` of `map_or`: the return type `R` of `fun` is not `void`. -/
def map_or_enabled (R : Type) [CppType R] : Bool :=
  !CppType.is_void R

/-- Source `map_or(fun, r)`: the payload of the temporary `Proxy::map(*this, fun)`,
or the fallback. -/
def map_or_st {Arg R : Type} [CppType R] [Convertible T Arg] (hash_code : TypeInfo → Nat)
    (r : Result T E) (f : CallableSt σ Arg R) (fallback : R) (s : σ) : R × σ :=
  if r.is_ok hash_code then
    let mapped := Proxy.map_st hash_code r f s
    (mapped.1.storage.get R, mapped.2)
  else
    (fallback, s)

/-- Source `map_or_else(fun, other)`: the payload of the temporary
`Proxy::map(*this, fun)`, or of the temporary `Proxy::map_err(*this, other)`. -/
def map_or_else_st {Arg ArgE R : Type} [CppType R] [Convertible T Arg] [Convertible E ArgE]
    (hash_code : TypeInfo → Nat) (r : Result T E) (f : CallableSt σ Arg R)
    (other : CallableSt σ ArgE R) (s : σ) : R × σ :=
  if r.is_ok hash_code then
    let mapped := Proxy.map_st hash_code r f s
    (mapped.1.storage.get R, mapped.2)
  else
    let mapped := Proxy.map_err_st hash_code r other s
    (mapped.1.storage.get R, mapped.2)

/-- Source `and_then(fun)`, with `R = Result<U, E>` the return type of `fun`: the
payload of the temporary `Proxy::map(*this, fun)`, a
`Result<Result<U, E>, E>`, or the failure payload re-wrapped. -/
def and_then_st {Arg U : Type} [CppType U] [Convertible T Arg] (hash_code : TypeInfo → Nat)
    (r : Result T E) (f : CallableSt σ Arg (Result U E)) (s : σ) : Result U E × σ :=
  if r.is_ok hash_code then
    let mapped := Proxy.map_st hash_code r f s
    (mapped.1.storage.get (Result U E), mapped.2)
  else
    (Result.ctor_Err hash_code (Wrapper.Get.get_Err r), s)

/-- Source `or_else(fun)`, with `R = Result<T, U>` the return type of `fun`: the
payload of the temporary `Proxy::map_err(*this, fun)`, a
`Result<T, Result<T, U>>`, or the success payload re-wrapped. -/
def or_else_st {Arg U : Type} [CppType U] [Convertible E Arg] (hash_code : TypeInfo → Nat)
    (r : Result T E) (f : CallableSt σ Arg (Result T U)) (s : σ) : Result T U × σ :=
  if r.is_err hash_code then
    let mapped := Proxy.map_err_st hash_code r f s
    (mapped.1.storage.get (Result T U), mapped.2)
  else
    (Result.ctor_Ok hash_code (Wrapper.Get.get_Ok r), s)

end Result

/-! ## Comparisons -/

/-- The six relational operators the header overloads. -/
inductive Op : Type where
  | eq : Op
  | ne : Op
  | lt : Op
  | le : Op
  | gt : Op
  | ge : Op
  deriving DecidableEq, Repr

/-- The operator `op` exists between a left operand of type `L` and a right
operand of type `R` (what `Utils::is_eq_comparable<L, R>` ...
`Utils::is_ge_comparable<L, R>` probe), with the value it computes. -/
class Comparable (op : Op) (L R : Type) where
  apply : L → R → Bool

/-- The built-in comparisons of `std::uint8_t`. -/
instance (op : Op) : Comparable op uint8_t uint8_t where
  apply := fun a b =>
    match op with
    | Op.eq => decide (a.val = b.val)
    | Op.ne => decide (a.val ≠ b.val)
    | Op.lt => decide (a.val < b.val)
    | Op.le => decide (a.val ≤ b.val)
    | Op.gt => decide (a.val > b.val)
    | Op.ge => decide (a.val ≥ b.val)

namespace Result

variable {T E : Type} [CppType T] [CppType E]

/-- Source `operator==(const Wrapper::Ok<U> &other)` and its five siblings for
`!=`, `<`, `<=`, `>`, `>=`, which differ in the operator only:
`is_ok() && (storage().get<T>() op other._t)`. -/
def operator_vs_Ok {U : Type} (hash_code : TypeInfo → Nat) (op : Op) [Comparable op T U]
    (r : Result T E) (other : Wrapper.Ok U) : Bool :=
  r.is_ok hash_code && Comparable.apply op (r.storage.get T) other._t

/-- Source `operator==(const Wrapper::Err<U> &other)` and its five siblings:
`is_err() && (storage().get<E>() op other._e)`. -/
def operator_vs_Err {U : Type} (hash_code : TypeInfo → Nat) (op : Op) [Comparable op E U]
    (r : Result T E) (other : Wrapper.Err U) : Bool :=
  r.is_err hash_code && Comparable.apply op (r.storage.get E) other._e

/-- Source `operator==(const Result<F, G> &other)` and its five siblings, in the
overload enabled when both payload pairs have the operator. -/
def operator_vs_Result {F G : Type} [CppType F] [CppType G] (hash_code : TypeInfo → Nat)
    (op : Op) [Comparable op T F] [Comparable op E G] (r : Result T E)
    (other : Result F G) : Bool :=
  if r.is_ok hash_code && other.is_ok hash_code then
    Comparable.apply op (r.storage.get T) (other.storage.get F)
  else if r.is_err hash_code && other.is_err hash_code then
    Comparable.apply op (r.storage.get E) (other.storage.get G)
  else
    false

end Result

/-- The built-in comparisons between `std::uint8_t` and `std::uint16_t` (both
operands are promoted to `int`). -/
instance (op : Op) : Comparable op uint8_t uint16_t where
  apply := fun a b =>
    match op with
    | Op.eq => decide (a.val = b.val)
    | Op.ne => decide (a.val ≠ b.val)
    | Op.lt => decide (a.val < b.val)
    | Op.le => decide (a.val ≤ b.val)
    | Op.gt => decide (a.val > b.val)
    | Op.ge => decide (a.val ≥ b.val)

namespace Wrapper

/-- Source `Wrapper::Ok<T>::operator==(const Ok<U> &other)` and its five siblings:
`_t op other._t`. -/
def Ok.operator_vs_Ok {T U : Type} (op : Op) [Comparable op T U] (self : Wrapper.Ok T)
    (other : Wrapper.Ok U) : Bool :=
  Comparable.apply op self._t other._t

/-- Source `Wrapper::Err<E>::operator==(const Err<U> &other)` and its five
siblings: `_e op other._e`. -/
def Err.operator_vs_Err {E U : Type} (op : Op) [Comparable op E U] (self : Wrapper.Err E)
    (other : Wrapper.Err U) : Bool :=
  Comparable.apply op self._e other._e

end Wrapper

namespace Result

variable {T E : Type} [CppType T] [CppType E]

/-- Source `operator==(const Result<F, G> &other)` and its five siblings, in the
overload enabled when only the success payloads have the operator:
`(is_ok() && other.is_ok()) && (storage().get<T>() op other.storage().get<F>())`. -/
def operator_only_Ok {F G : Type} [CppType F] [CppType G] (hash_code : TypeInfo → Nat)
    (op : Op) [Comparable op T F] (r : Result T E) (other : Result F G) : Bool :=
  (r.is_ok hash_code && other.is_ok hash_code)
    && Comparable.apply op (r.storage.get T) (other.storage.get F)

/-- Source `operator==(const Result<F, G> &other)` and its five siblings, in the
overload enabled when only the failure payloads have the operator:
`(is_err() && other.is_err()) && (storage().get<E>() op other.storage().get<G>())`. -/
def operator_only_Err {F G : Type} [CppType F] [CppType G] (hash_code : TypeInfo → Nat)
    (op : Op) [Comparable op E G] (r : Result T E) (other : Result F G) : Bool :=
  (r.is_err hash_code && other.is_err hash_code)
    && Comparable.apply op (r.storage.get E) (other.storage.get G)

/-- The doc comment of `operator!=(const Result<F, G> &other)` in the overload
for success payloads only: "Returns false if both results contain Ok<T> and the
instances of T are equal, else true."  It is the documentation side of the
comparison with `operator_only_Ok` at `!=`, not a translation of the body. -/
def operator_ne_only_Ok_documented {F G : Type} [CppType F] [CppType G]
    (hash_code : TypeInfo → Nat) [Comparable Op.eq T F] (r : Result T E)
    (other : Result F G) : Bool :=
  if (r.is_ok hash_code && other.is_ok hash_code)
      && Comparable.apply Op.eq (r.storage.get T) (other.storage.get F) then
    false
  else
    true

end Result

/-! ## Availability of the comparison overloads

Whether an overload takes part in overload resolution is decided at compile
time by its `enable_if`, which asks one of the probes
`Utils::is_eq_comparable<L, R>` ... `Utils::is_ge_comparable<L, R>` whether the
expression `declval<L>() op declval<R>()` is well-formed.  A program's types
and operators are a table `cap`, with `cap op L R` the answer of the probe; the
types are identified by values of a type `Ty`. -/

namespace Utils

/-- Source `Utils::is_eq_comparable<L, R>::value` and its five siblings: the
operator `op` exists with a left operand `L` and a right operand `R`. -/
def is_comparable {Ty : Type} (cap : Op → Ty → Ty → Bool) (op : Op) (L R : Ty) : Bool :=
  cap op L R

end Utils

namespace Wrapper

/-- The `enable_if` of `Wrapper::Ok<T>::operator op (const Ok<U> &)`:
`is_comparable<T, U>`. -/
def Ok.operator_vs_Ok_enabled {Ty : Type} (cap : Op → Ty → Ty → Bool) (op : Op) (T U : Ty) :
    Bool :=
  Utils.is_comparable cap op T U

/-- The operator the body of `Wrapper::Ok<T>::operator op (const Ok<U> &)` applies,
`_t op other._t`: left operand `T`, right operand `U`. -/
def Ok.operator_vs_Ok_body {Ty : Type} (cap : Op → Ty → Ty → Bool) (op : Op) (T U : Ty) :
    Bool :=
  cap op T U

end Wrapper

namespace Result

/-- The `enable_if` of `operator op (const Wrapper::Ok<U> &)`:
`is_comparable<U, T>`. -/
def operator_vs_Ok_enabled {Ty : Type} (cap : Op → Ty → Ty → Bool) (op : Op) (T U : Ty) :
    Bool :=
  Utils.is_comparable cap op U T

/-- The operator the body of `operator op (const Wrapper::Ok<U> &)` applies,
`storage().get<T>() op other._t`: left operand `T`, right operand `U`. -/
def operator_vs_Ok_body {Ty : Type} (cap : Op → Ty → Ty → Bool) (op : Op) (T U : Ty) : Bool :=
  cap op T U

/-- The `enable_if` of `operator op (const Wrapper::Err<U> &)`:
`is_comparable<U, E>`. -/
def operator_vs_Err_enabled {Ty : Type} (cap : Op → Ty → Ty → Bool) (op : Op) (E U : Ty) :
    Bool :=
  Utils.is_comparable cap op U E

/-- The operator the body of `operator op (const Wrapper::Err<U> &)` applies,
`storage().get<E>() op other._e`: left operand `E`, right operand `U`. -/
def operator_vs_Err_body {Ty : Type} (cap : Op → Ty → Ty → Bool) (op : Op) (E U : Ty) :
    Bool :=
  cap op E U

/-- The two `enable_if` of `operator op (const Result<F, G> &)` in the overload
for success payloads only: `is_comparable<F, T>` and `!is_comparable<G, E>`. -/
def operator_only_Ok_enabled {Ty : Type} (cap : Op → Ty → Ty → Bool) (op : Op)
    (T E F G : Ty) : Bool :=
  Utils.is_comparable cap op F T && !Utils.is_comparable cap op G E

/-- The operator the body of the overload for success payloads only applies,
`storage().get<T>() op other.storage().get<F>()`. -/
def operator_only_Ok_body {Ty : Type} (cap : Op → Ty → Ty → Bool) (op : Op) (T F : Ty) :
    Bool :=
  cap op T F

/-- The two `enable_if` of `operator op (const Result<F, G> &)` in the overload
for failure payloads only: `!is_comparable<F, T>` and `is_comparable<G, E>`. -/
def operator_only_Err_enabled {Ty : Type} (cap : Op → Ty → Ty → Bool) (op : Op)
    (T E F G : Ty) : Bool :=
  !Utils.is_comparable cap op F T && Utils.is_comparable cap op G E

/-- The operator the body of the overload for failure payloads only applies,
`storage().get<E>() op other.storage().get<G>()`. -/
def operator_only_Err_body {Ty : Type} (cap : Op → Ty → Ty → Bool) (op : Op) (E G : Ty) :
    Bool :=
  cap op E G

/-- The two `enable_if` of `operator op (const Result<F, G> &)` in the overload
for both payload pairs: `is_comparable<F, T>` and `is_comparable<G, E>`. -/
def operator_vs_Result_enabled {Ty : Type} (cap : Op → Ty → Ty → Bool) (op : Op)
    (T E F G : Ty) : Bool :=
  Utils.is_comparable cap op F T && Utils.is_comparable cap op G E

/-- The operators the body of the overload for both payload pairs applies,
`get<T>() op other.get<F>()` and `get<E>() op other.get<G>()`. -/
def operator_vs_Result_body {Ty : Type} (cap : Op → Ty → Ty → Bool) (op : Op)
    (T E F G : Ty) : Bool :=
  cap op T F && cap op E G

end Result

/-- Two class types `A` and `B` of a program. -/
inductive TwoTypes : Type where
  | A : TwoTypes
  | B : TwoTypes
  deriving DecidableEq, Repr

/-- The operators of a program that declares only
`bool operator<(const B &, const A &)`. -/
def only_B_less_A : Op → TwoTypes → TwoTypes → Bool
  | Op.lt, TwoTypes.B, TwoTypes.A => true
  | _, _, _ => false

/-! ## Effects on the receiver and payload accesses

Besides the value it returns, a call of a facade operation may write to the
receiver `*this` and calls `Storage::get<U>()` on the receiver, on the other
operand of a comparison, or on a temporary.  `Effect` records both: the receiver
after the call, and the calls of `get` in the order they are made, each with
the slot requested and the discriminant of the Result it reads.

The return statements `return std::move(storage().get<R>())` move the payload
out of the buffer: the move constructor of the payload type may rewrite the
bytes it leaves behind (`moved`, the identity for a trivially copyable type),
and no statement of the header other than the constructors and the move
assignment writes `_type`.  The transforms and comparisons take the receiver
as `const Result &` or only read it, and copy what they read.  A callable is
taken not to alias the receiver. -/

/-- The two payload slots of the buffer: `get<T>()` reads the success slot,
`get<E>()` the failure slot. -/
inductive Slot : Type where
  | success : Slot
  | failure : Slot
  deriving DecidableEq, Repr

/-- One call of `Storage::get<U>()`: the slot requested, and the answers of
`is_ok()` and `is_err()` of the Result that is read. -/
structure Access where
  slot : Slot
  holds_Ok : Bool
  holds_Err : Bool
  deriving DecidableEq, Repr

namespace Access

/-- The discriminant matches the payload type requested. -/
def guarded (a : Access) : Bool :=
  match a.slot with
  | Slot.success => a.holds_Ok
  | Slot.failure => a.holds_Err

/-- The success slot of a failure-active Result, or the failure slot of a
success-active one, is read. -/
def crossed (a : Access) : Bool :=
  match a.slot with
  | Slot.success => a.holds_Err
  | Slot.failure => a.holds_Ok

end Access

/-- What a call does besides returning: the receiver after it, and the calls of
`Storage::get<U>()` it makes. -/
structure Effect (T E : Type) where
  receiver : Result T E
  accesses : List Access

/-- Every access of the call reads the slot the discriminant names, and none
reads the other one. -/
def Effect.safe {T E : Type} (e : Effect T E) : Prop :=
  ∀ a ∈ e.accesses, a.guarded = true ∧ a.crossed = false

namespace Result

variable {T E : Type} [CppType T] [CppType E]

/-- A call of `storage().get<U>()` on `r` for the given slot. -/
def access (hash_code : TypeInfo → Nat) (r : Result T E) (slot : Slot) : Access :=
  { slot := slot, holds_Ok := r.is_ok hash_code, holds_Err := r.is_err hash_code }

/-- The receiver after `std::move(storage().get<R>())` has initialised a return
value: the bytes of the buffer are what the move constructor leaves, `_type` is
not written. -/
def moved_out (moved : List Nat → List Nat) (r : Result T E) : Result T E :=
  { _storage := { _storage := moved r._storage._storage, _type := r._storage._type } }

/-- The answers of `is_ok()` and `is_err()` are the same on both Results. -/
def same_state (hash_code : TypeInfo → Nat) (before after : Result T E) : Prop :=
  after.is_ok hash_code = before.is_ok hash_code
    ∧ after.is_err hash_code = before.is_err hash_code

/-- Effect of `is_ok()`, a `const` member that reads `_type`. -/
def is_ok_effect (r : Result T E) : Effect T E :=
  { receiver := r, accesses := [] }

/-- Effect of `is_err()`, a `const` member that reads `_type`. -/
def is_err_effect (r : Result T E) : Effect T E :=
  { receiver := r, accesses := [] }

/-- Effect of `unwrap()`. -/
def unwrap_effect (moved : List Nat → List Nat) (hash_code : TypeInfo → Nat)
    (r : Result T E) : Effect T E :=
  if r.is_ok hash_code then
    { receiver := r.moved_out moved, accesses := [r.access hash_code Slot.success] }
  else
    { receiver := r, accesses := [] }

/-- Effect of `unwrap_err()`. -/
def unwrap_err_effect (moved : List Nat → List Nat) (hash_code : TypeInfo → Nat)
    (r : Result T E) : Effect T E :=
  if r.is_err hash_code then
    { receiver := r.moved_out moved, accesses := [r.access hash_code Slot.failure] }
  else
    { receiver := r, accesses := [] }

/-- Effect of `unwrap_unchecked()`, whose body is `get<E>()`. -/
def unwrap_unchecked_effect (moved : List Nat → List Nat) (hash_code : TypeInfo → Nat)
    (r : Result T E) : Effect T E :=
  { receiver := r.moved_out moved, accesses := [r.access hash_code Slot.failure] }

/-- Effect of `unwrap_err_unchecked()`. -/
def unwrap_err_unchecked_effect (moved : List Nat → List Nat) (hash_code : TypeInfo → Nat)
    (r : Result T E) : Effect T E :=
  { receiver := r.moved_out moved, accesses := [r.access hash_code Slot.failure] }

/-- Effect of `unwrap_or(t)`. -/
def unwrap_or_effect (moved : List Nat → List Nat) (hash_code : TypeInfo → Nat)
    (r : Result T E) : Effect T E :=
  if r.is_ok hash_code then
    { receiver := r.moved_out moved, accesses := [r.access hash_code Slot.success] }
  else
    { receiver := r, accesses := [] }

/-- Effect of `unwrap_or_default()`. -/
def unwrap_or_default_effect (moved : List Nat → List Nat) (hash_code : TypeInfo → Nat)
    (r : Result T E) : Effect T E :=
  if r.is_err hash_code then
    { receiver := r, accesses := [] }
  else
    { receiver := r.moved_out moved, accesses := [r.access hash_code Slot.success] }

/-- Effect of `expect(s)`. -/
def expect_effect (moved : List Nat → List Nat) (hash_code : TypeInfo → Nat)
    (r : Result T E) : Effect T E :=
  if r.is_ok hash_code then
    { receiver := r.moved_out moved, accesses := [r.access hash_code Slot.success] }
  else
    { receiver := r, accesses := [] }

end Result

namespace Wrapper

namespace Get

/-- Accesses of `Wrapper::Get<Ok<T>>::get(r)`: one `get<T>()` on `r`
(`Get<Ok<void>>` makes none; counting it here only adds an access to check). -/
def get_Ok_accesses {T E : Type} [CppType T] [CppType E] (hash_code : TypeInfo → Nat)
    (r : Result T E) : List Access :=
  [r.access hash_code Slot.success]

/-- Accesses of `Wrapper::Get<Err<E>>::get(r)`: one `get<E>()` on `r`
(`Get<Err<void>>` makes none; counting it here only adds an access to check). -/
def get_Err_accesses {T E : Type} [CppType T] [CppType E] (hash_code : TypeInfo → Nat)
    (r : Result T E) : List Access :=
  [r.access hash_code Slot.failure]

end Get

end Wrapper

namespace Proxy

variable {σ T E Arg R : Type} [CppType T] [CppType E]

/-- Accesses of `Proxy::map(res, fun)`: `Impl::Map<R (Arg)>::map` calls `get<T>()`
on `res` once, `Impl::Map<R (void)>::map` does not read `res`. -/
def map_accesses (hash_code : TypeInfo → Nat) (res : Result T E) (f : CallableSt σ Arg R) :
    List Access :=
  match f with
  | CallableSt.unary _ => [res.access hash_code Slot.success]
  | CallableSt.nullary _ => []

/-- Accesses of `Proxy::map_err(res, fun)`: `Impl::MapErr<R (Arg)>::map_err` calls
`get<E>()` on `res` once, `Impl::MapErr<R (void)>::map_err` does not read `res`. -/
def map_err_accesses (hash_code : TypeInfo → Nat) (res : Result T E)
    (f : CallableSt σ Arg R) : List Access :=
  match f with
  | CallableSt.unary _ => [res.access hash_code Slot.failure]
  | CallableSt.nullary _ => []

end Proxy

namespace Result

variable {σ T E : Type} [CppType T] [CppType E]

/-- Effect of `map(fun)`. -/
def map_effect {Arg R : Type} (hash_code : TypeInfo → Nat) (r : Result T E)
    (f : CallableSt σ Arg R) : Effect T E :=
  { receiver := r
    accesses :=
      if r.is_ok hash_code then
        Proxy.map_accesses hash_code r f
      else
        Wrapper.Get.get_Err_accesses hash_code r }

/-- Effect of `map_err(fun)`. -/
def map_err_effect {Arg R : Type} (hash_code : TypeInfo → Nat) (r : Result T E)
    (f : CallableSt σ Arg R) : Effect T E :=
  { receiver := r
    accesses :=
      if r.is_err hash_code then
        Proxy.map_err_accesses hash_code r f
      else
        Wrapper.Get.get_Ok_accesses hash_code r }

/-- Effect of `map_or(fun, r)`: after `Proxy::map`, `get<R>()` on its temporary. -/
def map_or_effect {Arg R : Type} [CppType R] [Convertible T Arg] (hash_code : TypeInfo → Nat)
    (r : Result T E) (f : CallableSt σ Arg R) (s : σ) : Effect T E :=
  { receiver := r
    accesses :=
      if r.is_ok hash_code then
        Proxy.map_accesses hash_code r f
          ++ [(Proxy.map_st hash_code r f s).1.access hash_code Slot.success]
      else
        [] }

/-- Effect of `map_or_else(fun, other)`: after `Proxy::map` or `Proxy::map_err`,
`get<R>()` on its temporary. -/
def map_or_else_effect {Arg ArgE R : Type} [CppType R] [Convertible T Arg]
    [Convertible E ArgE] (hash_code : TypeInfo → Nat) (r : Result T E)
    (f : CallableSt σ Arg R) (other : CallableSt σ ArgE R) (s : σ) : Effect T E :=
  { receiver := r
    accesses :=
      if r.is_ok hash_code then
        Proxy.map_accesses hash_code r f
          ++ [(Proxy.map_st hash_code r f s).1.access hash_code Slot.success]
      else
        Proxy.map_err_accesses hash_code r other
          ++ [(Proxy.map_err_st hash_code r other s).1.access hash_code Slot.failure] }

/-- Effect of `and_then(fun)`. -/
def and_then_effect {Arg U : Type} [CppType U] [Convertible T Arg]
    (hash_code : TypeInfo → Nat) (r : Result T E) (f : CallableSt σ Arg (Result U E))
    (s : σ) : Effect T E :=
  { receiver := r
    accesses :=
      if r.is_ok hash_code then
        Proxy.map_accesses hash_code r f
          ++ [(Proxy.map_st hash_code r f s).1.access hash_code Slot.success]
      else
        Wrapper.Get.get_Err_accesses hash_code r }

/-- Effect of `or_else(fun)`. -/
def or_else_effect {Arg U : Type} [CppType U] [Convertible E Arg]
    (hash_code : TypeInfo → Nat) (r : Result T E) (f : CallableSt σ Arg (Result T U))
    (s : σ) : Effect T E :=
  { receiver := r
    accesses :=
      if r.is_err hash_code then
        Proxy.map_err_accesses hash_code r f
          ++ [(Proxy.map_err_st hash_code r f s).1.access hash_code Slot.failure]
      else
        Wrapper.Get.get_Ok_accesses hash_code r }

/-- Effect of `operator op (const Wrapper::Ok<U> &)`: `get<T>()` is the right
operand of `&&`, evaluated when `is_ok()` is true. -/
def operator_vs_Ok_effect (hash_code : TypeInfo → Nat) (r : Result T E) : Effect T E :=
  { receiver := r
    accesses := if r.is_ok hash_code then [r.access hash_code Slot.success] else [] }

/-- Effect of `operator op (const Wrapper::Err<U> &)`. -/
def operator_vs_Err_effect (hash_code : TypeInfo → Nat) (r : Result T E) : Effect T E :=
  { receiver := r
    accesses := if r.is_err hash_code then [r.access hash_code Slot.failure] else [] }

/-- Effect of `operator op (const Result<F, G> &)`, success payloads only. -/
def operator_only_Ok_effect {F G : Type} [CppType F] [CppType G]
    (hash_code : TypeInfo → Nat) (r : Result T E) (other : Result F G) : Effect T E :=
  { receiver := r
    accesses :=
      if r.is_ok hash_code && other.is_ok hash_code then
        [r.access hash_code Slot.success, other.access hash_code Slot.success]
      else
        [] }

/-- Effect of `operator op (const Result<F, G> &)`, failure payloads only. -/
def operator_only_Err_effect {F G : Type} [CppType F] [CppType G]
    (hash_code : TypeInfo → Nat) (r : Result T E) (other : Result F G) : Effect T E :=
  { receiver := r
    accesses :=
      if r.is_err hash_code && other.is_err hash_code then
        [r.access hash_code Slot.failure, other.access hash_code Slot.failure]
      else
        [] }

/-- Effect of `operator op (const Result<F, G> &)`, both payload pairs. -/
def operator_vs_Result_effect {F G : Type} [CppType F] [CppType G]
    (hash_code : TypeInfo → Nat) (r : Result T E) (other : Result F G) : Effect T E :=
  { receiver := r
    accesses :=
      if r.is_ok hash_code && other.is_ok hash_code then
        [r.access hash_code Slot.success, other.access hash_code Slot.success]
      else if r.is_err hash_code && other.is_err hash_code then
        [r.access hash_code Slot.failure, other.access hash_code Slot.failure]
      else
        [] }

end Result

/-! ## Calls that may not return, and the objects a call works on

`RESULT_ERROR` ends the program from whatever depth it is run: a callable that
runs it (by calling `unwrap()` on a failure, say) ends the transform that
invoked it, and so does a payload comparison.  In this section a callable and
a payload comparison may end in `RESULT_ERROR`, and a transform is given with
the three things its caller can observe (suffix `_run`): how the call ends,
the receiver after it, and the state of the callables after it.

The objects a transform works on are the receiver `*this`, the local `ok` /
`err` that is copy-initialised from a payload, and the temporary returned by
`Proxy::map` / `Proxy::map_err`.  `std::move(x)` hands `x` to a move
constructor, which may rewrite the bytes of `x` (`moved`, the identity for a
trivially copyable type).  A callable is taken not to alias the receiver. -/

/-- Sequencing of two calls: the second runs on what the first returned, and
does not run when the first ended in `RESULT_ERROR`. -/
def Outcome.bind {α β : Type} (o : Outcome α) (k : α → Outcome β) : Outcome β :=
  match o with
  | Outcome.returned value => k value
  | Outcome.terminated diagnostic => Outcome.terminated diagnostic

/-- A callable with side effects on a state `σ` that may end in `RESULT_ERROR`,
with one parameter of type `Arg` or none, returning `R` (`CppVoid` for
`void`). -/
inductive CallableRun (σ Arg R : Type) : Type where
  | unary (f : Arg → σ → Outcome (R × σ)) : CallableRun σ Arg R
  | nullary (f : CppVoid → σ → Outcome (R × σ)) : CallableRun σ Arg R

/-- A callable that always returns, as one that may not. -/
def CallableSt.run {σ Arg R : Type} : CallableSt σ Arg R → CallableRun σ Arg R
  | CallableSt.unary f => CallableRun.unary (fun a s => Outcome.returned (f a s))
  | CallableSt.nullary f => CallableRun.nullary (fun a s => Outcome.returned (f a s))

/-- The callable is total: it returns on every argument, in every state. -/
def CallableRun.total {σ Arg R : Type} : CallableRun σ Arg R → Prop
  | CallableRun.unary f => ∀ (a : Arg) (s : σ), ∃ y, f a s = Outcome.returned y
  | CallableRun.nullary f => ∀ (a : CppVoid) (s : σ), ∃ y, f a s = Outcome.returned y

/-- The callable ends in `RESULT_ERROR` with the given diagnostic on some
argument, in some state. -/
def CallableRun.fatal {σ Arg R : Type} (diagnostic : String) : CallableRun σ Arg R → Prop
  | CallableRun.unary f => ∃ (a : Arg) (s : σ), f a s = Outcome.terminated diagnostic
  | CallableRun.nullary f => ∃ (a : CppVoid) (s : σ), f a s = Outcome.terminated diagnostic

/-- The objects a transform of a `Result<T, E>` works on: the receiver, the
object representation of the local `ok` / `err`, and the buffer of the
temporary returned by `Proxy::map` / `Proxy::map_err`. -/
structure Frame (T E : Type) where
  receiver : Result T E
  copy : List Nat
  temporary : List Nat

namespace Frame

variable {T E : Type} [CppType T] [CppType E]

/-- Entry of a member function called on `r`: no local, no temporary yet. -/
def enter (r : Result T E) : Frame T E :=
  { receiver := r, copy := [], temporary := [] }

/-- Source `auto ok = r.storage().template get<U>();` with `r` a `const` reference
to the receiver: the `const` overload of `get` returns a `const U &`, from which
the local is copy-initialised. -/
def copy_payload (U : Type) [CppType U] (m : Frame T E) : Frame T E :=
  { m with copy := CppType.store (m.receiver.storage.get U) }

/-- The value of the local `ok` / `err`. -/
def local_value (U : Type) [CppType U] (m : Frame T E) : U :=
  CppType.load m.copy

/-- Source `std::move(ok)` / `std::move(err)` given to a callable or to a wrapper
constructor: the local is moved from. -/
def move_local (moved : List Nat → List Nat) (m : Frame T E) : Frame T E :=
  { m with copy := moved m.copy }

/-- The temporary that `Proxy::map(*this, fun)` / `Proxy::map_err(*this, fun)`
returned. -/
def hold_temporary {R G : Type} (t : Result R G) (m : Frame T E) : Frame T E :=
  { m with temporary := t._storage._storage }

/-- Source `.storage().template get<U>()` on the temporary. -/
def temporary_value (U : Type) [CppType U] (m : Frame T E) : U :=
  CppType.load m.temporary

/-- Source `return std::move(<temporary>.storage().template get<U>());`: the payload
of the temporary is moved from. -/
def move_temporary (moved : List Nat → List Nat) (m : Frame T E) : Frame T E :=
  { m with temporary := moved m.temporary }

end Frame

namespace Wrapper

namespace Get

variable {T E : Type} [CppType T] [CppType E]

/-- Source `Wrapper::Get<Ok<T>>::get(r)`, with `r` a reference to the receiver:
`auto ok = r.storage().template get<T>(); return Ok<T>(std::move(ok));`
(`Get<Ok<void>>`, which does not read `r`, is the instance at `CppVoid`, where
no byte is copied). -/
def get_Ok_run (moved : List Nat → List Nat) (m : Frame T E) : Wrapper.Ok T × Frame T E :=
  let m1 := m.copy_payload T
  (Wrapper.Ok.mk (m1.local_value T), m1.move_local moved)

/-- Source `Wrapper::Get<Err<E>>::get(r)`, with `r` a reference to the receiver:
`auto err = r.storage().template get<E>(); return Err<E>(std::move(err));`
(`Get<Err<void>>`, which does not read `r`, is the instance at `CppVoid`, where
no byte is copied). -/
def get_Err_run (moved : List Nat → List Nat) (m : Frame T E) :
    Wrapper.Err E × Frame T E :=
  let m1 := m.copy_payload E
  (Wrapper.Err.mk (m1.local_value E), m1.move_local moved)

end Get

end Wrapper

namespace Impl

namespace Map

variable {σ T E Arg R : Type} [CppType T] [CppType E] [CppType R]

/-- Source `Impl::Map<R (Arg)>::map` (and `Impl::Map<void (Arg)>::map` at
`R = CppVoid`), with `r` a reference to the receiver:
`auto ok = r.storage().template get<T>(); auto ret = fun(std::move(ok));
return Ok(std::move(ret));`. -/
def map_Arg_run [Convertible T Arg] (moved : List Nat → List Nat)
    (hash_code : TypeInfo → Nat) (m : Frame T E) (f : Arg → σ → Outcome (R × σ)) (s : σ) :
    Outcome (Result R E × Frame T E × σ) :=
  let m1 := m.copy_payload T
  (f (Convertible.convert (m1.local_value T)) s).bind (fun ret =>
    Outcome.returned (Result.ctor_Ok hash_code (Ok ret.1), m1.move_local moved, ret.2))

/-- Source `Impl::Map<R (void)>::map` (and `Impl::Map<void (void)>::map` at
`R = CppVoid`): `auto ret = fun(); return Ok(std::move(ret));`. -/
def map_void_run (hash_code : TypeInfo → Nat) (m : Frame T E)
    (f : CppVoid → σ → Outcome (R × σ)) (s : σ) : Outcome (Result R E × Frame T E × σ) :=
  (f CppVoid.unit s).bind (fun ret =>
    Outcome.returned (Result.ctor_Ok hash_code (Ok ret.1), m, ret.2))

end Map

namespace MapErr

variable {σ T E Arg R : Type} [CppType T] [CppType E] [CppType R]

/-- Source `Impl::MapErr<R (Arg)>::map_err` (and `Impl::MapErr<void (Arg)>::map_err`
at `R = CppVoid`), with `r` a reference to the receiver:
`auto err = r.storage().template get<E>(); auto ret = fun(std::move(err));
return Err(std::move(ret));`. -/
def map_err_Arg_run [Convertible E Arg] (moved : List Nat → List Nat)
    (hash_code : TypeInfo → Nat) (m : Frame T E) (f : Arg → σ → Outcome (R × σ)) (s : σ) :
    Outcome (Result T R × Frame T E × σ) :=
  let m1 := m.copy_payload E
  (f (Convertible.convert (m1.local_value E)) s).bind (fun ret =>
    Outcome.returned (Result.ctor_Err hash_code (Err ret.1), m1.move_local moved, ret.2))

/-- Source `Impl::MapErr<R (void)>::map_err` (and `Impl::MapErr<void (void)>::map_err`
at `R = CppVoid`): `auto ret = fun(); return Err(std::move(ret));`. -/
def map_err_void_run (hash_code : TypeInfo → Nat) (m : Frame T E)
    (f : CppVoid → σ → Outcome (R × σ)) (s : σ) : Outcome (Result T R × Frame T E × σ) :=
  (f CppVoid.unit s).bind (fun ret =>
    Outcome.returned (Result.ctor_Err hash_code (Err ret.1), m, ret.2))

end MapErr

end Impl

namespace Resolve

namespace Map

variable {σ T E Arg R : Type} [CppType T] [CppType E] [CppType R]

/-- Source `Resolve::Map<F>::map`: the specialisation of `Impl::Map` selected by the
signature of `F`. -/
def map_run [Convertible T Arg] (moved : List Nat → List Nat) (hash_code : TypeInfo → Nat)
    (m : Frame T E) (f : CallableRun σ Arg R) (s : σ) :
    Outcome (Result R E × Frame T E × σ) :=
  match f with
  | CallableRun.unary g => Impl.Map.map_Arg_run moved hash_code m g s
  | CallableRun.nullary g => Impl.Map.map_void_run hash_code m g s

end Map

namespace MapErr

variable {σ T E Arg R : Type} [CppType T] [CppType E] [CppType R]

/-- Source `Resolve::MapErr<F>::map_err`: the specialisation of `Impl::MapErr`
selected by the signature of `F`. -/
def map_err_run [Convertible E Arg] (moved : List Nat → List Nat)
    (hash_code : TypeInfo → Nat) (m : Frame T E) (f : CallableRun σ Arg R) (s : σ) :
    Outcome (Result T R × Frame T E × σ) :=
  match f with
  | CallableRun.unary g => Impl.MapErr.map_err_Arg_run moved hash_code m g s
  | CallableRun.nullary g => Impl.MapErr.map_err_void_run hash_code m g s

end MapErr

end Resolve

namespace Proxy

variable {σ T E Arg R : Type} [CppType T] [CppType E] [CppType R]

/-- Source `Proxy::map(res, fun)`, with `res` a reference to the receiver. -/
def map_run [Convertible T Arg] (moved : List Nat → List Nat) (hash_code : TypeInfo → Nat)
    (m : Frame T E) (f : CallableRun σ Arg R) (s : σ) :
    Outcome (Result R E × Frame T E × σ) :=
  Resolve.Map.map_run moved hash_code m f s

/-- Source `Proxy::map_err(res, fun)`, with `res` a reference to the receiver. -/
def map_err_run [Convertible E Arg] (moved : List Nat → List Nat)
    (hash_code : TypeInfo → Nat) (m : Frame T E) (f : CallableRun σ Arg R) (s : σ) :
    Outcome (Result T R × Frame T E × σ) :=
  Resolve.MapErr.map_err_run moved hash_code m f s

end Proxy

namespace Result

variable {σ T E : Type} [CppType T] [CppType E]

/-- Source `map(fun)` called on `r`: how the call ends and, when it returns, the
value, the receiver after the call and the state after it. -/
def map_run {Arg R : Type} [CppType R] [Convertible T Arg] (moved : List Nat → List Nat)
    (hash_code : TypeInfo → Nat) (r : Result T E) (f : CallableRun σ Arg R) (s : σ) :
    Outcome (Result R E × Result T E × σ) :=
  let m := Frame.enter r
  if m.receiver.is_ok hash_code then
    (Proxy.map_run moved hash_code m f s).bind (fun x =>
      Outcome.returned (x.1, x.2.1.receiver, x.2.2))
  else
    let got := Wrapper.Get.get_Err_run moved m
    Outcome.returned (Result.ctor_Err hash_code got.1, got.2.receiver, s)

/-- Source `map_err(fun)` called on `r`. -/
def map_err_run {Arg R : Type} [CppType R] [Convertible E Arg]
    (moved : List Nat → List Nat) (hash_code : TypeInfo → Nat) (r : Result T E)
    (f : CallableRun σ Arg R) (s : σ) : Outcome (Result T R × Result T E × σ) :=
  let m := Frame.enter r
  if m.receiver.is_err hash_code then
    (Proxy.map_err_run moved hash_code m f s).bind (fun x =>
      Outcome.returned (x.1, x.2.1.receiver, x.2.2))
  else
    let got := Wrapper.Get.get_Ok_run moved m
    Outcome.returned (Result.ctor_Ok hash_code got.1, got.2.receiver, s)

/-- Source `map_or(fun, r)` called on `r`:
`return std::move(Proxy::map(*this, fun).storage().template get<R>());` or
`return r;`. -/
def map_or_run {Arg R : Type} [CppType R] [Convertible T Arg] (moved : List Nat → List Nat)
    (hash_code : TypeInfo → Nat) (r : Result T E) (f : CallableRun σ Arg R) (fallback : R)
    (s : σ) : Outcome (R × Result T E × σ) :=
  let m := Frame.enter r
  if m.receiver.is_ok hash_code then
    (Proxy.map_run moved hash_code m f s).bind (fun x =>
      let m1 := x.2.1.hold_temporary x.1
      Outcome.returned (m1.temporary_value R, (m1.move_temporary moved).receiver, x.2.2))
  else
    Outcome.returned (fallback, m.receiver, s)

/-- Source `map_or_else(fun, other)` called on `r`. -/
def map_or_else_run {Arg ArgE R : Type} [CppType R] [Convertible T Arg]
    [Convertible E ArgE] (moved : List Nat → List Nat) (hash_code : TypeInfo → Nat)
    (r : Result T E) (f : CallableRun σ Arg R) (other : CallableRun σ ArgE R) (s : σ) :
    Outcome (R × Result T E × σ) :=
  let m := Frame.enter r
  if m.receiver.is_ok hash_code then
    (Proxy.map_run moved hash_code m f s).bind (fun x =>
      let m1 := x.2.1.hold_temporary x.1
      Outcome.returned (m1.temporary_value R, (m1.move_temporary moved).receiver, x.2.2))
  else
    (Proxy.map_err_run moved hash_code m other s).bind (fun x =>
      let m1 := x.2.1.hold_temporary x.1
      Outcome.returned (m1.temporary_value R, (m1.move_temporary moved).receiver, x.2.2))

/-- Source `and_then(fun)` called on `r`, with `R = Result<U, E>` the return type
of `fun`. -/
def and_then_run {Arg U : Type} [CppType U] [Convertible T Arg]
    (moved : List Nat → List Nat) (hash_code : TypeInfo → Nat) (r : Result T E)
    (f : CallableRun σ Arg (Result U E)) (s : σ) : Outcome (Result U E × Result T E × σ) :=
  let m := Frame.enter r
  if m.receiver.is_ok hash_code then
    (Proxy.map_run moved hash_code m f s).bind (fun x =>
      let m1 := x.2.1.hold_temporary x.1
      Outcome.returned
        (m1.temporary_value (Result U E), (m1.move_temporary moved).receiver, x.2.2))
  else
    let got := Wrapper.Get.get_Err_run moved m
    Outcome.returned (Result.ctor_Err hash_code got.1, got.2.receiver, s)

/-- Source `or_else(fun)` called on `r`, with `R = Result<T, U>` the return type
of `fun`. -/
def or_else_run {Arg U : Type} [CppType U] [Convertible E Arg]
    (moved : List Nat → List Nat) (hash_code : TypeInfo → Nat) (r : Result T E)
    (f : CallableRun σ Arg (Result T U)) (s : σ) : Outcome (Result T U × Result T E × σ) :=
  let m := Frame.enter r
  if m.receiver.is_err hash_code then
    (Proxy.map_err_run moved hash_code m f s).bind (fun x =>
      let m1 := x.2.1.hold_temporary x.1
      Outcome.returned
        (m1.temporary_value (Result T U), (m1.move_temporary moved).receiver, x.2.2))
  else
    let got := Wrapper.Get.get_Ok_run moved m
    Outcome.returned (Result.ctor_Ok hash_code got.1, got.2.receiver, s)

/-- Source `unwrap()` called on `r`, for comparison with the transforms:
`return std::move(storage().template get<R>());` moves the payload out of the
receiver itself. -/
def unwrap_run (moved : List Nat → List Nat) (hash_code : TypeInfo → Nat) (r : Result T E) :
    Outcome (T × Result T E) :=
  if r.is_ok hash_code then
    Outcome.returned (r.storage.get T, r.moved_out moved)
  else
    RESULT_ERROR "Tried to unwrap a result containing an error"

/-- Source `operator op (const Wrapper::Ok<U> &other)` with a payload operator
`cmp` that may end in `RESULT_ERROR`; `&&` evaluates its right operand only
when the left one is true. -/
def operator_vs_Ok_run {U : Type} (hash_code : TypeInfo → Nat) (cmp : T → U → Outcome Bool)
    (r : Result T E) (other : Wrapper.Ok U) : Outcome Bool :=
  if r.is_ok hash_code then
    cmp (r.storage.get T) other._t
  else
    Outcome.returned false

/-- Source `operator op (const Wrapper::Err<U> &other)` with a payload operator
that may end in `RESULT_ERROR`. -/
def operator_vs_Err_run {U : Type} (hash_code : TypeInfo → Nat) (cmp : E → U → Outcome Bool)
    (r : Result T E) (other : Wrapper.Err U) : Outcome Bool :=
  if r.is_err hash_code then
    cmp (r.storage.get E) other._e
  else
    Outcome.returned false

/-- Source `operator op (const Result<F, G> &other)`, success payloads only, with
a payload operator that may end in `RESULT_ERROR`. -/
def operator_only_Ok_run {F G : Type} [CppType F] [CppType G] (hash_code : TypeInfo → Nat)
    (cmp : T → F → Outcome Bool) (r : Result T E) (other : Result F G) : Outcome Bool :=
  if r.is_ok hash_code && other.is_ok hash_code then
    cmp (r.storage.get T) (other.storage.get F)
  else
    Outcome.returned false

/-- Source `operator op (const Result<F, G> &other)`, failure payloads only, with
a payload operator that may end in `RESULT_ERROR`. -/
def operator_only_Err_run {F G : Type} [CppType F] [CppType G] (hash_code : TypeInfo → Nat)
    (cmp : E → G → Outcome Bool) (r : Result T E) (other : Result F G) : Outcome Bool :=
  if r.is_err hash_code && other.is_err hash_code then
    cmp (r.storage.get E) (other.storage.get G)
  else
    Outcome.returned false

/-- Source `operator op (const Result<F, G> &other)`, both payload pairs, with
payload operators that may end in `RESULT_ERROR`. -/
def operator_vs_Result_run {F G : Type} [CppType F] [CppType G]
    (hash_code : TypeInfo → Nat) (cmpT : T → F → Outcome Bool) (cmpE : E → G → Outcome Bool)
    (r : Result T E) (other : Result F G) : Outcome Bool :=
  if r.is_ok hash_code && other.is_ok hash_code then
    cmpT (r.storage.get T) (other.storage.get F)
  else if r.is_err hash_code && other.is_err hash_code then
    cmpE (r.storage.get E) (other.storage.get G)
  else
    Outcome.returned false

end Result

/-! ## Lemmas on the storage -/

section StorageLemmas

variable {T E : Type} [CppType T] [CppType E]

theorem Utils.Storage.get_ctor_Ok (hash_code : TypeInfo → Nat) (s : Wrapper.Ok T) :
    (Utils.Storage.ctor_Ok hash_code s : Utils.Storage T E).get T = s._t := by
  simp only [Utils.Storage.get, Utils.Storage.ctor_Ok, Utils.Storage.construct_Ok,
    Utils.Storage.assign]
  exact CppType.load_store _ _

theorem Utils.Storage.get_ctor_Err (hash_code : TypeInfo → Nat) (s : Wrapper.Err E) :
    (Utils.Storage.ctor_Err hash_code s : Utils.Storage T E).get E = s._e := by
  simp only [Utils.Storage.get, Utils.Storage.ctor_Err, Utils.Storage.construct_Err,
    Utils.Storage.assign]
  exact CppType.load_store _ _

/-- At `T = void` the buffer has the `sizeof(E)` bytes of `Storage<void, E>`. -/
theorem Utils.Storage.zeroed_void_success :
    Utils.Storage.zeroed CppVoid E = List.replicate (CppType.sizeof E) 0 := by
  simp [Utils.Storage.zeroed, Utils.max, CppType.sizeof]

/-- At `E = void` the buffer has the `sizeof(T)` bytes of `Storage<T, void>`. -/
theorem Utils.Storage.zeroed_void_failure :
    Utils.Storage.zeroed T CppVoid = List.replicate (CppType.sizeof T) 0 := by
  unfold Utils.Storage.zeroed Utils.max
  split
  · rfl
  · rename_i h
    have h0 : CppType.sizeof T = 0 := Nat.eq_zero_of_not_pos h
    rw [h0]
    rfl

/-- At `T = E = void` there is no buffer, as in `Storage<void, void>`. -/
theorem Utils.Storage.zeroed_void_void :
    Utils.Storage.zeroed CppVoid CppVoid = [] := by
  rfl

/-- Constructing from `Ok()` writes nothing, as `construct(Wrapper::Ok<void>)`. -/
theorem Utils.Storage.construct_Ok_void (bytes : List Nat) :
    Utils.Storage.construct_Ok bytes Ok_void = bytes := by
  rfl

/-- Constructing from `Err()` writes nothing, as `construct(Wrapper::Err<void>)`. -/
theorem Utils.Storage.construct_Err_void (bytes : List Nat) :
    Utils.Storage.construct_Err bytes Err_void = bytes := by
  rfl

theorem Result.payload_ctor_Ok (hash_code : TypeInfo → Nat) (s : Wrapper.Ok T) :
    (Result.ctor_Ok hash_code s : Result T E).storage.get T = s._t :=
  Utils.Storage.get_ctor_Ok hash_code s

theorem Result.payload_ctor_Err (hash_code : TypeInfo → Nat) (s : Wrapper.Err E) :
    (Result.ctor_Err hash_code s : Result T E).storage.get E = s._e :=
  Utils.Storage.get_ctor_Err hash_code s

theorem Result.is_ok_ctor_Ok (hash_code : TypeInfo → Nat) (s : Wrapper.Ok T) :
    (Result.ctor_Ok hash_code s : Result T E).is_ok hash_code = true := by
  simp [Result.is_ok, Result.storage, Result.ctor_Ok, Utils.Storage.ctor_Ok,
    Utils.Storage.holds_alternative]

theorem Result.is_err_ctor_Err (hash_code : TypeInfo → Nat) (s : Wrapper.Err E) :
    (Result.ctor_Err hash_code s : Result T E).is_err hash_code = true := by
  simp [Result.is_err, Result.storage, Result.ctor_Err, Utils.Storage.ctor_Err,
    Utils.Storage.holds_alternative]

theorem Result.is_err_ctor_Ok (hash_code : TypeInfo → Nat) (s : Wrapper.Ok T) :
    (Result.ctor_Ok hash_code s : Result T E).is_err hash_code
      = (hash_code (TypeInfo.Err (CppType.name E))
          == hash_code (TypeInfo.Ok (CppType.name T))) := by
  simp [Result.is_err, Result.storage, Result.ctor_Ok, Utils.Storage.ctor_Ok,
    Utils.Storage.holds_alternative]

theorem Result.is_ok_ctor_Err (hash_code : TypeInfo → Nat) (s : Wrapper.Err E) :
    (Result.ctor_Err hash_code s : Result T E).is_ok hash_code
      = (hash_code (TypeInfo.Ok (CppType.name T))
          == hash_code (TypeInfo.Err (CppType.name E))) := by
  simp [Result.is_ok, Result.storage, Result.ctor_Err, Utils.Storage.ctor_Err,
    Utils.Storage.holds_alternative]

theorem Result.is_err_ctor_Ok_of_ne (hash_code : TypeInfo → Nat)
    (hne : hash_code (TypeInfo.Ok (CppType.name T))
      ≠ hash_code (TypeInfo.Err (CppType.name E)))
    (s : Wrapper.Ok T) :
    (Result.ctor_Ok hash_code s : Result T E).is_err hash_code = false := by
  rw [Result.is_err_ctor_Ok]
  exact beq_false_of_ne (Ne.symm hne)

theorem Result.is_ok_ctor_Err_of_ne (hash_code : TypeInfo → Nat)
    (hne : hash_code (TypeInfo.Ok (CppType.name T))
      ≠ hash_code (TypeInfo.Err (CppType.name E)))
    (s : Wrapper.Err E) :
    (Result.ctor_Err hash_code s : Result T E).is_ok hash_code = false := by
  rw [Result.is_ok_ctor_Err]
  exact beq_false_of_ne hne

end StorageLemmas

/-! ## Lemmas on calls that may not return -/

section RunLemmas

variable {σ T E : Type} [CppType T] [CppType E]

/-- A total callable does not end in `RESULT_ERROR`. -/
theorem CallableRun.total_not_fatal {Arg R : Type} (f : CallableRun σ Arg R) (hf : f.total)
    (diagnostic : String) : ¬ f.fatal diagnostic := by
  cases f with
  | unary g =>
    rintro ⟨a, s, h⟩
    obtain ⟨y, hy⟩ := hf a s
    rw [hy] at h
    cases h
  | nullary g =>
    rintro ⟨a, s, h⟩
    obtain ⟨y, hy⟩ := hf a s
    rw [hy] at h
    cases h

/-- A callable that always returns is total. -/
theorem CallableSt.run_total {Arg R : Type} (f : CallableSt σ Arg R) :
    (CallableSt.run f).total := by
  cases f with
  | unary g => exact fun a s => ⟨g a s, rfl⟩
  | nullary g => exact fun a s => ⟨g a s, rfl⟩

omit [CppType T] [CppType E] in
/-- The local copy holds the payload it was initialised from. -/
theorem Frame.local_value_copy_payload (U : Type) [CppType U] (m : Frame T E) :
    (m.copy_payload U).local_value U = m.receiver.storage.get U := by
  have h := CppType.load_store (m.receiver.storage.get U) []
  simpa [Frame.local_value, Frame.copy_payload] using h

/-- A call of `Proxy::map` that returns leaves the receiver as it was. -/
theorem Proxy.map_run_receiver {Arg R : Type} [CppType R] [Convertible T Arg]
    (moved : List Nat → List Nat) (hash_code : TypeInfo → Nat) (m : Frame T E)
    (f : CallableRun σ Arg R) (s : σ) (x : Result R E × Frame T E × σ)
    (h : Proxy.map_run moved hash_code m f s = Outcome.returned x) :
    x.2.1.receiver = m.receiver := by
  cases f with
  | unary g =>
    simp only [Proxy.map_run, Resolve.Map.map_run, Impl.Map.map_Arg_run] at h
    cases hg : g (Convertible.convert ((m.copy_payload T).local_value T)) s with
    | returned y =>
      rw [hg] at h
      simp only [Outcome.bind, Outcome.returned.injEq] at h
      rw [← h]
      rfl
    | terminated d =>
      rw [hg] at h
      cases h
  | nullary g =>
    simp only [Proxy.map_run, Resolve.Map.map_run, Impl.Map.map_void_run] at h
    cases hg : g CppVoid.unit s with
    | returned y =>
      rw [hg] at h
      simp only [Outcome.bind, Outcome.returned.injEq] at h
      rw [← h]
    | terminated d =>
      rw [hg] at h
      cases h

/-- A call of `Proxy::map_err` that returns leaves the receiver as it was. -/
theorem Proxy.map_err_run_receiver {Arg R : Type} [CppType R] [Convertible E Arg]
    (moved : List Nat → List Nat) (hash_code : TypeInfo → Nat) (m : Frame T E)
    (f : CallableRun σ Arg R) (s : σ) (x : Result T R × Frame T E × σ)
    (h : Proxy.map_err_run moved hash_code m f s = Outcome.returned x) :
    x.2.1.receiver = m.receiver := by
  cases f with
  | unary g =>
    simp only [Proxy.map_err_run, Resolve.MapErr.map_err_run,
      Impl.MapErr.map_err_Arg_run] at h
    cases hg : g (Convertible.convert ((m.copy_payload E).local_value E)) s with
    | returned y =>
      rw [hg] at h
      simp only [Outcome.bind, Outcome.returned.injEq] at h
      rw [← h]
      rfl
    | terminated d =>
      rw [hg] at h
      cases h
  | nullary g =>
    simp only [Proxy.map_err_run, Resolve.MapErr.map_err_run,
      Impl.MapErr.map_err_void_run] at h
    cases hg : g CppVoid.unit s with
    | returned y =>
      rw [hg] at h
      simp only [Outcome.bind, Outcome.returned.injEq] at h
      rw [← h]
    | terminated d =>
      rw [hg] at h
      cases h

/-- With a total callable `Proxy::map` returns. -/
theorem Proxy.map_run_total {Arg R : Type} [CppType R] [Convertible T Arg]
    (moved : List Nat → List Nat) (hash_code : TypeInfo → Nat) (m : Frame T E)
    (f : CallableRun σ Arg R) (hf : f.total) (s : σ) :
    ∃ x, Proxy.map_run moved hash_code m f s = Outcome.returned x := by
  cases f with
  | unary g =>
    obtain ⟨y, hy⟩ := hf (Convertible.convert ((m.copy_payload T).local_value T)) s
    simp [Proxy.map_run, Resolve.Map.map_run, Impl.Map.map_Arg_run, hy, Outcome.bind]
  | nullary g =>
    obtain ⟨y, hy⟩ := hf CppVoid.unit s
    simp [Proxy.map_run, Resolve.Map.map_run, Impl.Map.map_void_run, hy, Outcome.bind]

/-- With a total callable `Proxy::map_err` returns. -/
theorem Proxy.map_err_run_total {Arg R : Type} [CppType R] [Convertible E Arg]
    (moved : List Nat → List Nat) (hash_code : TypeInfo → Nat) (m : Frame T E)
    (f : CallableRun σ Arg R) (hf : f.total) (s : σ) :
    ∃ x, Proxy.map_err_run moved hash_code m f s = Outcome.returned x := by
  cases f with
  | unary g =>
    obtain ⟨y, hy⟩ := hf (Convertible.convert ((m.copy_payload E).local_value E)) s
    simp [Proxy.map_err_run, Resolve.MapErr.map_err_run, Impl.MapErr.map_err_Arg_run, hy,
      Outcome.bind]
  | nullary g =>
    obtain ⟨y, hy⟩ := hf CppVoid.unit s
    simp [Proxy.map_err_run, Resolve.MapErr.map_err_run, Impl.MapErr.map_err_void_run, hy,
      Outcome.bind]

/-- When `Proxy::map` ends in `RESULT_ERROR`, the callable did. -/
theorem Proxy.map_run_fatal {Arg R : Type} [CppType R] [Convertible T Arg]
    (moved : List Nat → List Nat) (hash_code : TypeInfo → Nat) (m : Frame T E)
    (f : CallableRun σ Arg R) (s : σ) (diagnostic : String)
    (h : Proxy.map_run moved hash_code m f s = Outcome.terminated diagnostic) :
    f.fatal diagnostic := by
  cases f with
  | unary g =>
    simp only [Proxy.map_run, Resolve.Map.map_run, Impl.Map.map_Arg_run] at h
    cases hg : g (Convertible.convert ((m.copy_payload T).local_value T)) s with
    | returned y =>
      rw [hg] at h
      cases h
    | terminated d =>
      rw [hg] at h
      simp only [Outcome.bind, Outcome.terminated.injEq] at h
      exact ⟨_, s, h ▸ hg⟩
  | nullary g =>
    simp only [Proxy.map_run, Resolve.Map.map_run, Impl.Map.map_void_run] at h
    cases hg : g CppVoid.unit s with
    | returned y =>
      rw [hg] at h
      cases h
    | terminated d =>
      rw [hg] at h
      simp only [Outcome.bind, Outcome.terminated.injEq] at h
      exact ⟨_, s, h ▸ hg⟩

/-- When `Proxy::map_err` ends in `RESULT_ERROR`, the callable did. -/
theorem Proxy.map_err_run_fatal {Arg R : Type} [CppType R] [Convertible E Arg]
    (moved : List Nat → List Nat) (hash_code : TypeInfo → Nat) (m : Frame T E)
    (f : CallableRun σ Arg R) (s : σ) (diagnostic : String)
    (h : Proxy.map_err_run moved hash_code m f s = Outcome.terminated diagnostic) :
    f.fatal diagnostic := by
  cases f with
  | unary g =>
    simp only [Proxy.map_err_run, Resolve.MapErr.map_err_run,
      Impl.MapErr.map_err_Arg_run] at h
    cases hg : g (Convertible.convert ((m.copy_payload E).local_value E)) s with
    | returned y =>
      rw [hg] at h
      cases h
    | terminated d =>
      rw [hg] at h
      simp only [Outcome.bind, Outcome.terminated.injEq] at h
      exact ⟨_, s, h ▸ hg⟩
  | nullary g =>
    simp only [Proxy.map_err_run, Resolve.MapErr.map_err_run,
      Impl.MapErr.map_err_void_run] at h
    cases hg : g CppVoid.unit s with
    | returned y =>
      rw [hg] at h
      cases h
    | terminated d =>
      rw [hg] at h
      simp only [Outcome.bind, Outcome.terminated.injEq] at h
      exact ⟨_, s, h ▸ hg⟩

/-- With a callable that always returns, `Proxy::map` returns the value and the
state of `Proxy.map_st`, and leaves the receiver as it was. -/
theorem Proxy.map_run_returns_map_st {Arg R : Type} [CppType R] [Convertible T Arg]
    (moved : List Nat → List Nat) (hash_code : TypeInfo → Nat) (m : Frame T E)
    (f : CallableSt σ Arg R) (s : σ) :
    ∃ m1 : Frame T E, m1.receiver = m.receiver
      ∧ Proxy.map_run moved hash_code m (CallableSt.run f) s
        = Outcome.returned ((Proxy.map_st hash_code m.receiver f s).1, m1,
            (Proxy.map_st hash_code m.receiver f s).2) := by
  cases f with
  | unary g =>
    refine ⟨(m.copy_payload T).move_local moved, rfl, ?_⟩
    simp [Proxy.map_run, Resolve.Map.map_run, Impl.Map.map_Arg_run, CallableSt.run,
      Outcome.bind, Proxy.map_st, Resolve.Map.map_st, Impl.Map.map_Arg_st,
      Frame.local_value_copy_payload]
  | nullary g =>
    refine ⟨m, rfl, ?_⟩
    simp [Proxy.map_run, Resolve.Map.map_run, Impl.Map.map_void_run, CallableSt.run,
      Outcome.bind, Proxy.map_st, Resolve.Map.map_st, Impl.Map.map_void_st]

/-- With a callable that always returns, `Proxy::map_err` returns the value and
the state of `Proxy.map_err_st`, and leaves the receiver as it was. -/
theorem Proxy.map_err_run_returns_map_err_st {Arg R : Type} [CppType R] [Convertible E Arg]
    (moved : List Nat → List Nat) (hash_code : TypeInfo → Nat) (m : Frame T E)
    (f : CallableSt σ Arg R) (s : σ) :
    ∃ m1 : Frame T E, m1.receiver = m.receiver
      ∧ Proxy.map_err_run moved hash_code m (CallableSt.run f) s
        = Outcome.returned ((Proxy.map_err_st hash_code m.receiver f s).1, m1,
            (Proxy.map_err_st hash_code m.receiver f s).2) := by
  cases f with
  | unary g =>
    refine ⟨(m.copy_payload E).move_local moved, rfl, ?_⟩
    simp [Proxy.map_err_run, Resolve.MapErr.map_err_run, Impl.MapErr.map_err_Arg_run,
      CallableSt.run, Outcome.bind, Proxy.map_err_st, Resolve.MapErr.map_err_st,
      Impl.MapErr.map_err_Arg_st, Frame.local_value_copy_payload]
  | nullary g =>
    refine ⟨m, rfl, ?_⟩
    simp [Proxy.map_err_run, Resolve.MapErr.map_err_run, Impl.MapErr.map_err_void_run,
      CallableSt.run, Outcome.bind, Proxy.map_err_st, Resolve.MapErr.map_err_st,
      Impl.MapErr.map_err_void_st]

/-- A sequence of two calls returns when both do. -/
theorem Outcome.bind_eq_returned {α β : Type} (o : Outcome α) (k : α → Outcome β) (b : β) :
    o.bind k = Outcome.returned b ↔ ∃ a, o = Outcome.returned a ∧ k a = Outcome.returned b := by
  cases o with
  | returned a => simp [Outcome.bind]
  | terminated d => simp [Outcome.bind]

/-- A sequence of two calls ends in `RESULT_ERROR` when the first does, or the
first returns and the second does. -/
theorem Outcome.bind_eq_terminated {α β : Type} (o : Outcome α) (k : α → Outcome β)
    (d : String) :
    o.bind k = Outcome.terminated d
      ↔ o = Outcome.terminated d ∨ ∃ a, o = Outcome.returned a ∧ k a = Outcome.terminated d := by
  cases o with
  | returned a => simp [Outcome.bind]
  | terminated d' => simp [Outcome.bind]

omit [CppType T] [CppType E] in
/-- The receiver of the frame a member function is entered with. -/
theorem Frame.enter_receiver (r : Result T E) : (Frame.enter r).receiver = r :=
  rfl

omit [CppType E] in
/-- What `Wrapper::Get<Ok<T>>::get` returns, and the receiver after it. -/
theorem Wrapper.Get.get_Ok_run_eq (moved : List Nat → List Nat) (m : Frame T E) :
    (Wrapper.Get.get_Ok_run moved m).1 = Wrapper.Get.get_Ok m.receiver
      ∧ (Wrapper.Get.get_Ok_run moved m).2.receiver = m.receiver := by
  refine ⟨?_, rfl⟩
  simp [Wrapper.Get.get_Ok_run, Wrapper.Get.get_Ok, Frame.local_value_copy_payload]

omit [CppType T] in
/-- What `Wrapper::Get<Err<E>>::get` returns, and the receiver after it. -/
theorem Wrapper.Get.get_Err_run_eq (moved : List Nat → List Nat) (m : Frame T E) :
    (Wrapper.Get.get_Err_run moved m).1 = Wrapper.Get.get_Err m.receiver
      ∧ (Wrapper.Get.get_Err_run moved m).2.receiver = m.receiver := by
  refine ⟨?_, rfl⟩
  simp [Wrapper.Get.get_Err_run, Wrapper.Get.get_Err, Frame.local_value_copy_payload]

/-- Source `map(fun)`: a call that returns leaves the receiver as it was; with a
total callable the call returns; a call that ends in `RESULT_ERROR` does so in
the callable. -/
theorem Result.map_run_spec {Arg R : Type} [CppType R] [Convertible T Arg]
    (moved : List Nat → List Nat) (hash_code : TypeInfo → Nat) (r : Result T E)
    (f : CallableRun σ Arg R) (s : σ) :
    (∀ x, r.map_run moved hash_code f s = Outcome.returned x → x.2.1 = r)
    ∧ (f.total → ∃ x, r.map_run moved hash_code f s = Outcome.returned x)
    ∧ (∀ d, r.map_run moved hash_code f s = Outcome.terminated d → f.fatal d) := by
  by_cases hs : r.is_ok hash_code = true
  · have e : r.map_run moved hash_code f s
        = (Proxy.map_run moved hash_code (Frame.enter r) f s).bind (fun x =>
            Outcome.returned (x.1, x.2.1.receiver, x.2.2)) := by
      simp only [Result.map_run, Frame.enter_receiver, hs, if_true]
    rw [e]
    refine ⟨?_, ?_, ?_⟩
    · intro x hx
      obtain ⟨a, ha, hk⟩ := (Outcome.bind_eq_returned _ _ _).1 hx
      cases hk
      exact Proxy.map_run_receiver moved hash_code _ f s a ha
    · intro hf
      obtain ⟨a, ha⟩ := Proxy.map_run_total moved hash_code (Frame.enter r) f hf s
      exact ⟨_, (Outcome.bind_eq_returned _ _ _).2 ⟨a, ha, rfl⟩⟩
    · intro d hd
      rcases (Outcome.bind_eq_terminated _ _ _).1 hd with h | ⟨a, _, hk⟩
      · exact Proxy.map_run_fatal moved hash_code _ f s d h
      · cases hk
  · have e : r.map_run moved hash_code f s
        = Outcome.returned
            (Result.ctor_Err hash_code (Wrapper.Get.get_Err_run moved (Frame.enter r)).1,
              (Wrapper.Get.get_Err_run moved (Frame.enter r)).2.receiver, s) := by
      simp only [Result.map_run, Frame.enter_receiver, hs]
      rfl
    rw [e]
    refine ⟨?_, fun _ => ⟨_, rfl⟩, fun d hd => by cases hd⟩
    intro x hx
    cases hx
    rfl

/-- Source `map_err(fun)`: a call that returns leaves the receiver as it was; with
a total callable the call returns; a call that ends in `RESULT_ERROR` does so
in the callable. -/
theorem Result.map_err_run_spec {Arg R : Type} [CppType R] [Convertible E Arg]
    (moved : List Nat → List Nat) (hash_code : TypeInfo → Nat) (r : Result T E)
    (f : CallableRun σ Arg R) (s : σ) :
    (∀ x, r.map_err_run moved hash_code f s = Outcome.returned x → x.2.1 = r)
    ∧ (f.total → ∃ x, r.map_err_run moved hash_code f s = Outcome.returned x)
    ∧ (∀ d, r.map_err_run moved hash_code f s = Outcome.terminated d → f.fatal d) := by
  by_cases hs : r.is_err hash_code = true
  · have e : r.map_err_run moved hash_code f s
        = (Proxy.map_err_run moved hash_code (Frame.enter r) f s).bind (fun x =>
            Outcome.returned (x.1, x.2.1.receiver, x.2.2)) := by
      simp only [Result.map_err_run, Frame.enter_receiver, hs, if_true]
    rw [e]
    refine ⟨?_, ?_, ?_⟩
    · intro x hx
      obtain ⟨a, ha, hk⟩ := (Outcome.bind_eq_returned _ _ _).1 hx
      cases hk
      exact Proxy.map_err_run_receiver moved hash_code _ f s a ha
    · intro hf
      obtain ⟨a, ha⟩ := Proxy.map_err_run_total moved hash_code (Frame.enter r) f hf s
      exact ⟨_, (Outcome.bind_eq_returned _ _ _).2 ⟨a, ha, rfl⟩⟩
    · intro d hd
      rcases (Outcome.bind_eq_terminated _ _ _).1 hd with h | ⟨a, _, hk⟩
      · exact Proxy.map_err_run_fatal moved hash_code _ f s d h
      · cases hk
  · have e : r.map_err_run moved hash_code f s
        = Outcome.returned
            (Result.ctor_Ok hash_code (Wrapper.Get.get_Ok_run moved (Frame.enter r)).1,
              (Wrapper.Get.get_Ok_run moved (Frame.enter r)).2.receiver, s) := by
      simp only [Result.map_err_run, Frame.enter_receiver, hs]
      rfl
    rw [e]
    refine ⟨?_, fun _ => ⟨_, rfl⟩, fun d hd => by cases hd⟩
    intro x hx
    cases hx
    rfl

/-- Source `map_or(fun, r)`: a call that returns leaves the receiver as it was;
with a total callable the call returns; a call that ends in `RESULT_ERROR` does
so in the callable. -/
theorem Result.map_or_run_spec {Arg R : Type} [CppType R] [Convertible T Arg]
    (moved : List Nat → List Nat) (hash_code : TypeInfo → Nat) (r : Result T E)
    (f : CallableRun σ Arg R) (fallback : R) (s : σ) :
    (∀ x, r.map_or_run moved hash_code f fallback s = Outcome.returned x → x.2.1 = r)
    ∧ (f.total → ∃ x, r.map_or_run moved hash_code f fallback s = Outcome.returned x)
    ∧ (∀ d, r.map_or_run moved hash_code f fallback s = Outcome.terminated d
        → f.fatal d) := by
  by_cases hs : r.is_ok hash_code = true
  · have e : r.map_or_run moved hash_code f fallback s
        = (Proxy.map_run moved hash_code (Frame.enter r) f s).bind (fun x =>
            Outcome.returned ((x.2.1.hold_temporary x.1).temporary_value R,
              ((x.2.1.hold_temporary x.1).move_temporary moved).receiver, x.2.2)) := by
      simp only [Result.map_or_run, Frame.enter_receiver, hs, if_true]
    rw [e]
    refine ⟨?_, ?_, ?_⟩
    · intro x hx
      obtain ⟨a, ha, hk⟩ := (Outcome.bind_eq_returned _ _ _).1 hx
      cases hk
      exact Proxy.map_run_receiver moved hash_code _ f s a ha
    · intro hf
      obtain ⟨a, ha⟩ := Proxy.map_run_total moved hash_code (Frame.enter r) f hf s
      exact ⟨_, (Outcome.bind_eq_returned _ _ _).2 ⟨a, ha, rfl⟩⟩
    · intro d hd
      rcases (Outcome.bind_eq_terminated _ _ _).1 hd with h | ⟨a, _, hk⟩
      · exact Proxy.map_run_fatal moved hash_code _ f s d h
      · cases hk
  · have e : r.map_or_run moved hash_code f fallback s
        = Outcome.returned (fallback, r, s) := by
      simp only [Result.map_or_run, Frame.enter_receiver, hs]
      rfl
    rw [e]
    refine ⟨?_, fun _ => ⟨_, rfl⟩, fun d hd => by cases hd⟩
    intro x hx
    cases hx
    rfl

/-- Source `map_or_else(fun, other)`: a call that returns leaves the receiver as
it was; with total callables the call returns; a call that ends in
`RESULT_ERROR` does so in one of the callables. -/
theorem Result.map_or_else_run_spec {Arg ArgE R : Type} [CppType R] [Convertible T Arg]
    [Convertible E ArgE] (moved : List Nat → List Nat) (hash_code : TypeInfo → Nat)
    (r : Result T E) (f : CallableRun σ Arg R) (other : CallableRun σ ArgE R) (s : σ) :
    (∀ x, r.map_or_else_run moved hash_code f other s = Outcome.returned x → x.2.1 = r)
    ∧ (f.total → other.total
        → ∃ x, r.map_or_else_run moved hash_code f other s = Outcome.returned x)
    ∧ (∀ d, r.map_or_else_run moved hash_code f other s = Outcome.terminated d
        → f.fatal d ∨ other.fatal d) := by
  by_cases hs : r.is_ok hash_code = true
  · have e : r.map_or_else_run moved hash_code f other s
        = (Proxy.map_run moved hash_code (Frame.enter r) f s).bind (fun x =>
            Outcome.returned ((x.2.1.hold_temporary x.1).temporary_value R,
              ((x.2.1.hold_temporary x.1).move_temporary moved).receiver, x.2.2)) := by
      simp only [Result.map_or_else_run, Frame.enter_receiver, hs, if_true]
    rw [e]
    refine ⟨?_, ?_, ?_⟩
    · intro x hx
      obtain ⟨a, ha, hk⟩ := (Outcome.bind_eq_returned _ _ _).1 hx
      cases hk
      exact Proxy.map_run_receiver moved hash_code _ f s a ha
    · intro hf _
      obtain ⟨a, ha⟩ := Proxy.map_run_total moved hash_code (Frame.enter r) f hf s
      exact ⟨_, (Outcome.bind_eq_returned _ _ _).2 ⟨a, ha, rfl⟩⟩
    · intro d hd
      rcases (Outcome.bind_eq_terminated _ _ _).1 hd with h | ⟨a, _, hk⟩
      · exact Or.inl (Proxy.map_run_fatal moved hash_code _ f s d h)
      · cases hk
  · have e : r.map_or_else_run moved hash_code f other s
        = (Proxy.map_err_run moved hash_code (Frame.enter r) other s).bind (fun x =>
            Outcome.returned ((x.2.1.hold_temporary x.1).temporary_value R,
              ((x.2.1.hold_temporary x.1).move_temporary moved).receiver, x.2.2)) := by
      simp only [Result.map_or_else_run, Frame.enter_receiver, hs]
      rfl
    rw [e]
    refine ⟨?_, ?_, ?_⟩
    · intro x hx
      obtain ⟨a, ha, hk⟩ := (Outcome.bind_eq_returned _ _ _).1 hx
      cases hk
      exact Proxy.map_err_run_receiver moved hash_code _ other s a ha
    · intro _ hg
      obtain ⟨a, ha⟩ := Proxy.map_err_run_total moved hash_code (Frame.enter r) other hg s
      exact ⟨_, (Outcome.bind_eq_returned _ _ _).2 ⟨a, ha, rfl⟩⟩
    · intro d hd
      rcases (Outcome.bind_eq_terminated _ _ _).1 hd with h | ⟨a, _, hk⟩
      · exact Or.inr (Proxy.map_err_run_fatal moved hash_code _ other s d h)
      · cases hk

/-- Source `and_then(fun)`: a call that returns leaves the receiver as it was;
with a total callable the call returns; a call that ends in `RESULT_ERROR` does
so in the callable. -/
theorem Result.and_then_run_spec {Arg U : Type} [CppType U] [Convertible T Arg]
    (moved : List Nat → List Nat) (hash_code : TypeInfo → Nat) (r : Result T E)
    (f : CallableRun σ Arg (Result U E)) (s : σ) :
    (∀ x, r.and_then_run moved hash_code f s = Outcome.returned x → x.2.1 = r)
    ∧ (f.total → ∃ x, r.and_then_run moved hash_code f s = Outcome.returned x)
    ∧ (∀ d, r.and_then_run moved hash_code f s = Outcome.terminated d → f.fatal d) := by
  by_cases hs : r.is_ok hash_code = true
  · have e : r.and_then_run moved hash_code f s
        = (Proxy.map_run moved hash_code (Frame.enter r) f s).bind (fun x =>
            Outcome.returned ((x.2.1.hold_temporary x.1).temporary_value (Result U E),
              ((x.2.1.hold_temporary x.1).move_temporary moved).receiver, x.2.2)) := by
      simp only [Result.and_then_run, Frame.enter_receiver, hs, if_true]
    rw [e]
    refine ⟨?_, ?_, ?_⟩
    · intro x hx
      obtain ⟨a, ha, hk⟩ := (Outcome.bind_eq_returned _ _ _).1 hx
      cases hk
      exact Proxy.map_run_receiver moved hash_code _ f s a ha
    · intro hf
      obtain ⟨a, ha⟩ := Proxy.map_run_total moved hash_code (Frame.enter r) f hf s
      exact ⟨_, (Outcome.bind_eq_returned _ _ _).2 ⟨a, ha, rfl⟩⟩
    · intro d hd
      rcases (Outcome.bind_eq_terminated _ _ _).1 hd with h | ⟨a, _, hk⟩
      · exact Proxy.map_run_fatal moved hash_code _ f s d h
      · cases hk
  · have e : r.and_then_run moved hash_code f s
        = Outcome.returned
            (Result.ctor_Err hash_code (Wrapper.Get.get_Err_run moved (Frame.enter r)).1,
              (Wrapper.Get.get_Err_run moved (Frame.enter r)).2.receiver, s) := by
      simp only [Result.and_then_run, Frame.enter_receiver, hs]
      rfl
    rw [e]
    refine ⟨?_, fun _ => ⟨_, rfl⟩, fun d hd => by cases hd⟩
    intro x hx
    cases hx
    rfl

/-- Source `or_else(fun)`: a call that returns leaves the receiver as it was; with
a total callable the call returns; a call that ends in `RESULT_ERROR` does so
in the callable. -/
theorem Result.or_else_run_spec {Arg U : Type} [CppType U] [Convertible E Arg]
    (moved : List Nat → List Nat) (hash_code : TypeInfo → Nat) (r : Result T E)
    (f : CallableRun σ Arg (Result T U)) (s : σ) :
    (∀ x, r.or_else_run moved hash_code f s = Outcome.returned x → x.2.1 = r)
    ∧ (f.total → ∃ x, r.or_else_run moved hash_code f s = Outcome.returned x)
    ∧ (∀ d, r.or_else_run moved hash_code f s = Outcome.terminated d → f.fatal d) := by
  by_cases hs : r.is_err hash_code = true
  · have e : r.or_else_run moved hash_code f s
        = (Proxy.map_err_run moved hash_code (Frame.enter r) f s).bind (fun x =>
            Outcome.returned ((x.2.1.hold_temporary x.1).temporary_value (Result T U),
              ((x.2.1.hold_temporary x.1).move_temporary moved).receiver, x.2.2)) := by
      simp only [Result.or_else_run, Frame.enter_receiver, hs, if_true]
    rw [e]
    refine ⟨?_, ?_, ?_⟩
    · intro x hx
      obtain ⟨a, ha, hk⟩ := (Outcome.bind_eq_returned _ _ _).1 hx
      cases hk
      exact Proxy.map_err_run_receiver moved hash_code _ f s a ha
    · intro hf
      obtain ⟨a, ha⟩ := Proxy.map_err_run_total moved hash_code (Frame.enter r) f hf s
      exact ⟨_, (Outcome.bind_eq_returned _ _ _).2 ⟨a, ha, rfl⟩⟩
    · intro d hd
      rcases (Outcome.bind_eq_terminated _ _ _).1 hd with h | ⟨a, _, hk⟩
      · exact Proxy.map_err_run_fatal moved hash_code _ f s d h
      · cases hk
  · have e : r.or_else_run moved hash_code f s
        = Outcome.returned
            (Result.ctor_Ok hash_code (Wrapper.Get.get_Ok_run moved (Frame.enter r)).1,
              (Wrapper.Get.get_Ok_run moved (Frame.enter r)).2.receiver, s) := by
      simp only [Result.or_else_run, Frame.enter_receiver, hs]
      rfl
    rw [e]
    refine ⟨?_, fun _ => ⟨_, rfl⟩, fun d hd => by cases hd⟩
    intro x hx
    cases hx
    rfl

/-- With a callable that always returns, the call `r.map(fun)` returns the value
and the state of `Result.map_st`, and the receiver is `r`. -/
theorem Result.map_run_lift {Arg R : Type} [CppType R] [Convertible T Arg]
    (moved : List Nat → List Nat) (hash_code : TypeInfo → Nat) (r : Result T E)
    (f : CallableSt σ Arg R) (s : σ) :
    r.map_run moved hash_code (CallableSt.run f) s
      = Outcome.returned ((r.map_st hash_code f s).1, r, (r.map_st hash_code f s).2) := by
  by_cases hs : r.is_ok hash_code = true
  · obtain ⟨m1, hm1, hp⟩ := Proxy.map_run_returns_map_st moved hash_code (Frame.enter r) f s
    simp only [Result.map_run, Result.map_st, Frame.enter_receiver, hs, if_true, hp,
      Outcome.bind, hm1]
  · simp only [Result.map_run, Result.map_st, Frame.enter_receiver, hs,
      (Wrapper.Get.get_Err_run_eq moved (Frame.enter r)).1,
      (Wrapper.Get.get_Err_run_eq moved (Frame.enter r)).2]
    rfl

/-- With a callable that always returns, the call `r.map_err(fun)` returns the
value and the state of `Result.map_err_st`, and the receiver is `r`. -/
theorem Result.map_err_run_lift {Arg R : Type} [CppType R] [Convertible E Arg]
    (moved : List Nat → List Nat) (hash_code : TypeInfo → Nat) (r : Result T E)
    (f : CallableSt σ Arg R) (s : σ) :
    r.map_err_run moved hash_code (CallableSt.run f) s
      = Outcome.returned
          ((r.map_err_st hash_code f s).1, r, (r.map_err_st hash_code f s).2) := by
  by_cases hs : r.is_err hash_code = true
  · obtain ⟨m1, hm1, hp⟩ := Proxy.map_err_run_returns_map_err_st moved hash_code (Frame.enter r) f s
    simp only [Result.map_err_run, Result.map_err_st, Frame.enter_receiver, hs, if_true, hp,
      Outcome.bind, hm1]
  · simp only [Result.map_err_run, Result.map_err_st, Frame.enter_receiver, hs,
      (Wrapper.Get.get_Ok_run_eq moved (Frame.enter r)).1,
      (Wrapper.Get.get_Ok_run_eq moved (Frame.enter r)).2]
    rfl

/-- With a callable that always returns, the call `r.map_or(fun, d)` returns the
value and the state of `Result.map_or_st`, and the receiver is `r`. -/
theorem Result.map_or_run_lift {Arg R : Type} [CppType R] [Convertible T Arg]
    (moved : List Nat → List Nat) (hash_code : TypeInfo → Nat) (r : Result T E)
    (f : CallableSt σ Arg R) (fallback : R) (s : σ) :
    r.map_or_run moved hash_code (CallableSt.run f) fallback s
      = Outcome.returned ((r.map_or_st hash_code f fallback s).1, r,
          (r.map_or_st hash_code f fallback s).2) := by
  by_cases hs : r.is_ok hash_code = true
  · obtain ⟨m1, hm1, hp⟩ := Proxy.map_run_returns_map_st moved hash_code (Frame.enter r) f s
    simp only [Result.map_or_run, Result.map_or_st, Frame.enter_receiver, hs, if_true, hp,
      Outcome.bind]
    obtain ⟨rcv, c, t⟩ := m1
    change rcv = r at hm1
    subst hm1
    rfl
  · simp only [Result.map_or_run, Result.map_or_st, Frame.enter_receiver, hs]
    rfl

/-- With callables that always return, the call `r.map_or_else(fun, other)`
returns the value and the state of `Result.map_or_else_st`, and the receiver
is `r`. -/
theorem Result.map_or_else_run_lift {Arg ArgE R : Type} [CppType R] [Convertible T Arg]
    [Convertible E ArgE] (moved : List Nat → List Nat) (hash_code : TypeInfo → Nat)
    (r : Result T E) (f : CallableSt σ Arg R) (other : CallableSt σ ArgE R) (s : σ) :
    r.map_or_else_run moved hash_code (CallableSt.run f) (CallableSt.run other) s
      = Outcome.returned ((r.map_or_else_st hash_code f other s).1, r,
          (r.map_or_else_st hash_code f other s).2) := by
  by_cases hs : r.is_ok hash_code = true
  · obtain ⟨m1, hm1, hp⟩ := Proxy.map_run_returns_map_st moved hash_code (Frame.enter r) f s
    simp only [Result.map_or_else_run, Result.map_or_else_st, Frame.enter_receiver, hs,
      if_true, hp, Outcome.bind]
    obtain ⟨rcv, c, t⟩ := m1
    change rcv = r at hm1
    subst hm1
    rfl
  · obtain ⟨m1, hm1, hp⟩ := Proxy.map_err_run_returns_map_err_st moved hash_code (Frame.enter r) other s
    simp only [Result.map_or_else_run, Result.map_or_else_st, Frame.enter_receiver, hs, hp,
      Outcome.bind]
    obtain ⟨rcv, c, t⟩ := m1
    change rcv = r at hm1
    subst hm1
    rfl

/-- With a callable that always returns, the call `r.and_then(fun)` returns the
value and the state of `Result.and_then_st`, and the receiver is `r`. -/
theorem Result.and_then_run_lift {Arg U : Type} [CppType U] [Convertible T Arg]
    (moved : List Nat → List Nat) (hash_code : TypeInfo → Nat) (r : Result T E)
    (f : CallableSt σ Arg (Result U E)) (s : σ) :
    r.and_then_run moved hash_code (CallableSt.run f) s
      = Outcome.returned
          ((r.and_then_st hash_code f s).1, r, (r.and_then_st hash_code f s).2) := by
  by_cases hs : r.is_ok hash_code = true
  · obtain ⟨m1, hm1, hp⟩ := Proxy.map_run_returns_map_st moved hash_code (Frame.enter r) f s
    simp only [Result.and_then_run, Result.and_then_st, Frame.enter_receiver, hs, if_true,
      hp, Outcome.bind]
    obtain ⟨rcv, c, t⟩ := m1
    change rcv = r at hm1
    subst hm1
    rfl
  · simp only [Result.and_then_run, Result.and_then_st, Frame.enter_receiver, hs,
      (Wrapper.Get.get_Err_run_eq moved (Frame.enter r)).1,
      (Wrapper.Get.get_Err_run_eq moved (Frame.enter r)).2]
    rfl

/-- With a callable that always returns, the call `r.or_else(fun)` returns the
value and the state of `Result.or_else_st`, and the receiver is `r`. -/
theorem Result.or_else_run_lift {Arg U : Type} [CppType U] [Convertible E Arg]
    (moved : List Nat → List Nat) (hash_code : TypeInfo → Nat) (r : Result T E)
    (f : CallableSt σ Arg (Result T U)) (s : σ) :
    r.or_else_run moved hash_code (CallableSt.run f) s
      = Outcome.returned
          ((r.or_else_st hash_code f s).1, r, (r.or_else_st hash_code f s).2) := by
  by_cases hs : r.is_err hash_code = true
  · obtain ⟨m1, hm1, hp⟩ := Proxy.map_err_run_returns_map_err_st moved hash_code (Frame.enter r) f s
    simp only [Result.or_else_run, Result.or_else_st, Frame.enter_receiver, hs, if_true,
      hp, Outcome.bind]
    obtain ⟨rcv, c, t⟩ := m1
    change rcv = r at hm1
    subst hm1
    rfl
  · simp only [Result.or_else_run, Result.or_else_st, Frame.enter_receiver, hs,
      (Wrapper.Get.get_Ok_run_eq moved (Frame.enter r)).1,
      (Wrapper.Get.get_Ok_run_eq moved (Frame.enter r)).2]
    rfl

end RunLemmas

/-! ## Construction and the discriminant -/

section Claims

variable {T E : Type} [CppType T] [CppType E]

/-- C1. A Result built from a success wrapper (`Ok(v)`, or `Ok()` when `T` is
`void`) has `is_ok() = true` and `is_err() = false`; a Result built from a
failure wrapper (`Err(e)`, or `Err()` when `E` is `void`) has `is_err() = true`
and `is_ok() = false`.  The two `true` answers compare the stored hash with
itself; the two `false` answers compare the hash codes of `Wrapper::Ok<T>` and
`Wrapper::Err<E>`, which the runtime is assumed to keep apart. -/
theorem C1_constructor_fixes_is_ok_is_err (hash_code : TypeInfo → Nat)
    (hne : hash_code (TypeInfo.Ok (CppType.name T))
      ≠ hash_code (TypeInfo.Err (CppType.name E)))
    (s : Wrapper.Ok T) (s' : Wrapper.Err E) :
    ((Result.ctor_Ok hash_code s : Result T E).is_ok hash_code = true
      ∧ (Result.ctor_Ok hash_code s : Result T E).is_err hash_code = false)
    ∧ ((Result.ctor_Err hash_code s' : Result T E).is_err hash_code = true
      ∧ (Result.ctor_Err hash_code s' : Result T E).is_ok hash_code = false) :=
  ⟨⟨Result.is_ok_ctor_Ok hash_code s, Result.is_err_ctor_Ok_of_ne hash_code hne s⟩,
    ⟨Result.is_err_ctor_Err hash_code s', Result.is_ok_ctor_Err_of_ne hash_code hne s'⟩⟩

/-- Witness of C1 at the unit-success shape `Result<void, std::uint8_t>`, with
`Ok()` and `Err(7)`. -/
theorem C1_constructor_fixes_is_ok_is_err_witness :
    parity_hash (TypeInfo.Ok (CppType.name CppVoid))
      ≠ parity_hash (TypeInfo.Err (CppType.name uint8_t))
    ∧ (((Result.ctor_Ok parity_hash Ok_void : Result CppVoid uint8_t).is_ok parity_hash = true
        ∧ (Result.ctor_Ok parity_hash Ok_void : Result CppVoid uint8_t).is_err parity_hash
          = false)
      ∧ ((Result.ctor_Err parity_hash (Err (7 : uint8_t)) : Result CppVoid uint8_t).is_err
          parity_hash = true
        ∧ (Result.ctor_Err parity_hash (Err (7 : uint8_t)) : Result CppVoid uint8_t).is_ok
          parity_hash = false)) :=
  ⟨by decide, C1_constructor_fixes_is_ok_is_err parity_hash (by decide) Ok_void (Err 7)⟩

/-- C2. For every Result built by a constructor, in each of the four payload
shapes (`T`, `E` each `void` or not), exactly one of `is_ok()` and `is_err()` is
true, `is_err() = !is_ok()`, where `is_ok()` compares the stored hash `_type`
with the hash code of `Wrapper::Ok<T>` and `is_err()` compares it with the hash
code of `Wrapper::Err<E>`.  The runtime is assumed to give the two wrapper
types distinct hash codes. -/
theorem C2_exactly_one_of_is_ok_is_err (hash_code : TypeInfo → Nat)
    (hne : hash_code (TypeInfo.Ok (CppType.name T))
      ≠ hash_code (TypeInfo.Err (CppType.name E)))
    (r : Result T E) (hr : Result.Constructed hash_code r) :
    ((r.is_ok hash_code = true ∧ r.is_err hash_code = false)
      ∨ (r.is_ok hash_code = false ∧ r.is_err hash_code = true))
    ∧ r.is_err hash_code = !r.is_ok hash_code
    ∧ r.is_ok hash_code = (hash_code (TypeInfo.Ok (CppType.name T)) == r._storage._type)
    ∧ r.is_err hash_code
      = (hash_code (TypeInfo.Err (CppType.name E)) == r._storage._type) := by
  refine ⟨?_, ?_, rfl, rfl⟩
  · cases hr with
    | from_Ok s =>
      exact Or.inl ⟨Result.is_ok_ctor_Ok hash_code s,
        Result.is_err_ctor_Ok_of_ne hash_code hne s⟩
    | from_Err s =>
      exact Or.inr ⟨Result.is_ok_ctor_Err_of_ne hash_code hne s,
        Result.is_err_ctor_Err hash_code s⟩
  · cases hr with
    | from_Ok s =>
      rw [Result.is_ok_ctor_Ok, Result.is_err_ctor_Ok_of_ne hash_code hne]
      rfl
    | from_Err s =>
      rw [Result.is_err_ctor_Err, Result.is_ok_ctor_Err_of_ne hash_code hne]
      rfl

/-- Witness of C2 in the four payload shapes: `Result<std::uint8_t, std::uint16_t>`
built from `Ok(5)`, `Result<void, std::uint8_t>` built from `Err(7)`,
`Result<std::uint8_t, void>` built from `Ok(5)` and `Result<void, void>` built
from `Err()`. -/
theorem C2_exactly_one_of_is_ok_is_err_witness :
    (parity_hash (TypeInfo.Ok (CppType.name uint8_t))
        ≠ parity_hash (TypeInfo.Err (CppType.name uint16_t))
      ∧ parity_hash (TypeInfo.Ok (CppType.name CppVoid))
        ≠ parity_hash (TypeInfo.Err (CppType.name uint8_t))
      ∧ parity_hash (TypeInfo.Ok (CppType.name uint8_t))
        ≠ parity_hash (TypeInfo.Err (CppType.name CppVoid))
      ∧ parity_hash (TypeInfo.Ok (CppType.name CppVoid))
        ≠ parity_hash (TypeInfo.Err (CppType.name CppVoid)))
    ∧ ((Result.ctor_Ok parity_hash (Ok (5 : uint8_t)) : Result uint8_t uint16_t).is_err
          parity_hash
        = !(Result.ctor_Ok parity_hash (Ok (5 : uint8_t)) : Result uint8_t uint16_t).is_ok
          parity_hash)
    ∧ ((Result.ctor_Err parity_hash (Err (7 : uint8_t)) : Result CppVoid uint8_t).is_err
          parity_hash
        = !(Result.ctor_Err parity_hash (Err (7 : uint8_t)) : Result CppVoid uint8_t).is_ok
          parity_hash)
    ∧ ((Result.ctor_Ok parity_hash (Ok (5 : uint8_t)) : Result uint8_t CppVoid).is_err
          parity_hash
        = !(Result.ctor_Ok parity_hash (Ok (5 : uint8_t)) : Result uint8_t CppVoid).is_ok
          parity_hash)
    ∧ ((Result.ctor_Err parity_hash Err_void : Result CppVoid CppVoid).is_err parity_hash
        = !(Result.ctor_Err parity_hash Err_void : Result CppVoid CppVoid).is_ok
          parity_hash) :=
  ⟨⟨by decide, by decide, by decide, by decide⟩,
    (C2_exactly_one_of_is_ok_is_err parity_hash (by decide) _
      (Result.Constructed.from_Ok _)).2.1,
    (C2_exactly_one_of_is_ok_is_err parity_hash (by decide) _
      (Result.Constructed.from_Err _)).2.1,
    (C2_exactly_one_of_is_ok_is_err parity_hash (by decide) _
      (Result.Constructed.from_Ok _)).2.1,
    (C2_exactly_one_of_is_ok_is_err parity_hash (by decide) _
      (Result.Constructed.from_Err _)).2.1⟩

/-! ## Extraction -/

/-- C3. For every value `v` of a non-`void` success type, `unwrap()` on the
Result built from `Ok(v)` returns `v`; it does not end in `RESULT_ERROR`. -/
theorem C3_unwrap_of_Ok_returns_payload (hash_code : TypeInfo → Nat)
    (_hT : Result.unwrap_enabled T E = true) (v : T) :
    (Result.ctor_Ok hash_code (Ok v) : Result T E).unwrap hash_code = Outcome.returned v := by
  simp [Result.unwrap, Result.is_ok_ctor_Ok, Result.payload_ctor_Ok, Ok]

/-- Witness of C3 at `Result<std::uint16_t, void>` with `Ok(258)`. -/
theorem C3_unwrap_of_Ok_returns_payload_witness :
    Result.unwrap_enabled uint16_t CppVoid = true
    ∧ (Result.ctor_Ok parity_hash (Ok (258 : uint16_t)) : Result uint16_t CppVoid).unwrap
        parity_hash = Outcome.returned 258 :=
  ⟨by decide, C3_unwrap_of_Ok_returns_payload parity_hash (by decide) 258⟩

/-- C4. On a constructed Result, `unwrap()` ends in `RESULT_ERROR` with the
diagnostic "Tried to unwrap a result containing an error" exactly when the
Result is failure-active (`is_err()`), and on a failure-active Result it returns
no value.  The hash codes of the two wrapper types are assumed distinct, so that
"failure-active" excludes "success-active". -/
theorem C4_unwrap_fatal_iff_failure_active (hash_code : TypeInfo → Nat)
    (hne : hash_code (TypeInfo.Ok (CppType.name T))
      ≠ hash_code (TypeInfo.Err (CppType.name E)))
    (r : Result T E) (hr : Result.Constructed hash_code r) :
    (r.unwrap hash_code
        = Outcome.terminated "Tried to unwrap a result containing an error"
      ↔ r.is_err hash_code = true)
    ∧ (r.is_err hash_code = true → ∀ v : T, r.unwrap hash_code ≠ Outcome.returned v) := by
  cases hr with
  | from_Ok s =>
    simp [Result.unwrap, Result.is_ok_ctor_Ok, Result.is_err_ctor_Ok_of_ne hash_code hne]
  | from_Err s =>
    simp [Result.unwrap, Result.is_err_ctor_Err, Result.is_ok_ctor_Err_of_ne hash_code hne,
      RESULT_ERROR]

/-- Witness of C4 at `Result<std::uint8_t, std::uint16_t>` built from `Err(9)`. -/
theorem C4_unwrap_fatal_iff_failure_active_witness :
    (parity_hash (TypeInfo.Ok (CppType.name uint8_t))
        ≠ parity_hash (TypeInfo.Err (CppType.name uint16_t))
      ∧ Result.Constructed parity_hash
          (Result.ctor_Err parity_hash (Err (9 : uint16_t)) : Result uint8_t uint16_t))
    ∧ (((Result.ctor_Err parity_hash (Err (9 : uint16_t)) : Result uint8_t uint16_t).unwrap
            parity_hash
          = Outcome.terminated "Tried to unwrap a result containing an error"
        ↔ (Result.ctor_Err parity_hash (Err (9 : uint16_t)) : Result uint8_t uint16_t).is_err
            parity_hash = true)
      ∧ ((Result.ctor_Err parity_hash (Err (9 : uint16_t)) : Result uint8_t uint16_t).is_err
            parity_hash = true
        → ∀ v : uint8_t,
          (Result.ctor_Err parity_hash (Err (9 : uint16_t)) : Result uint8_t uint16_t).unwrap
            parity_hash ≠ Outcome.returned v)) :=
  ⟨⟨by decide, Result.Constructed.from_Err (Err 9)⟩,
    C4_unwrap_fatal_iff_failure_active parity_hash (by decide) _
      (Result.Constructed.from_Err (Err 9))⟩

/-- C5. `unwrap_err()` mirrors `unwrap()`: for every `e` of a non-`void` failure
type it returns `e` on the Result built from `Err(e)`, and on every constructed
success-active Result it ends in `RESULT_ERROR` ("Tried to unwrap an error
containing a result") instead of returning.  The hash codes of the two wrapper
types are assumed distinct. -/
theorem C5_unwrap_err_mirrors_unwrap (hash_code : TypeInfo → Nat)
    (_hE : Result.unwrap_err_enabled T E = true)
    (hne : hash_code (TypeInfo.Ok (CppType.name T))
      ≠ hash_code (TypeInfo.Err (CppType.name E))) :
    (∀ e : E, (Result.ctor_Err hash_code (Err e) : Result T E).unwrap_err hash_code
        = Outcome.returned e)
    ∧ (∀ r : Result T E, Result.Constructed hash_code r → r.is_ok hash_code = true →
        r.unwrap_err hash_code
          = Outcome.terminated "Tried to unwrap an error containing a result") := by
  refine ⟨fun e => ?_, fun r hr hok => ?_⟩
  · simp [Result.unwrap_err, Result.is_err_ctor_Err, Result.payload_ctor_Err, Err]
  · cases hr with
    | from_Ok s =>
      simp [Result.unwrap_err, Result.is_err_ctor_Ok_of_ne hash_code hne, RESULT_ERROR]
    | from_Err s =>
      rw [Result.is_ok_ctor_Err_of_ne hash_code hne] at hok
      exact absurd hok (by decide)

/-- Witness of C5 at `Result<std::uint8_t, std::uint16_t>`. -/
theorem C5_unwrap_err_mirrors_unwrap_witness :
    (Result.unwrap_err_enabled uint8_t uint16_t = true
      ∧ parity_hash (TypeInfo.Ok (CppType.name uint8_t))
        ≠ parity_hash (TypeInfo.Err (CppType.name uint16_t)))
    ∧ ((∀ e : uint16_t,
          (Result.ctor_Err parity_hash (Err e) : Result uint8_t uint16_t).unwrap_err parity_hash
            = Outcome.returned e)
      ∧ (∀ r : Result uint8_t uint16_t, Result.Constructed parity_hash r →
          r.is_ok parity_hash = true →
          r.unwrap_err parity_hash
            = Outcome.terminated "Tried to unwrap an error containing a result")) :=
  ⟨⟨by decide, by decide⟩, C5_unwrap_err_mirrors_unwrap parity_hash (by decide) (by decide)⟩

/-- C6. `expect(message)` returns `v` on the Result built from `Ok(v)`, for every
message; on a constructed failure-active Result it ends in `RESULT_ERROR` whose
diagnostic is the message passed in.  The hash codes of the two wrapper types
are assumed distinct. -/
theorem C6_expect_reports_caller_message (hash_code : TypeInfo → Nat)
    (hne : hash_code (TypeInfo.Ok (CppType.name T))
      ≠ hash_code (TypeInfo.Err (CppType.name E))) (message : String) :
    (∀ v : T, (Result.ctor_Ok hash_code (Ok v) : Result T E).expect hash_code message
        = Outcome.returned v)
    ∧ (∀ r : Result T E, Result.Constructed hash_code r → r.is_err hash_code = true →
        r.expect hash_code message = Outcome.terminated message) := by
  refine ⟨fun v => ?_, fun r hr herr => ?_⟩
  · simp [Result.expect, Result.is_ok_ctor_Ok, Result.payload_ctor_Ok, Ok]
  · cases hr with
    | from_Ok s =>
      rw [Result.is_err_ctor_Ok_of_ne hash_code hne] at herr
      exact absurd herr (by decide)
    | from_Err s =>
      simp [Result.expect, Result.is_ok_ctor_Err_of_ne hash_code hne, RESULT_ERROR]

/-- Witness of C6 at `Result<std::uint8_t, void>` with the message "no value". -/
theorem C6_expect_reports_caller_message_witness :
    parity_hash (TypeInfo.Ok (CppType.name uint8_t))
      ≠ parity_hash (TypeInfo.Err (CppType.name CppVoid))
    ∧ ((∀ v : uint8_t,
          (Result.ctor_Ok parity_hash (Ok v) : Result uint8_t CppVoid).expect parity_hash
            "no value" = Outcome.returned v)
      ∧ (∀ r : Result uint8_t CppVoid, Result.Constructed parity_hash r →
          r.is_err parity_hash = true →
          r.expect parity_hash "no value" = Outcome.terminated "no value")) :=
  ⟨by decide, C6_expect_reports_caller_message parity_hash (by decide) "no value"⟩

/-- C8. For a default-constructible success type, `unwrap_or_default()` returns `v` on the Result built from `Ok(v)` and the
default-constructed value `R {}` on every constructed failure-active Result.
The hash codes of the two wrapper types are assumed distinct (the body tests
`is_err()` first). -/
theorem C8_unwrap_or_default_payload_or_default [Inhabited T] (hash_code : TypeInfo → Nat)
    (hne : hash_code (TypeInfo.Ok (CppType.name T))
      ≠ hash_code (TypeInfo.Err (CppType.name E))) :
    (∀ v : T, (Result.ctor_Ok hash_code (Ok v) : Result T E).unwrap_or_default hash_code
        = Outcome.returned v)
    ∧ (∀ r : Result T E, Result.Constructed hash_code r → r.is_err hash_code = true →
        r.unwrap_or_default hash_code = Outcome.returned default) := by
  refine ⟨fun v => ?_, fun r _ herr => ?_⟩
  · simp [Result.unwrap_or_default, Result.is_err_ctor_Ok_of_ne hash_code hne,
      Result.payload_ctor_Ok, Ok]
  · simp [Result.unwrap_or_default, herr]

/-- Witness of C8 at `Result<std::uint8_t, std::uint16_t>`, whose default
success value is 0. -/
theorem C8_unwrap_or_default_payload_or_default_witness :
    parity_hash (TypeInfo.Ok (CppType.name uint8_t))
      ≠ parity_hash (TypeInfo.Err (CppType.name uint16_t))
    ∧ ((∀ v : uint8_t,
          (Result.ctor_Ok parity_hash (Ok v) : Result uint8_t uint16_t).unwrap_or_default
            parity_hash = Outcome.returned v)
      ∧ (∀ r : Result uint8_t uint16_t, Result.Constructed parity_hash r →
          r.is_err parity_hash = true →
          r.unwrap_or_default parity_hash = Outcome.returned (default : uint8_t))) :=
  ⟨by decide, C8_unwrap_or_default_payload_or_default parity_hash (by decide)⟩

omit [CppType E] in
/-- Under its precondition the spec-worded unchecked accessor is `unwrap()`. -/
theorem Result.unwrap_unchecked_spec_eq_unwrap (hash_code : TypeInfo → Nat) (r : Result T E)
    (hok : r.is_ok hash_code = true) :
    r.unwrap_unchecked_spec = r.unwrap hash_code := by
  simp [Result.unwrap_unchecked_spec, Result.unwrap, hok]

/-- C9, evaluated on `Result<std::uint16_t, std::uint8_t>` built from `Ok(258)`:
`unwrap()` returns the `std::uint16_t` 258, while `unwrap_unchecked()` returns a
`std::uint8_t`, the first byte 2 of the buffer, because its return type is
`decay<E>` and its body `get<E>()`; the accessor worded by the spec returns 258.
On `Result<std::uint16_t, void>` the `enable_if` of `unwrap_unchecked` is false
and the member does not exist. -/
theorem C9_unwrap_unchecked_reads_failure_type :
    (Result.ctor_Ok parity_hash (Ok (258 : uint16_t)) : Result uint16_t uint8_t).unwrap
        parity_hash = Outcome.returned (258 : uint16_t)
    ∧ (Result.ctor_Ok parity_hash (Ok (258 : uint16_t))
        : Result uint16_t uint8_t).unwrap_unchecked_spec = Outcome.returned (258 : uint16_t)
    ∧ (Result.ctor_Ok parity_hash (Ok (258 : uint16_t)) : Result uint16_t uint8_t).unwrap_unchecked
        = Outcome.returned (2 : uint8_t)
    ∧ Result.unwrap_unchecked_enabled uint16_t CppVoid = false := by
  decide

/-! ## Transforms -/

/-- C10. For every one-argument function `f : Arg → R` and every `v : T` with
`T` convertible to `Arg`, `map(f)` on the Result built from `Ok(v)` is the Result
built from `Ok(f(v))`: it is success-active, its payload is `f(v)`, and a
following `unwrap()` returns `f(v)` (`v` converted to `Arg` by the call). -/
theorem C10_map_of_Ok_applies_function {Arg R : Type} [CppType R] [Convertible T Arg]
    (hash_code : TypeInfo → Nat) (f : Arg → R) (v : T) :
    ((Result.ctor_Ok hash_code (Ok v) : Result T E).map hash_code (Callable.unary f)
        = Result.ctor_Ok hash_code (Ok (f (Convertible.convert v))))
    ∧ ((Result.ctor_Ok hash_code (Ok v) : Result T E).map hash_code
        (Callable.unary f)).is_ok hash_code = true
    ∧ ((Result.ctor_Ok hash_code (Ok v) : Result T E).map hash_code
        (Callable.unary f)).storage.get R = f (Convertible.convert v)
    ∧ ((Result.ctor_Ok hash_code (Ok v) : Result T E).map hash_code
        (Callable.unary f)).unwrap hash_code = Outcome.returned (f (Convertible.convert v)) := by
  have hmap : (Result.ctor_Ok hash_code (Ok v) : Result T E).map hash_code (Callable.unary f)
      = Result.ctor_Ok hash_code (Ok (f (Convertible.convert v))) := by
    simp [Result.map, Result.is_ok_ctor_Ok, Proxy.map, Resolve.Map.map, Impl.Map.map_Arg,
      Result.payload_ctor_Ok, Ok]
  rw [hmap]
  refine ⟨rfl, Result.is_ok_ctor_Ok hash_code _, ?_, ?_⟩
  · simp [Result.payload_ctor_Ok, Ok]
  · simp [Result.unwrap, Result.is_ok_ctor_Ok, Result.payload_ctor_Ok, Ok]

/-- On pure callables the effectful `map` is the pure one and leaves the state
alone. -/
theorem Result.map_st_lift {σ Arg R : Type} [CppType R] [Convertible T Arg]
    (hash_code : TypeInfo → Nat) (r : Result T E) (f : Callable Arg R) (s : σ) :
    r.map_st hash_code (Callable.lift σ f) s = (r.map hash_code f, s) := by
  cases f <;>
    by_cases h : r.is_ok hash_code = true <;>
    simp [Result.map_st, Result.map, Callable.lift, h, Proxy.map_st, Proxy.map,
      Resolve.Map.map_st, Resolve.Map.map, Impl.Map.map_Arg_st, Impl.Map.map_Arg,
      Impl.Map.map_void_st, Impl.Map.map_void]

/-- C11. For every callable `f`, with or without side effects, and every failure
payload `e`, `map(f)` on the Result built from `Err(e)` is the Result built from
`Err(e)` at the new type `Result<R, E>`: failure-active, with payload `e`, and
comparing `==` to `Err(u)` as `e == u` does.  The state is returned as it was
and the value does not depend on `f`: `f` is not invoked.  As an instance,
`failure(5).map(x -> x+1) == Err(5)` is true.  The hash codes of the two wrapper
types are assumed distinct. -/
theorem C11_map_of_Err_passes_failure_through {σ Arg R : Type} [CppType R]
    [Convertible T Arg] (hash_code : TypeInfo → Nat)
    (hne : hash_code (TypeInfo.Ok (CppType.name T))
      ≠ hash_code (TypeInfo.Err (CppType.name E))) (e : E) :
    (∀ (f : CallableSt σ Arg R) (s : σ),
        (Result.ctor_Err hash_code (Err e) : Result T E).map_st hash_code f s
          = ((Result.ctor_Err hash_code (Err e) : Result R E), s))
    ∧ (∀ f : Callable Arg R,
        (Result.ctor_Err hash_code (Err e) : Result T E).map hash_code f
          = (Result.ctor_Err hash_code (Err e) : Result R E))
    ∧ (Result.ctor_Err hash_code (Err e) : Result R E).is_err hash_code = true
    ∧ (Result.ctor_Err hash_code (Err e) : Result R E).storage.get E = e
    ∧ (∀ (U : Type) [Comparable Op.eq E U] (u : U),
        (Result.ctor_Err hash_code (Err e) : Result R E).operator_vs_Err hash_code Op.eq (Err u)
          = Comparable.apply Op.eq e u)
    ∧ ((Result.ctor_Err parity_hash (Err (5 : uint8_t)) : Result uint8_t uint8_t).map_st
          parity_hash (CallableSt.unary (fun (x : uint8_t) (calls : Nat) => (x + 1, calls + 1)))
          0).1.operator_vs_Err parity_hash Op.eq (Err (5 : uint8_t)) = true := by
  have hok : (Result.ctor_Err hash_code (Err e) : Result T E).is_ok hash_code = false :=
    Result.is_ok_ctor_Err_of_ne hash_code hne _
  have hget : Wrapper.Get.get_Err (Result.ctor_Err hash_code (Err e) : Result T E) = Err e := by
    simp [Wrapper.Get.get_Err, Result.payload_ctor_Err, Err]
  refine ⟨fun f s => ?_, fun f => ?_, Result.is_err_ctor_Err hash_code _,
    Result.payload_ctor_Err hash_code _, fun U _ u => ?_, by decide⟩
  · simp [Result.map_st, hok, hget]
  · simp [Result.map, hok, hget]
  · simp [Result.operator_vs_Err, Result.is_err_ctor_Err, Result.payload_ctor_Err, Err]

/-- Witness of C11 at `Result<std::uint8_t, std::uint8_t>` built from `Err(5)`,
with a state counting the invocations. -/
theorem C11_map_of_Err_passes_failure_through_witness :
    parity_hash (TypeInfo.Ok (CppType.name uint8_t))
      ≠ parity_hash (TypeInfo.Err (CppType.name uint8_t))
    ∧ (Result.ctor_Err parity_hash (Err (5 : uint8_t)) : Result uint8_t uint8_t).map_st
        parity_hash (CallableSt.unary (fun (x : uint8_t) (calls : Nat) => (x + 1, calls + 1))) 0
      = ((Result.ctor_Err parity_hash (Err (5 : uint8_t)) : Result uint8_t uint8_t), 0) :=
  ⟨by decide,
    (C11_map_of_Err_passes_failure_through parity_hash (by decide) (5 : uint8_t)).1 _ 0⟩

/-- C12. `map_err(f)` mirrors `map` on the failure channel.  On the Result built
from `Err(e)` it invokes `f` once, on `e`, and is the Result built from
`Err(f(e))`: failure-active with payload `f(e)`.  On the Result built from
`Ok(v)` it is, for every `f`, the Result built from `Ok(v)` at the new type
`Result<T, R>`, success-active with payload `v`, and the state is returned as it
was: `f` is not invoked.  The hash codes of the two wrapper types are assumed
distinct. -/
theorem C12_map_err_mirrors_map {σ Arg R : Type} [CppType R] [Convertible E Arg]
    (hash_code : TypeInfo → Nat)
    (hne : hash_code (TypeInfo.Ok (CppType.name T))
      ≠ hash_code (TypeInfo.Err (CppType.name E))) :
    (∀ (e : E) (f : Arg → σ → R × σ) (s : σ),
        (Result.ctor_Err hash_code (Err e) : Result T E).map_err_st hash_code
            (CallableSt.unary f) s
          = ((Result.ctor_Err hash_code (Err (f (Convertible.convert e) s).1) : Result T R),
              (f (Convertible.convert e) s).2)
        ∧ (Result.ctor_Err hash_code (Err (f (Convertible.convert e) s).1)
            : Result T R).is_err hash_code = true
        ∧ (Result.ctor_Err hash_code (Err (f (Convertible.convert e) s).1)
            : Result T R).storage.get R = (f (Convertible.convert e) s).1)
    ∧ (∀ (v : T) (f : CallableSt σ Arg R) (s : σ),
        (Result.ctor_Ok hash_code (Ok v) : Result T E).map_err_st hash_code f s
          = ((Result.ctor_Ok hash_code (Ok v) : Result T R), s)
        ∧ (Result.ctor_Ok hash_code (Ok v) : Result T R).is_ok hash_code = true
        ∧ (Result.ctor_Ok hash_code (Ok v) : Result T R).storage.get T = v) := by
  refine ⟨fun e f s => ⟨?_, Result.is_err_ctor_Err hash_code _, ?_⟩,
    fun v f s => ⟨?_, Result.is_ok_ctor_Ok hash_code _, ?_⟩⟩
  · simp [Result.map_err_st, Result.is_err_ctor_Err, Proxy.map_err_st,
      Resolve.MapErr.map_err_st, Impl.MapErr.map_err_Arg_st, Result.payload_ctor_Err, Err]
  · simp [Result.payload_ctor_Err, Err]
  · simp [Result.map_err_st, Result.is_err_ctor_Ok_of_ne hash_code hne, Wrapper.Get.get_Ok,
      Result.payload_ctor_Ok, Ok]
  · simp [Result.payload_ctor_Ok, Ok]

/-- Witness of C12 at `Result<std::uint8_t, std::uint8_t>`: with a state counting
the invocations, `Err(5).map_err(x -> x+1)` is `Err(6)` after one invocation and
`Ok(5).map_err(x -> x+1)` is `Ok(5)` after none. -/
theorem C12_map_err_mirrors_map_witness :
    parity_hash (TypeInfo.Ok (CppType.name uint8_t))
      ≠ parity_hash (TypeInfo.Err (CppType.name uint8_t))
    ∧ (Result.ctor_Err parity_hash (Err (5 : uint8_t)) : Result uint8_t uint8_t).map_err_st
        parity_hash (CallableSt.unary (fun (x : uint8_t) (calls : Nat) => (x + 1, calls + 1))) 0
      = ((Result.ctor_Err parity_hash (Err (6 : uint8_t)) : Result uint8_t uint8_t), 1)
    ∧ (Result.ctor_Ok parity_hash (Ok (5 : uint8_t)) : Result uint8_t uint8_t).map_err_st
        parity_hash (CallableSt.unary (fun (x : uint8_t) (calls : Nat) => (x + 1, calls + 1))) 0
      = ((Result.ctor_Ok parity_hash (Ok (5 : uint8_t)) : Result uint8_t uint8_t), 0) :=
  ⟨by decide,
    ((C12_map_err_mirrors_map parity_hash (by decide)).1 (5 : uint8_t)
      (fun (x : uint8_t) (calls : Nat) => (x + 1, calls + 1)) 0).1,
    ((C12_map_err_mirrors_map parity_hash (by decide)).2 (5 : uint8_t)
      (CallableSt.unary (fun (x : uint8_t) (calls : Nat) => (x + 1, calls + 1))) 0).1⟩

/-- C13. For every callable `f` with non-`void` return type `R` and every
fallback `d : R`: on the Result built from `Ok(v)`, `map_or(f, d)` invokes `f`
once, on `v`, and returns `f(v)`; on every constructed failure-active Result it
returns `d` for every `f` and the state is returned as it was: `f` is not
invoked.  The hash codes of the two wrapper types are assumed distinct. -/
theorem C13_map_or_applies_or_falls_back {σ Arg R : Type} [CppType R] [Convertible T Arg]
    (hash_code : TypeInfo → Nat) (_hR : Result.map_or_enabled R = true)
    (hne : hash_code (TypeInfo.Ok (CppType.name T))
      ≠ hash_code (TypeInfo.Err (CppType.name E))) (d : R) :
    (∀ (v : T) (f : Arg → σ → R × σ) (s : σ),
        (Result.ctor_Ok hash_code (Ok v) : Result T E).map_or_st hash_code
            (CallableSt.unary f) d s
          = f (Convertible.convert v) s)
    ∧ (∀ (r : Result T E) (f : CallableSt σ Arg R) (s : σ),
        Result.Constructed hash_code r → r.is_err hash_code = true →
        r.map_or_st hash_code f d s = (d, s)) := by
  refine ⟨fun v f s => ?_, fun r f s hr herr => ?_⟩
  · simp [Result.map_or_st, Result.is_ok_ctor_Ok, Proxy.map_st, Resolve.Map.map_st,
      Impl.Map.map_Arg_st, Result.payload_ctor_Ok, Ok]
  · cases hr with
    | from_Ok w =>
      rw [Result.is_err_ctor_Ok_of_ne hash_code hne] at herr
      exact absurd herr (by decide)
    | from_Err w =>
      simp [Result.map_or_st, Result.is_ok_ctor_Err_of_ne hash_code hne]

/-- Witness of C13 at `Result<std::uint8_t, std::uint8_t>` with fallback 42 and a
state counting the invocations. -/
theorem C13_map_or_applies_or_falls_back_witness :
    (Result.map_or_enabled uint8_t = true
      ∧ parity_hash (TypeInfo.Ok (CppType.name uint8_t))
        ≠ parity_hash (TypeInfo.Err (CppType.name uint8_t)))
    ∧ (Result.ctor_Ok parity_hash (Ok (5 : uint8_t)) : Result uint8_t uint8_t).map_or_st
        parity_hash (CallableSt.unary (fun (x : uint8_t) (calls : Nat) => (x + 1, calls + 1)))
        42 0
      = ((6 : uint8_t), 1) :=
  ⟨⟨by decide, by decide⟩,
    (C13_map_or_applies_or_falls_back parity_hash (by decide) (by decide) (42 : uint8_t)).1
      (5 : uint8_t) (fun (x : uint8_t) (calls : Nat) => (x + 1, calls + 1)) 0⟩

/-- C14. For all callables `f` and `g` with the same return type `R`:
on the Result built from `Ok(v)`, `map_or_else(f, g)` returns `f(v)` and the
state after it is the state after the one call `f(v)`, whatever `g` is; on the
Result built from `Err(e)` it returns `g(e)` and the state after it is the state
after the one call `g(e)`, whatever `f` is.  With one counter per callable the
counts are (1, 0) and (0, 1): exactly one of `f` and `g` is invoked, exactly
once.  The hash codes of the two wrapper types are assumed distinct. -/
theorem C14_map_or_else_applies_one_callable {σ Arg ArgE R : Type} [CppType R]
    [Convertible T Arg] [Convertible E ArgE] (hash_code : TypeInfo → Nat)
    (hne : hash_code (TypeInfo.Ok (CppType.name T))
      ≠ hash_code (TypeInfo.Err (CppType.name E))) :
    (∀ (v : T) (f : Arg → σ → R × σ) (g : CallableSt σ ArgE R) (s : σ),
        (Result.ctor_Ok hash_code (Ok v) : Result T E).map_or_else_st hash_code
            (CallableSt.unary f) g s
          = f (Convertible.convert v) s)
    ∧ (∀ (e : E) (f : CallableSt σ Arg R) (g : ArgE → σ → R × σ) (s : σ),
        (Result.ctor_Err hash_code (Err e) : Result T E).map_or_else_st hash_code
            f (CallableSt.unary g) s
          = g (Convertible.convert e) s)
    ∧ (∀ (v : T) (f : Arg → R) (g : ArgE → R),
        (Result.ctor_Ok hash_code (Ok v) : Result T E).map_or_else_st hash_code
            (CallableSt.unary (fun a (calls : Nat × Nat) => (f a, (calls.1 + 1, calls.2))))
            (CallableSt.unary (fun a (calls : Nat × Nat) => (g a, (calls.1, calls.2 + 1))))
            (0, 0)
          = (f (Convertible.convert v), (1, 0)))
    ∧ (∀ (e : E) (f : Arg → R) (g : ArgE → R),
        (Result.ctor_Err hash_code (Err e) : Result T E).map_or_else_st hash_code
            (CallableSt.unary (fun a (calls : Nat × Nat) => (f a, (calls.1 + 1, calls.2))))
            (CallableSt.unary (fun a (calls : Nat × Nat) => (g a, (calls.1, calls.2 + 1))))
            (0, 0)
          = (g (Convertible.convert e), (0, 1))) := by
  have hok : ∀ (v : T) {τ : Type} (f : Arg → τ → R × τ) (g : CallableSt τ ArgE R) (s : τ),
      (Result.ctor_Ok hash_code (Ok v) : Result T E).map_or_else_st hash_code
          (CallableSt.unary f) g s
        = f (Convertible.convert v) s := by
    intro v τ f g s
    simp [Result.map_or_else_st, Result.is_ok_ctor_Ok, Proxy.map_st, Resolve.Map.map_st,
      Impl.Map.map_Arg_st, Result.payload_ctor_Ok, Ok]
  have herr : ∀ (e : E) {τ : Type} (f : CallableSt τ Arg R) (g : ArgE → τ → R × τ) (s : τ),
      (Result.ctor_Err hash_code (Err e) : Result T E).map_or_else_st hash_code
          f (CallableSt.unary g) s
        = g (Convertible.convert e) s := by
    intro e τ f g s
    simp [Result.map_or_else_st, Result.is_ok_ctor_Err_of_ne hash_code hne, Proxy.map_err_st,
      Resolve.MapErr.map_err_st, Impl.MapErr.map_err_Arg_st, Result.payload_ctor_Err, Err]
  refine ⟨fun v f g s => hok v f g s, fun e f g s => herr e f g s, fun v f g => ?_,
    fun e f g => ?_⟩
  · rw [hok]
  · rw [herr]

/-- Witness of C14 at `Result<std::uint8_t, std::uint8_t>` built from `Err(5)`,
with `f = x -> x+1`, `g = x -> x+2` and one invocation counter per callable. -/
theorem C14_map_or_else_applies_one_callable_witness :
    parity_hash (TypeInfo.Ok (CppType.name uint8_t))
      ≠ parity_hash (TypeInfo.Err (CppType.name uint8_t))
    ∧ (Result.ctor_Err parity_hash (Err (5 : uint8_t)) : Result uint8_t uint8_t).map_or_else_st
        parity_hash
        (CallableSt.unary (fun (a : uint8_t) (calls : Nat × Nat) =>
          ((fun x => x + 1) a, (calls.1 + 1, calls.2))))
        (CallableSt.unary (fun (a : uint8_t) (calls : Nat × Nat) =>
          ((fun x => x + 2) a, (calls.1, calls.2 + 1))))
        (0, 0)
      = ((7 : uint8_t), (0, 1)) :=
  ⟨by decide,
    (C14_map_or_else_applies_one_callable parity_hash (by decide)).2.1 (5 : uint8_t)
      (CallableSt.unary (fun (a : uint8_t) (calls : Nat × Nat) =>
        ((fun x => x + 1) a, (calls.1 + 1, calls.2))))
      (fun (a : uint8_t) (calls : Nat × Nat) => ((fun x => x + 2) a, (calls.1, calls.2 + 1)))
      (0, 0)⟩

/-- C15. For every callable `f` returning a `Result<U, E>` with the receiver's
failure type, `and_then(f)` on the Result built from `Ok(v)` invokes `f` once, on
`v`, and is exactly the Result `f(v)` returned: same discriminant, same buffer,
not wrapped again.  As an instance,
`success(1).and_then(x -> success(x+1)).unwrap()` returns 2. -/
theorem C15_and_then_of_Ok_is_callable_result {σ Arg U : Type} [CppType U]
    [Convertible T Arg] (hash_code : TypeInfo → Nat) :
    (∀ (v : T) (f : Arg → σ → Result U E × σ) (s : σ),
        (Result.ctor_Ok hash_code (Ok v) : Result T E).and_then_st hash_code
            (CallableSt.unary f) s
          = f (Convertible.convert v) s)
    ∧ (∀ s : σ,
        ((Result.ctor_Ok hash_code (Ok (1 : uint8_t)) : Result uint8_t uint8_t).and_then_st
            hash_code
            (CallableSt.unary (fun (x : uint8_t) (s' : σ) =>
              ((Result.ctor_Ok hash_code (Ok (x + 1)) : Result uint8_t uint8_t), s')))
            s).1.unwrap hash_code
          = Outcome.returned (2 : uint8_t)) := by
  refine ⟨fun v f s => ?_, fun s => ?_⟩
  · simp [Result.and_then_st, Result.is_ok_ctor_Ok, Proxy.map_st, Resolve.Map.map_st,
      Impl.Map.map_Arg_st, Result.payload_ctor_Ok, Ok]
  · simp [Result.and_then_st, Result.is_ok_ctor_Ok, Proxy.map_st, Resolve.Map.map_st,
      Impl.Map.map_Arg_st, Result.payload_ctor_Ok, Ok, Result.unwrap, Convertible.convert]

/-- C16. For every callable `f` and every failure payload `e`, `and_then(f)` on
the Result built from `Err(e)` is the Result built from `Err(e)` at the type
`Result<U, E>`: failure-active, with payload `e`.  The state is returned as it
was and the value does not depend on `f`: `f` is not invoked.  The hash codes of
the two wrapper types are assumed distinct. -/
theorem C16_and_then_of_Err_short_circuits {σ Arg U : Type} [CppType U] [Convertible T Arg]
    (hash_code : TypeInfo → Nat)
    (hne : hash_code (TypeInfo.Ok (CppType.name T))
      ≠ hash_code (TypeInfo.Err (CppType.name E))) (e : E) :
    (∀ (f : CallableSt σ Arg (Result U E)) (s : σ),
        (Result.ctor_Err hash_code (Err e) : Result T E).and_then_st hash_code f s
          = ((Result.ctor_Err hash_code (Err e) : Result U E), s))
    ∧ (Result.ctor_Err hash_code (Err e) : Result U E).is_err hash_code = true
    ∧ (Result.ctor_Err hash_code (Err e) : Result U E).storage.get E = e := by
  refine ⟨fun f s => ?_, Result.is_err_ctor_Err hash_code _, Result.payload_ctor_Err hash_code _⟩
  simp [Result.and_then_st, Result.is_ok_ctor_Err_of_ne hash_code hne, Wrapper.Get.get_Err,
    Result.payload_ctor_Err, Err]

/-- Witness of C16 at `Result<std::uint8_t, std::uint8_t>` built from `Err(5)`,
with the callable `x -> success(x+1)` counting its invocations. -/
theorem C16_and_then_of_Err_short_circuits_witness :
    parity_hash (TypeInfo.Ok (CppType.name uint8_t))
      ≠ parity_hash (TypeInfo.Err (CppType.name uint8_t))
    ∧ (Result.ctor_Err parity_hash (Err (5 : uint8_t)) : Result uint8_t uint8_t).and_then_st
        parity_hash
        (CallableSt.unary (fun (x : uint8_t) (calls : Nat) =>
          ((Result.ctor_Ok parity_hash (Ok (x + 1)) : Result uint8_t uint8_t), calls + 1)))
        0
      = ((Result.ctor_Err parity_hash (Err (5 : uint8_t)) : Result uint8_t uint8_t), 0) :=
  ⟨by decide,
    (C16_and_then_of_Err_short_circuits parity_hash (by decide) (5 : uint8_t)).1 _ 0⟩

/-- C17. `or_else(f)` is the bind on the failure channel.  For `f` returning a
`Result<T, U>` with the receiver's success type: on the Result built from
`Err(e)` it invokes `f` once, on `e`, and is exactly the Result `f(e)` returned;
on the Result built from `Ok(v)` it is, for every `f`, the Result built from
`Ok(v)` at the type `Result<T, U>`, success-active with payload `v`, and the
state is returned as it was: `f` is not invoked.  The hash codes of the two
wrapper types are assumed distinct. -/
theorem C17_or_else_binds_failure_channel {σ Arg U : Type} [CppType U] [Convertible E Arg]
    (hash_code : TypeInfo → Nat)
    (hne : hash_code (TypeInfo.Ok (CppType.name T))
      ≠ hash_code (TypeInfo.Err (CppType.name E))) :
    (∀ (e : E) (f : Arg → σ → Result T U × σ) (s : σ),
        (Result.ctor_Err hash_code (Err e) : Result T E).or_else_st hash_code
            (CallableSt.unary f) s
          = f (Convertible.convert e) s)
    ∧ (∀ (v : T) (f : CallableSt σ Arg (Result T U)) (s : σ),
        (Result.ctor_Ok hash_code (Ok v) : Result T E).or_else_st hash_code f s
          = ((Result.ctor_Ok hash_code (Ok v) : Result T U), s)
        ∧ (Result.ctor_Ok hash_code (Ok v) : Result T U).is_ok hash_code = true
        ∧ (Result.ctor_Ok hash_code (Ok v) : Result T U).storage.get T = v) := by
  refine ⟨fun e f s => ?_, fun v f s => ⟨?_, Result.is_ok_ctor_Ok hash_code _,
    Result.payload_ctor_Ok hash_code _⟩⟩
  · simp [Result.or_else_st, Result.is_err_ctor_Err, Proxy.map_err_st,
      Resolve.MapErr.map_err_st, Impl.MapErr.map_err_Arg_st, Result.payload_ctor_Err, Err]
  · simp [Result.or_else_st, Result.is_err_ctor_Ok_of_ne hash_code hne, Wrapper.Get.get_Ok,
      Result.payload_ctor_Ok, Ok]

/-- Witness of C17 at `Result<std::uint8_t, std::uint8_t>` built from `Ok(5)`,
with the callable `x -> failure(x+1)` counting its invocations. -/
theorem C17_or_else_binds_failure_channel_witness :
    parity_hash (TypeInfo.Ok (CppType.name uint8_t))
      ≠ parity_hash (TypeInfo.Err (CppType.name uint8_t))
    ∧ (Result.ctor_Ok parity_hash (Ok (5 : uint8_t)) : Result uint8_t uint8_t).or_else_st
        parity_hash
        (CallableSt.unary (fun (x : uint8_t) (calls : Nat) =>
          ((Result.ctor_Err parity_hash (Err (x + 1)) : Result uint8_t uint8_t), calls + 1)))
        0
      = ((Result.ctor_Ok parity_hash (Ok (5 : uint8_t)) : Result uint8_t uint8_t), 0) :=
  ⟨by decide,
    ((C17_or_else_binds_failure_channel parity_hash (by decide)).2 (5 : uint8_t) _ 0).1⟩

/-! ## Comparisons -/

/-- C18. For each of the six operators `op`, every Result `r` and every value
`u`: `r op Ok(u)` is true if and only if `r` is success-active and
`payload(r) op u` is true; on the Result built from `Ok(v)` it is `v op u`; and
it is false on every constructed failure-active Result, for every operator,
`!=` included.  The hash codes of the two wrapper types are assumed distinct. -/
theorem C18_compare_with_Ok_wrapper {U : Type} (hash_code : TypeInfo → Nat) (op : Op)
    [Comparable op T U]
    (hne : hash_code (TypeInfo.Ok (CppType.name T))
      ≠ hash_code (TypeInfo.Err (CppType.name E))) (u : U) :
    (∀ r : Result T E,
        r.operator_vs_Ok hash_code op (Ok u) = true
          ↔ (r.is_ok hash_code = true ∧ Comparable.apply op (r.storage.get T) u = true))
    ∧ (∀ v : T,
        (Result.ctor_Ok hash_code (Ok v) : Result T E).operator_vs_Ok hash_code op (Ok u)
          = Comparable.apply op v u)
    ∧ (∀ r : Result T E, Result.Constructed hash_code r → r.is_err hash_code = true →
        r.operator_vs_Ok hash_code op (Ok u) = false) := by
  refine ⟨fun r => ?_, fun v => ?_, fun r hr herr => ?_⟩
  · simp [Result.operator_vs_Ok, Ok]
  · simp [Result.operator_vs_Ok, Result.is_ok_ctor_Ok, Result.payload_ctor_Ok, Ok]
  · cases hr with
    | from_Ok w =>
      rw [Result.is_err_ctor_Ok_of_ne hash_code hne] at herr
      exact absurd herr (by decide)
    | from_Err w =>
      simp [Result.operator_vs_Ok, Result.is_ok_ctor_Err_of_ne hash_code hne]

/-- Witness of C18 at `Result<std::uint8_t, std::uint8_t>`, operator `!=` and
wrapper `Ok(7)`; in particular `Err(5) != Ok(7)` is false. -/
theorem C18_compare_with_Ok_wrapper_witness :
    parity_hash (TypeInfo.Ok (CppType.name uint8_t))
      ≠ parity_hash (TypeInfo.Err (CppType.name uint8_t))
    ∧ (Result.ctor_Err parity_hash (Err (5 : uint8_t)) : Result uint8_t uint8_t).operator_vs_Ok
        parity_hash Op.ne (Ok (7 : uint8_t)) = false :=
  ⟨by decide,
    (C18_compare_with_Ok_wrapper parity_hash Op.ne (by decide) (7 : uint8_t)).2.2 _
      (Result.Constructed.from_Err (Err 5)) (by decide)⟩

/-- C19. For each of the six operators `op`, every Result `r` and every value
`u`: `r op Err(u)` is true if and only if `r` is failure-active and the failure
payload of `r` relates to `u` under `op`; on the Result built from `Err(e)` it is
`e op u`; and it is false on every constructed success-active Result.  The hash
codes of the two wrapper types are assumed distinct. -/
theorem C19_compare_with_Err_wrapper {U : Type} (hash_code : TypeInfo → Nat) (op : Op)
    [Comparable op E U]
    (hne : hash_code (TypeInfo.Ok (CppType.name T))
      ≠ hash_code (TypeInfo.Err (CppType.name E))) (u : U) :
    (∀ r : Result T E,
        r.operator_vs_Err hash_code op (Err u) = true
          ↔ (r.is_err hash_code = true ∧ Comparable.apply op (r.storage.get E) u = true))
    ∧ (∀ e : E,
        (Result.ctor_Err hash_code (Err e) : Result T E).operator_vs_Err hash_code op (Err u)
          = Comparable.apply op e u)
    ∧ (∀ r : Result T E, Result.Constructed hash_code r → r.is_ok hash_code = true →
        r.operator_vs_Err hash_code op (Err u) = false) := by
  refine ⟨fun r => ?_, fun e => ?_, fun r hr hok => ?_⟩
  · simp [Result.operator_vs_Err, Err]
  · simp [Result.operator_vs_Err, Result.is_err_ctor_Err, Result.payload_ctor_Err, Err]
  · cases hr with
    | from_Ok w =>
      simp [Result.operator_vs_Err, Result.is_err_ctor_Ok_of_ne hash_code hne]
    | from_Err w =>
      rw [Result.is_ok_ctor_Err_of_ne hash_code hne] at hok
      exact absurd hok (by decide)

/-- Witness of C19 at `Result<std::uint8_t, std::uint8_t>`, operator `>=` and
wrapper `Err(3)`; in particular `Ok(5) >= Err(3)` is false. -/
theorem C19_compare_with_Err_wrapper_witness :
    parity_hash (TypeInfo.Ok (CppType.name uint8_t))
      ≠ parity_hash (TypeInfo.Err (CppType.name uint8_t))
    ∧ (Result.ctor_Ok parity_hash (Ok (5 : uint8_t)) : Result uint8_t uint8_t).operator_vs_Err
        parity_hash Op.ge (Err (3 : uint8_t)) = false :=
  ⟨by decide,
    (C19_compare_with_Err_wrapper parity_hash Op.ge (by decide) (3 : uint8_t)).2.2 _
      (Result.Constructed.from_Ok (Ok 5)) (by decide)⟩

/-- C20. When both the success payloads and the failure payloads have the
operator, for each of the six operators `op`: two Results built from `Ok(a)` and
`Ok(b)` compare as `a op b`, and two Results built from `Err(a)` and `Err(b)`
compare as `a op b`; `success(2) == success(2)` is true and
`success(2) == success(3)` is false.  For the failure case the hash codes of the
two wrapper types are assumed distinct for at least one of the operands. -/
theorem C20_compare_Results_in_same_state {F G : Type} [CppType F] [CppType G]
    (hash_code : TypeInfo → Nat) (op : Op) [Comparable op T F] [Comparable op E G]
    (hne : hash_code (TypeInfo.Ok (CppType.name T)) ≠ hash_code (TypeInfo.Err (CppType.name E))
      ∨ hash_code (TypeInfo.Ok (CppType.name F))
        ≠ hash_code (TypeInfo.Err (CppType.name G))) :
    (∀ (a : T) (b : F),
        (Result.ctor_Ok hash_code (Ok a) : Result T E).operator_vs_Result hash_code op
            (Result.ctor_Ok hash_code (Ok b) : Result F G)
          = Comparable.apply op a b)
    ∧ (∀ (a : E) (b : G),
        (Result.ctor_Err hash_code (Err a) : Result T E).operator_vs_Result hash_code op
            (Result.ctor_Err hash_code (Err b) : Result F G)
          = Comparable.apply op a b)
    ∧ (Result.ctor_Ok hash_code (Ok (2 : uint8_t)) : Result uint8_t uint8_t).operator_vs_Result
        hash_code Op.eq (Result.ctor_Ok hash_code (Ok (2 : uint8_t)) : Result uint8_t uint8_t)
      = true
    ∧ (Result.ctor_Ok hash_code (Ok (2 : uint8_t)) : Result uint8_t uint8_t).operator_vs_Result
        hash_code Op.eq (Result.ctor_Ok hash_code (Ok (3 : uint8_t)) : Result uint8_t uint8_t)
      = false := by
  refine ⟨fun a b => ?_, fun a b => ?_, ?_, ?_⟩
  · simp [Result.operator_vs_Result, Result.is_ok_ctor_Ok, Result.payload_ctor_Ok, Ok]
  · have hnot : ((Result.ctor_Err hash_code (Err a) : Result T E).is_ok hash_code
        && (Result.ctor_Err hash_code (Err b) : Result F G).is_ok hash_code) = false := by
      rcases hne with h | h
      · simp [Result.is_ok_ctor_Err_of_ne hash_code h]
      · simp [Result.is_ok_ctor_Err_of_ne hash_code h]
    unfold Result.operator_vs_Result
    rw [hnot]
    simp [Result.is_err_ctor_Err, Result.payload_ctor_Err, Err]
  · simp [Result.operator_vs_Result, Result.is_ok_ctor_Ok, Result.payload_ctor_Ok, Ok,
      Comparable.apply]
  · simp [Result.operator_vs_Result, Result.is_ok_ctor_Ok, Result.payload_ctor_Ok, Ok,
      Comparable.apply]
    decide

/-- Witness of C20 at `Result<std::uint8_t, std::uint8_t>` and operator `<`:
`failure(2) < failure(3)` is true. -/
theorem C20_compare_Results_in_same_state_witness :
    (parity_hash (TypeInfo.Ok (CppType.name uint8_t))
        ≠ parity_hash (TypeInfo.Err (CppType.name uint8_t))
      ∨ parity_hash (TypeInfo.Ok (CppType.name uint8_t))
        ≠ parity_hash (TypeInfo.Err (CppType.name uint8_t)))
    ∧ (Result.ctor_Err parity_hash (Err (2 : uint8_t)) : Result uint8_t uint8_t).operator_vs_Result
        parity_hash Op.lt (Result.ctor_Err parity_hash (Err (3 : uint8_t)) : Result uint8_t uint8_t)
      = true :=
  ⟨Or.inl (by decide),
    (C20_compare_Results_in_same_state parity_hash Op.lt (Or.inl (by decide))).2.1
      (2 : uint8_t) (3 : uint8_t)⟩

/-- The sample runtime `parity_hash` tells every `Ok` wrapper type from every
`Err` wrapper type. -/
theorem parity_hash_separates (a b : String) :
    parity_hash (TypeInfo.Ok a) ≠ parity_hash (TypeInfo.Err b) := by
  simp only [parity_hash]
  omega

/-- C21. When both payload pairs have the operator and the two Results are in
different states, each of the six operators returns false for all payload
values, `!=` included: `success(2) == failure(2)` is false and so is
`success(2) != failure(2)`, with the success and failure types the same.  The
hash codes of the two wrapper types are assumed distinct for each operand. -/
theorem C21_compare_Results_in_different_states {F G : Type} [CppType F] [CppType G]
    (hash_code : TypeInfo → Nat) (op : Op) [Comparable op T F] [Comparable op E G]
    (hne : hash_code (TypeInfo.Ok (CppType.name T))
      ≠ hash_code (TypeInfo.Err (CppType.name E)))
    (hne' : hash_code (TypeInfo.Ok (CppType.name F))
      ≠ hash_code (TypeInfo.Err (CppType.name G))) :
    (∀ (a : T) (b : G),
        (Result.ctor_Ok hash_code (Ok a) : Result T E).operator_vs_Result hash_code op
            (Result.ctor_Err hash_code (Err b) : Result F G) = false)
    ∧ (∀ (a : E) (b : F),
        (Result.ctor_Err hash_code (Err a) : Result T E).operator_vs_Result hash_code op
            (Result.ctor_Ok hash_code (Ok b) : Result F G) = false)
    ∧ (Result.ctor_Ok parity_hash (Ok (2 : uint8_t)) : Result uint8_t uint8_t).operator_vs_Result
        parity_hash Op.eq (Result.ctor_Err parity_hash (Err (2 : uint8_t)) : Result uint8_t uint8_t)
      = false
    ∧ (Result.ctor_Ok parity_hash (Ok (2 : uint8_t)) : Result uint8_t uint8_t).operator_vs_Result
        parity_hash Op.ne (Result.ctor_Err parity_hash (Err (2 : uint8_t)) : Result uint8_t uint8_t)
      = false := by
  refine ⟨fun a b => ?_, fun a b => ?_, by decide, by decide⟩
  · simp [Result.operator_vs_Result, Result.is_ok_ctor_Err_of_ne hash_code hne',
      Result.is_err_ctor_Ok_of_ne hash_code hne]
  · simp [Result.operator_vs_Result, Result.is_ok_ctor_Err_of_ne hash_code hne,
      Result.is_err_ctor_Ok_of_ne hash_code hne']

/-- Witness of C21 at `Result<std::uint8_t, std::uint8_t>` and operator `>=`:
`failure(9) >= success(1)` is false. -/
theorem C21_compare_Results_in_different_states_witness :
    (parity_hash (TypeInfo.Ok (CppType.name uint8_t))
        ≠ parity_hash (TypeInfo.Err (CppType.name uint8_t))
      ∧ parity_hash (TypeInfo.Ok (CppType.name uint8_t))
        ≠ parity_hash (TypeInfo.Err (CppType.name uint8_t)))
    ∧ (Result.ctor_Err parity_hash (Err (9 : uint8_t)) : Result uint8_t uint8_t).operator_vs_Result
        parity_hash Op.ge (Result.ctor_Ok parity_hash (Ok (1 : uint8_t)) : Result uint8_t uint8_t)
      = false :=
  ⟨⟨by decide, by decide⟩,
    (C21_compare_Results_in_different_states parity_hash Op.ge (by decide) (by decide)).2.1
      (9 : uint8_t) (1 : uint8_t)⟩

/-- C23, evaluated on `Result<std::uint8_t, void>`, where only the success
payloads have `!=`: for `a` built from `Ok(2)` and `b` built from `Err()`, and
for `a` and `b` both built from `Err()`, `a != b` is false, while the doc comment
of the overload ("Returns false if both results contain Ok<T> and the instances
of T are equal, else true") gives true. -/
theorem C23_ne_with_failure_operand_is_false :
    (Result.ctor_Ok parity_hash (Ok (2 : uint8_t)) : Result uint8_t CppVoid).operator_only_Ok
        parity_hash Op.ne (Result.ctor_Err parity_hash Err_void : Result uint8_t CppVoid)
      = false
    ∧ (Result.ctor_Ok parity_hash (Ok (2 : uint8_t))
        : Result uint8_t CppVoid).operator_ne_only_Ok_documented
        parity_hash (Result.ctor_Err parity_hash Err_void : Result uint8_t CppVoid)
      = true
    ∧ (Result.ctor_Err parity_hash Err_void : Result uint8_t CppVoid).operator_only_Ok
        parity_hash Op.ne (Result.ctor_Err parity_hash Err_void : Result uint8_t CppVoid)
      = false
    ∧ (Result.ctor_Err parity_hash Err_void
        : Result uint8_t CppVoid).operator_ne_only_Ok_documented
        parity_hash (Result.ctor_Err parity_hash Err_void : Result uint8_t CppVoid)
      = true := by
  decide

/-- C24. Round trip: for every `x` whose type has a reflexive `==`, `unwrap()` on
the Result built from `Ok(x)` returns a value `y`, and the Result of the same
type built from `Ok(y)` is success-active and compares `==` to the Result built
from `Ok(x)` (in the overload for both payload pairs and in the overload for
success payloads only) and `==` to the bare wrapper `Ok(x)`. -/
theorem C24_unwrap_rewrap_round_trip [Comparable Op.eq T T] [Comparable Op.eq E E]
    (hash_code : TypeInfo → Nat)
    (hrefl : ∀ a : T, Comparable.apply Op.eq a a = true) (x : T) :
    ∃ y : T,
      (Result.ctor_Ok hash_code (Ok x) : Result T E).unwrap hash_code = Outcome.returned y
      ∧ (Result.ctor_Ok hash_code (Ok y) : Result T E).is_ok hash_code = true
      ∧ (Result.ctor_Ok hash_code (Ok y) : Result T E).operator_vs_Result hash_code Op.eq
          (Result.ctor_Ok hash_code (Ok x) : Result T E) = true
      ∧ (Result.ctor_Ok hash_code (Ok y) : Result T E).operator_only_Ok hash_code Op.eq
          (Result.ctor_Ok hash_code (Ok x) : Result T E) = true
      ∧ (Result.ctor_Ok hash_code (Ok y) : Result T E).operator_vs_Ok hash_code Op.eq (Ok x)
          = true := by
  refine ⟨x, ?_, Result.is_ok_ctor_Ok hash_code _, ?_, ?_, ?_⟩
  · simp [Result.unwrap, Result.is_ok_ctor_Ok, Result.payload_ctor_Ok, Ok]
  · simp [Result.operator_vs_Result, Result.is_ok_ctor_Ok, Result.payload_ctor_Ok, Ok, hrefl]
  · simp [Result.operator_only_Ok, Result.is_ok_ctor_Ok, Result.payload_ctor_Ok, Ok, hrefl]
  · simp [Result.operator_vs_Ok, Result.is_ok_ctor_Ok, Result.payload_ctor_Ok, Ok, hrefl]

/-- Witness of C24 at `Result<std::uint8_t, std::uint8_t>` with `x = 7`. -/
theorem C24_unwrap_rewrap_round_trip_witness :
    (∀ a : uint8_t, Comparable.apply Op.eq a a = true)
    ∧ ∃ y : uint8_t,
      (Result.ctor_Ok parity_hash (Ok (7 : uint8_t)) : Result uint8_t uint8_t).unwrap parity_hash
        = Outcome.returned y
      ∧ (Result.ctor_Ok parity_hash (Ok y) : Result uint8_t uint8_t).is_ok parity_hash = true
      ∧ (Result.ctor_Ok parity_hash (Ok y) : Result uint8_t uint8_t).operator_vs_Result
          parity_hash Op.eq (Result.ctor_Ok parity_hash (Ok (7 : uint8_t)) : Result uint8_t uint8_t)
        = true
      ∧ (Result.ctor_Ok parity_hash (Ok y) : Result uint8_t uint8_t).operator_only_Ok
          parity_hash Op.eq (Result.ctor_Ok parity_hash (Ok (7 : uint8_t)) : Result uint8_t uint8_t)
        = true
      ∧ (Result.ctor_Ok parity_hash (Ok y) : Result uint8_t uint8_t).operator_vs_Ok
          parity_hash Op.eq (Ok (7 : uint8_t)) = true :=
  ⟨fun a => by simp [Comparable.apply],
    C24_unwrap_rewrap_round_trip parity_hash (fun a => by simp [Comparable.apply]) (7 : uint8_t)⟩

/-- C27, evaluated on a program whose only operator is
`bool operator<(const B &, const A &)`, for a `Result<A, E>` compared with
`Ok(B)` (and a `Result<T, A>` compared with `Err(B)`, a `Result<A, A>` compared
with a `Result<B, B>`): the `enable_if` of the overload is true although the
operator its body applies, `A < B`, does not exist; the sibling
`Wrapper::Ok<A>::operator<(const Ok<B> &)`, whose `enable_if` names the types in
the order of its body, is disabled.  With the operator declared the other way
round, `A < B` only, the overload of `Result` is disabled although its body
would compile. -/
theorem C27_gate_tests_reversed_operands :
    (Result.operator_vs_Ok_enabled only_B_less_A Op.lt TwoTypes.A TwoTypes.B = true
      ∧ Result.operator_vs_Ok_body only_B_less_A Op.lt TwoTypes.A TwoTypes.B = false)
    ∧ (Result.operator_vs_Err_enabled only_B_less_A Op.lt TwoTypes.A TwoTypes.B = true
      ∧ Result.operator_vs_Err_body only_B_less_A Op.lt TwoTypes.A TwoTypes.B = false)
    ∧ (Result.operator_vs_Result_enabled only_B_less_A Op.lt TwoTypes.A TwoTypes.A TwoTypes.B
          TwoTypes.B = true
      ∧ Result.operator_vs_Result_body only_B_less_A Op.lt TwoTypes.A TwoTypes.A TwoTypes.B
          TwoTypes.B = false)
    ∧ (Wrapper.Ok.operator_vs_Ok_enabled only_B_less_A Op.lt TwoTypes.A TwoTypes.B = false
      ∧ Wrapper.Ok.operator_vs_Ok_body only_B_less_A Op.lt TwoTypes.A TwoTypes.B = false)
    ∧ (Result.operator_vs_Ok_enabled only_B_less_A Op.lt TwoTypes.B TwoTypes.A = false
      ∧ Result.operator_vs_Ok_body only_B_less_A Op.lt TwoTypes.B TwoTypes.A = true) := by
  decide

/-- C29. For every zero-argument callable `f` and every Result built from a
success wrapper (`Ok(v)`, or `Ok()` when `T` is `void`), `map(f)` invokes `f`
once and is the Result built from `Ok(f())`: success-active, with payload `f()`,
the same for every payload of the receiver.  When `f` returns nothing the
outcome is the Result built from `Ok()`, and a following `map_err(g)` with a
zero-argument `g` is again the Result built from `Ok()`, success-active, `g` not
invoked.  For the `map_err` step the hash codes of `Wrapper::Ok<void>` and
`Wrapper::Err<E>` are assumed distinct. -/
theorem C29_map_with_zero_argument_callable {σ R R' : Type} [CppType R] [CppType R']
    (hash_code : TypeInfo → Nat)
    (hne : hash_code (TypeInfo.Ok (CppType.name CppVoid))
      ≠ hash_code (TypeInfo.Err (CppType.name E))) :
    (∀ (w : Wrapper.Ok T) (f : CppVoid → σ → R × σ) (s : σ),
        (Result.ctor_Ok hash_code w : Result T E).map_st hash_code
            (CallableSt.nullary f : CallableSt σ T R) s
          = ((Result.ctor_Ok hash_code (Ok (f CppVoid.unit s).1) : Result R E),
              (f CppVoid.unit s).2)
        ∧ (Result.ctor_Ok hash_code (Ok (f CppVoid.unit s).1) : Result R E).is_ok hash_code
            = true
        ∧ (Result.ctor_Ok hash_code (Ok (f CppVoid.unit s).1) : Result R E).storage.get R
            = (f CppVoid.unit s).1)
    ∧ (∀ (w : Wrapper.Ok T) (f : CppVoid → σ → CppVoid × σ) (s : σ),
        (Result.ctor_Ok hash_code w : Result T E).map_st hash_code
            (CallableSt.nullary f : CallableSt σ T CppVoid) s
          = ((Result.ctor_Ok hash_code Ok_void : Result CppVoid E), (f CppVoid.unit s).2))
    ∧ (∀ (g : CppVoid → σ → R' × σ) (s : σ),
        (Result.ctor_Ok hash_code Ok_void : Result CppVoid E).map_err_st hash_code
            (CallableSt.nullary g : CallableSt σ E R') s
          = ((Result.ctor_Ok hash_code Ok_void : Result CppVoid R'), s)
        ∧ (Result.ctor_Ok hash_code Ok_void : Result CppVoid R').is_ok hash_code = true) := by
  refine ⟨fun w f s => ⟨?_, Result.is_ok_ctor_Ok hash_code _, ?_⟩, fun w f s => ?_,
    fun g s => ⟨?_, Result.is_ok_ctor_Ok hash_code _⟩⟩
  · simp [Result.map_st, Result.is_ok_ctor_Ok, Proxy.map_st, Resolve.Map.map_st,
      Impl.Map.map_void_st]
  · simp [Result.payload_ctor_Ok, Ok]
  · have hunit : (f CppVoid.unit s).1 = CppVoid.unit := by
      cases (f CppVoid.unit s).1
      rfl
    simp [Result.map_st, Result.is_ok_ctor_Ok, Proxy.map_st, Resolve.Map.map_st,
      Impl.Map.map_void_st, hunit, Ok, Ok_void]
  · simp [Result.map_err_st, Result.is_err_ctor_Ok_of_ne hash_code hne, Wrapper.Get.get_Ok,
      Ok_void]

/-- Witness of C29, the chain of `main`: on a `Result<std::uint8_t, std::uint16_t>`
built from `Ok(5)`, `map` with a zero-argument callable returning nothing, then
`map_err` with another, counting the invocations: the outcome is the unit
success after one invocation. -/
theorem C29_map_with_zero_argument_callable_witness :
    parity_hash (TypeInfo.Ok (CppType.name CppVoid))
      ≠ parity_hash (TypeInfo.Err (CppType.name uint16_t))
    ∧ (Result.ctor_Ok parity_hash (Ok (5 : uint8_t)) : Result uint8_t uint16_t).map_st
        parity_hash
        (CallableSt.nullary (fun _ (calls : Nat) => (CppVoid.unit, calls + 1))
          : CallableSt Nat uint8_t CppVoid) 0
      = ((Result.ctor_Ok parity_hash Ok_void : Result CppVoid uint16_t), 1)
    ∧ (Result.ctor_Ok parity_hash Ok_void : Result CppVoid uint16_t).map_err_st
        parity_hash
        (CallableSt.nullary (fun _ (calls : Nat) => (CppVoid.unit, calls + 1))
          : CallableSt Nat uint16_t CppVoid) 1
      = ((Result.ctor_Ok parity_hash Ok_void : Result CppVoid CppVoid), 1)
    ∧ (Result.ctor_Ok parity_hash Ok_void : Result CppVoid CppVoid).is_ok parity_hash = true :=
  ⟨by decide,
    (@C29_map_with_zero_argument_callable uint8_t uint16_t _ _ Nat CppVoid CppVoid _ _
      parity_hash (by decide)).2.1 (Ok (5 : uint8_t)) _ 0,
    ((@C29_map_with_zero_argument_callable uint8_t uint16_t _ _ Nat CppVoid CppVoid _ _
      parity_hash (by decide)).2.2 _ 1).1,
    ((@C29_map_with_zero_argument_callable uint8_t uint16_t _ _ Nat CppVoid CppVoid _ _
      parity_hash (by decide)).2.2 (fun _ (calls : Nat) => (CppVoid.unit, calls + 1)) 1).2⟩

/-- C30. Bare wrappers compare by payload, also across payload types: for each
of the six operators `op` and all `a`, `b` between whose types `op` exists,
`Ok(a) op Ok(b)` is `a op b` and `Err(a) op Err(b)` is `a op b`; so whenever
`a == b` is true, as for `2.0F == 2`, `Ok(a) == Ok(b)` is true.  Across the types
`std::uint8_t` and `std::uint16_t`, `Ok(2) == Ok(2)` is true and `Ok(2) < Ok(2)`
is false. -/
theorem C30_wrappers_compare_by_payload {A B : Type} (op : Op) [Comparable op A B]
    [Comparable Op.eq A B] (a : A) (b : B) :
    (Ok a).operator_vs_Ok op (Ok b) = Comparable.apply op a b
    ∧ (Err a).operator_vs_Err op (Err b) = Comparable.apply op a b
    ∧ (Comparable.apply Op.eq a b = true → (Ok a).operator_vs_Ok Op.eq (Ok b) = true)
    ∧ (Ok (2 : uint8_t)).operator_vs_Ok Op.eq (Ok (2 : uint16_t)) = true
    ∧ (Ok (2 : uint8_t)).operator_vs_Ok Op.lt (Ok (2 : uint16_t)) = false := by
  refine ⟨rfl, rfl, fun h => h, by decide, by decide⟩

/-! ## Effects of the facade operations -/

/-- Moving the payload out leaves the answers of `is_ok()` and `is_err()`. -/
theorem Result.same_state_moved_out (moved : List Nat → List Nat)
    (hash_code : TypeInfo → Nat) (r : Result T E) :
    Result.same_state hash_code r (r.moved_out moved) := by
  simp [Result.same_state, Result.moved_out, Result.is_ok, Result.is_err, Result.storage,
    Utils.Storage.holds_alternative]

/-- Every Result is in the state it is in. -/
theorem Result.same_state_self (hash_code : TypeInfo → Nat)
    (r : Result T E) : Result.same_state hash_code r r :=
  ⟨rfl, rfl⟩

/-- C26. The state of a Result is fixed at construction: for every Result and
every facade operation applied to it (`is_ok`, `is_err`, `unwrap`, `unwrap_err`,
the two unchecked accessors, `unwrap_or`, `unwrap_or_default`, `expect`, the six
transforms, the five families of comparison overloads), with any arguments and
whatever the move constructor of the payload leaves in the buffer, `is_ok()` and
`is_err()` on the receiver after the call answer as before it. -/
theorem C26_state_fixed_by_every_operation {σ Arg ArgE R U F G : Type} [CppType R]
    [CppType U] [CppType F] [CppType G] [Convertible T Arg] [Convertible E ArgE]
    (moved : List Nat → List Nat) (hash_code : TypeInfo → Nat) (r : Result T E)
    (other : Result F G) (f : CallableSt σ Arg R) (g : CallableSt σ ArgE R)
    (f' : CallableSt σ Arg (Result U E)) (g' : CallableSt σ ArgE (Result T U)) (s : σ) :
    Result.same_state hash_code r r.is_ok_effect.receiver
    ∧ Result.same_state hash_code r r.is_err_effect.receiver
    ∧ Result.same_state hash_code r (r.unwrap_effect moved hash_code).receiver
    ∧ Result.same_state hash_code r (r.unwrap_err_effect moved hash_code).receiver
    ∧ Result.same_state hash_code r (r.unwrap_unchecked_effect moved hash_code).receiver
    ∧ Result.same_state hash_code r (r.unwrap_err_unchecked_effect moved hash_code).receiver
    ∧ Result.same_state hash_code r (r.unwrap_or_effect moved hash_code).receiver
    ∧ Result.same_state hash_code r (r.unwrap_or_default_effect moved hash_code).receiver
    ∧ Result.same_state hash_code r (r.expect_effect moved hash_code).receiver
    ∧ Result.same_state hash_code r (r.map_effect hash_code f).receiver
    ∧ Result.same_state hash_code r (r.map_err_effect hash_code g).receiver
    ∧ Result.same_state hash_code r (r.map_or_effect hash_code f s).receiver
    ∧ Result.same_state hash_code r (r.map_or_else_effect hash_code f g s).receiver
    ∧ Result.same_state hash_code r (r.and_then_effect hash_code f' s).receiver
    ∧ Result.same_state hash_code r (r.or_else_effect hash_code g' s).receiver
    ∧ Result.same_state hash_code r (r.operator_vs_Ok_effect hash_code).receiver
    ∧ Result.same_state hash_code r (r.operator_vs_Err_effect hash_code).receiver
    ∧ Result.same_state hash_code r (r.operator_only_Ok_effect hash_code other).receiver
    ∧ Result.same_state hash_code r (r.operator_only_Err_effect hash_code other).receiver
    ∧ Result.same_state hash_code r (r.operator_vs_Result_effect hash_code other).receiver := by
  have hself := Result.same_state_self hash_code r
  have hmoved := Result.same_state_moved_out moved hash_code r
  refine ⟨hself, hself, ?_, ?_, hmoved, hmoved, ?_, ?_, ?_, hself, hself, hself, hself, hself,
    hself, hself, hself, hself, hself, hself⟩
  · unfold Result.unwrap_effect
    split
    · exact hmoved
    · exact hself
  · unfold Result.unwrap_err_effect
    split
    · exact hmoved
    · exact hself
  · unfold Result.unwrap_or_effect
    split
    · exact hmoved
    · exact hself
  · unfold Result.unwrap_or_default_effect
    split
    · exact hself
    · exact hmoved
  · unfold Result.expect_effect
    split
    · exact hmoved
    · exact hself

/-- A constructed Result is in exactly one of the two states when the hash tells
the two wrapper types apart. -/
theorem Result.Constructed.one_state (hash_code : TypeInfo → Nat)
    (hne : hash_code (TypeInfo.Ok (CppType.name T))
      ≠ hash_code (TypeInfo.Err (CppType.name E)))
    (r : Result T E) (hr : Result.Constructed hash_code r) :
    (r.is_ok hash_code = true ∧ r.is_err hash_code = false)
    ∨ (r.is_ok hash_code = false ∧ r.is_err hash_code = true) := by
  cases hr with
  | from_Ok w =>
    exact Or.inl ⟨Result.is_ok_ctor_Ok hash_code w, Result.is_err_ctor_Ok_of_ne hash_code hne w⟩
  | from_Err w =>
    exact Or.inr ⟨Result.is_ok_ctor_Err_of_ne hash_code hne w, Result.is_err_ctor_Err hash_code w⟩

/-- The temporary of `Proxy::map` is success-active. -/
theorem Proxy.map_st_state {σ Arg R : Type} [CppType R] [Convertible T Arg]
    (hash_code : TypeInfo → Nat)
    (hne : hash_code (TypeInfo.Ok (CppType.name R))
      ≠ hash_code (TypeInfo.Err (CppType.name E)))
    (r : Result T E) (f : CallableSt σ Arg R) (s : σ) :
    (Proxy.map_st hash_code r f s).1.is_ok hash_code = true
    ∧ (Proxy.map_st hash_code r f s).1.is_err hash_code = false := by
  cases f <;>
    exact ⟨Result.is_ok_ctor_Ok hash_code _, Result.is_err_ctor_Ok_of_ne hash_code hne _⟩

/-- The temporary of `Proxy::map_err` is failure-active. -/
theorem Proxy.map_err_st_state {σ Arg R : Type} [CppType R] [Convertible E Arg]
    (hash_code : TypeInfo → Nat)
    (hne : hash_code (TypeInfo.Ok (CppType.name T))
      ≠ hash_code (TypeInfo.Err (CppType.name R)))
    (r : Result T E) (f : CallableSt σ Arg R) (s : σ) :
    (Proxy.map_err_st hash_code r f s).1.is_ok hash_code = false
    ∧ (Proxy.map_err_st hash_code r f s).1.is_err hash_code = true := by
  cases f <;>
    exact ⟨Result.is_ok_ctor_Err_of_ne hash_code hne _, Result.is_err_ctor_Err hash_code _⟩

/-- The accesses of the extraction operations and of the comparisons with a bare
wrapper are safe. -/
theorem Result.extraction_effects_safe (moved : List Nat → List Nat)
    (hash_code : TypeInfo → Nat)
    (hne : hash_code (TypeInfo.Ok (CppType.name T))
      ≠ hash_code (TypeInfo.Err (CppType.name E)))
    (r : Result T E) (hr : Result.Constructed hash_code r) :
    (r.unwrap_effect moved hash_code).safe
    ∧ (r.unwrap_err_effect moved hash_code).safe
    ∧ (r.unwrap_or_effect moved hash_code).safe
    ∧ (r.unwrap_or_default_effect moved hash_code).safe
    ∧ (r.expect_effect moved hash_code).safe
    ∧ (r.operator_vs_Ok_effect hash_code).safe
    ∧ (r.operator_vs_Err_effect hash_code).safe := by
  rcases Result.Constructed.one_state hash_code hne r hr with ⟨h1, h2⟩ | ⟨h1, h2⟩ <;>
    simp [Effect.safe, Result.unwrap_effect, Result.unwrap_err_effect,
      Result.unwrap_or_effect, Result.unwrap_or_default_effect, Result.expect_effect,
      Result.operator_vs_Ok_effect, Result.operator_vs_Err_effect, Result.access,
      Access.guarded, Access.crossed, h1, h2]

/-- The accesses of `map` and `map_err` are safe. -/
theorem Result.map_effects_safe {σ Arg ArgE R : Type}
    (hash_code : TypeInfo → Nat)
    (hne : hash_code (TypeInfo.Ok (CppType.name T))
      ≠ hash_code (TypeInfo.Err (CppType.name E)))
    (r : Result T E) (hr : Result.Constructed hash_code r)
    (f : CallableSt σ Arg R) (g : CallableSt σ ArgE R) :
    (r.map_effect hash_code f).safe ∧ (r.map_err_effect hash_code g).safe := by
  rcases Result.Constructed.one_state hash_code hne r hr with ⟨h1, h2⟩ | ⟨h1, h2⟩ <;>
    cases f <;> cases g <;>
    simp [Effect.safe, Result.map_effect, Result.map_err_effect, Proxy.map_accesses,
      Proxy.map_err_accesses, Wrapper.Get.get_Ok_accesses, Wrapper.Get.get_Err_accesses,
      Result.access, Access.guarded, Access.crossed, h1, h2]

/-- The accesses of `map_or` and `map_or_else` are safe. -/
theorem Result.map_or_effects_safe {σ Arg ArgE R : Type} [CppType R] [Convertible T Arg]
    [Convertible E ArgE] (hash_code : TypeInfo → Nat)
    (hsep : ∀ a b : String, hash_code (TypeInfo.Ok a) ≠ hash_code (TypeInfo.Err b))
    (r : Result T E) (hr : Result.Constructed hash_code r)
    (f : CallableSt σ Arg R) (g : CallableSt σ ArgE R) (s : σ) :
    (r.map_or_effect hash_code f s).safe ∧ (r.map_or_else_effect hash_code f g s).safe := by
  obtain ⟨m1, m2⟩ := Proxy.map_st_state hash_code (hsep _ _) r f s
  obtain ⟨e1, e2⟩ := Proxy.map_err_st_state hash_code (hsep _ _) r g s
  rcases Result.Constructed.one_state hash_code (hsep _ _) r hr with ⟨h1, h2⟩ | ⟨h1, h2⟩ <;>
    cases f <;> cases g <;>
    simp_all [Effect.safe, Result.map_or_effect, Result.map_or_else_effect,
      Proxy.map_accesses, Proxy.map_err_accesses, Result.access, Access.guarded,
      Access.crossed]

/-- The accesses of `and_then` and `or_else` are safe. -/
theorem Result.bind_effects_safe {σ Arg ArgE U : Type} [CppType U] [Convertible T Arg]
    [Convertible E ArgE] (hash_code : TypeInfo → Nat)
    (hsep : ∀ a b : String, hash_code (TypeInfo.Ok a) ≠ hash_code (TypeInfo.Err b))
    (r : Result T E) (hr : Result.Constructed hash_code r)
    (f : CallableSt σ Arg (Result U E)) (g : CallableSt σ ArgE (Result T U)) (s : σ) :
    (r.and_then_effect hash_code f s).safe ∧ (r.or_else_effect hash_code g s).safe := by
  obtain ⟨m1, m2⟩ := Proxy.map_st_state hash_code (hsep _ _) r f s
  obtain ⟨e1, e2⟩ := Proxy.map_err_st_state hash_code (hsep _ _) r g s
  rcases Result.Constructed.one_state hash_code (hsep _ _) r hr with ⟨h1, h2⟩ | ⟨h1, h2⟩ <;>
    cases f <;> cases g <;>
    simp_all [Effect.safe, Result.and_then_effect, Result.or_else_effect,
      Proxy.map_accesses, Proxy.map_err_accesses, Wrapper.Get.get_Ok_accesses,
      Wrapper.Get.get_Err_accesses, Result.access, Access.guarded, Access.crossed]

/-- The accesses of the comparisons of two Results are safe. -/
theorem Result.comparison_effects_safe {F G : Type} [CppType F] [CppType G]
    (hash_code : TypeInfo → Nat)
    (hne : hash_code (TypeInfo.Ok (CppType.name T))
      ≠ hash_code (TypeInfo.Err (CppType.name E)))
    (hne' : hash_code (TypeInfo.Ok (CppType.name F))
      ≠ hash_code (TypeInfo.Err (CppType.name G)))
    (r : Result T E) (hr : Result.Constructed hash_code r)
    (other : Result F G) (ho : Result.Constructed hash_code other) :
    (r.operator_only_Ok_effect hash_code other).safe
    ∧ (r.operator_only_Err_effect hash_code other).safe
    ∧ (r.operator_vs_Result_effect hash_code other).safe := by
  rcases Result.Constructed.one_state hash_code hne r hr with ⟨h1, h2⟩ | ⟨h1, h2⟩ <;>
    rcases Result.Constructed.one_state hash_code hne' other ho with ⟨k1, k2⟩ | ⟨k1, k2⟩ <;>
    simp [Effect.safe, Result.operator_only_Ok_effect, Result.operator_only_Err_effect,
      Result.operator_vs_Result_effect, Result.access, Access.guarded, Access.crossed,
      h1, h2, k1, k2]

/-- C28. In every checked facade operation (`unwrap`, `unwrap_err`, `unwrap_or`,
`unwrap_or_default`, `expect`, the six transforms, the five families of
comparison overloads), on constructed Results in either state and with any
arguments, every call of `Storage::get<U>()` - on the receiver, on the other
operand, on a temporary - requests the slot the discriminant of that Result
names, and none reads the success slot of a failure-active Result or the
failure slot of a success-active one.  The runtime hash is assumed to tell `Ok`
wrapper types from `Err` wrapper types. -/
theorem C28_payload_accesses_match_discriminant {σ Arg ArgE R U F G : Type} [CppType R]
    [CppType U] [CppType F] [CppType G] [Convertible T Arg] [Convertible E ArgE]
    (moved : List Nat → List Nat) (hash_code : TypeInfo → Nat)
    (hsep : ∀ a b : String, hash_code (TypeInfo.Ok a) ≠ hash_code (TypeInfo.Err b))
    (r : Result T E) (hr : Result.Constructed hash_code r)
    (other : Result F G) (ho : Result.Constructed hash_code other)
    (f : CallableSt σ Arg R) (g : CallableSt σ ArgE R)
    (f' : CallableSt σ Arg (Result U E)) (g' : CallableSt σ ArgE (Result T U)) (s : σ) :
    (r.unwrap_effect moved hash_code).safe
    ∧ (r.unwrap_err_effect moved hash_code).safe
    ∧ (r.unwrap_or_effect moved hash_code).safe
    ∧ (r.unwrap_or_default_effect moved hash_code).safe
    ∧ (r.expect_effect moved hash_code).safe
    ∧ (r.map_effect hash_code f).safe
    ∧ (r.map_err_effect hash_code g).safe
    ∧ (r.map_or_effect hash_code f s).safe
    ∧ (r.map_or_else_effect hash_code f g s).safe
    ∧ (r.and_then_effect hash_code f' s).safe
    ∧ (r.or_else_effect hash_code g' s).safe
    ∧ (r.operator_vs_Ok_effect hash_code).safe
    ∧ (r.operator_vs_Err_effect hash_code).safe
    ∧ (r.operator_only_Ok_effect hash_code other).safe
    ∧ (r.operator_only_Err_effect hash_code other).safe
    ∧ (r.operator_vs_Result_effect hash_code other).safe := by
  obtain ⟨x1, x2, x3, x4, x5, x6, x7⟩ :=
    Result.extraction_effects_safe moved hash_code (hsep _ _) r hr
  obtain ⟨y1, y2⟩ := Result.map_effects_safe hash_code (hsep _ _) r hr f g
  obtain ⟨y3, y4⟩ := Result.map_or_effects_safe hash_code hsep r hr f g s
  obtain ⟨y5, y6⟩ := Result.bind_effects_safe hash_code hsep r hr f' g' s
  obtain ⟨z1, z2, z3⟩ :=
    Result.comparison_effects_safe hash_code (hsep _ _) (hsep _ _) r hr other ho
  exact ⟨x1, x2, x3, x4, x5, y1, y2, y3, y4, y5, y6, x6, x7, z1, z2, z3⟩

/-- Witness of C28 at `Result<std::uint8_t, std::uint8_t>`: the receiver built
from `Err(5)`, the other operand built from `Ok(7)`, callables `x -> x+1`. -/
theorem C28_payload_accesses_match_discriminant_witness :
    ((∀ a b : String, parity_hash (TypeInfo.Ok a) ≠ parity_hash (TypeInfo.Err b))
      ∧ Result.Constructed parity_hash
          (Result.ctor_Err parity_hash (Err (5 : uint8_t)) : Result uint8_t uint8_t)
      ∧ Result.Constructed parity_hash
          (Result.ctor_Ok parity_hash (Ok (7 : uint8_t)) : Result uint8_t uint8_t))
    ∧ ((Result.ctor_Err parity_hash (Err (5 : uint8_t))
        : Result uint8_t uint8_t).unwrap_or_default_effect id parity_hash).safe
    ∧ ((Result.ctor_Err parity_hash (Err (5 : uint8_t))
        : Result uint8_t uint8_t).map_or_else_effect parity_hash
          (CallableSt.unary (fun (x : uint8_t) (calls : Nat) => (x + 1, calls + 1)))
          (CallableSt.unary (fun (x : uint8_t) (calls : Nat) => (x + 1, calls + 1))) 0).safe :=
  ⟨⟨parity_hash_separates, Result.Constructed.from_Err _, Result.Constructed.from_Ok _⟩,
    (C28_payload_accesses_match_discriminant id parity_hash parity_hash_separates
      (Result.ctor_Err parity_hash (Err (5 : uint8_t)) : Result uint8_t uint8_t)
      (Result.Constructed.from_Err _)
      (Result.ctor_Ok parity_hash (Ok (7 : uint8_t)) : Result uint8_t uint8_t)
      (Result.Constructed.from_Ok _)
      (CallableSt.unary (fun (x : uint8_t) (calls : Nat) => (x + 1, calls + 1)))
      (CallableSt.unary (fun (x : uint8_t) (calls : Nat) => (x + 1, calls + 1)))
      (CallableSt.unary (fun (x : uint8_t) (calls : Nat) =>
        ((Result.ctor_Ok parity_hash (Ok x) : Result uint8_t uint8_t), calls + 1)))
      (CallableSt.unary (fun (x : uint8_t) (calls : Nat) =>
        ((Result.ctor_Ok parity_hash (Ok x) : Result uint8_t uint8_t), calls + 1)))
      0).2.2.2.1,
    (C28_payload_accesses_match_discriminant id parity_hash parity_hash_separates
      (Result.ctor_Err parity_hash (Err (5 : uint8_t)) : Result uint8_t uint8_t)
      (Result.Constructed.from_Err _)
      (Result.ctor_Ok parity_hash (Ok (7 : uint8_t)) : Result uint8_t uint8_t)
      (Result.Constructed.from_Ok _)
      (CallableSt.unary (fun (x : uint8_t) (calls : Nat) => (x + 1, calls + 1)))
      (CallableSt.unary (fun (x : uint8_t) (calls : Nat) => (x + 1, calls + 1)))
      (CallableSt.unary (fun (x : uint8_t) (calls : Nat) =>
        ((Result.ctor_Ok parity_hash (Ok x) : Result uint8_t uint8_t), calls + 1)))
      (CallableSt.unary (fun (x : uint8_t) (calls : Nat) =>
        ((Result.ctor_Ok parity_hash (Ok x) : Result uint8_t uint8_t), calls + 1)))
      0).2.2.2.2.2.2.2.2.1⟩

/-- C25. No transform reaches the fatal path.  For every Result `r`, in any
state, and all total callables, each of `map`, `map_err`, `map_or`,
`map_or_else`, `and_then`, `or_else` returns a value; with total payload
operators every comparison of `r` (against an `Ok` wrapper, an `Err` wrapper,
or a Result in the three overloads) returns a boolean, the one the operator
definitions give when the payload operators are the built-in ones.  Whatever
the callables, a transform that ends in `RESULT_ERROR` does so inside a
callable it invoked, with that callable's diagnostic.  `unwrap_or`,
`unwrap_or_default` and the unchecked accessors never end in `RESULT_ERROR`,
and each of `unwrap`, `unwrap_err`, `expect` does so on some constructed
Result. -/
theorem C25_only_checked_extraction_terminates {σ Arg ArgE R U F G : Type} [CppType R]
    [CppType U] [CppType F] [CppType G] [Convertible T Arg] [Convertible E ArgE]
    [Inhabited T] (moved : List Nat → List Nat) (hash_code : TypeInfo → Nat) (op : Op)
    [Comparable op T F] [Comparable op E G]
    (f : CallableRun σ Arg R) (g : CallableRun σ ArgE R)
    (f' : CallableRun σ Arg (Result U E)) (g' : CallableRun σ ArgE (Result T U))
    (cmpT : T → F → Outcome Bool) (cmpE : E → G → Outcome Bool)
    (hf : f.total) (hg : g.total) (hf' : f'.total) (hg' : g'.total)
    (hcmpT : ∀ (a : T) (b : F), ∃ v, cmpT a b = Outcome.returned v)
    (hcmpE : ∀ (a : E) (b : G), ∃ v, cmpE a b = Outcome.returned v)
    (r : Result T E) (other : Result F G) (d : R) (t : T) (s : σ) :
    ((∃ x, r.map_run moved hash_code f s = Outcome.returned x)
      ∧ (∃ x, r.map_err_run moved hash_code g s = Outcome.returned x)
      ∧ (∃ x, r.map_or_run moved hash_code f d s = Outcome.returned x)
      ∧ (∃ x, r.map_or_else_run moved hash_code f g s = Outcome.returned x)
      ∧ (∃ x, r.and_then_run moved hash_code f' s = Outcome.returned x)
      ∧ (∃ x, r.or_else_run moved hash_code g' s = Outcome.returned x))
    ∧ ((∃ b, r.operator_vs_Ok_run hash_code cmpT (Ok (other.storage.get F))
          = Outcome.returned b)
      ∧ (∃ b, r.operator_vs_Err_run hash_code cmpE (Err (other.storage.get G))
          = Outcome.returned b)
      ∧ (∃ b, r.operator_only_Ok_run hash_code cmpT other = Outcome.returned b)
      ∧ (∃ b, r.operator_only_Err_run hash_code cmpE other = Outcome.returned b)
      ∧ (∃ b, r.operator_vs_Result_run hash_code cmpT cmpE other = Outcome.returned b))
    ∧ (r.operator_vs_Ok_run hash_code
          (fun a b => Outcome.returned (Comparable.apply op a b)) (Ok (other.storage.get F))
        = Outcome.returned (r.operator_vs_Ok hash_code op (Ok (other.storage.get F)))
      ∧ r.operator_vs_Err_run hash_code
          (fun a b => Outcome.returned (Comparable.apply op a b)) (Err (other.storage.get G))
        = Outcome.returned (r.operator_vs_Err hash_code op (Err (other.storage.get G)))
      ∧ r.operator_only_Ok_run hash_code
          (fun a b => Outcome.returned (Comparable.apply op a b)) other
        = Outcome.returned (r.operator_only_Ok hash_code op other)
      ∧ r.operator_only_Err_run hash_code
          (fun a b => Outcome.returned (Comparable.apply op a b)) other
        = Outcome.returned (r.operator_only_Err hash_code op other)
      ∧ r.operator_vs_Result_run hash_code
          (fun a b => Outcome.returned (Comparable.apply op a b))
          (fun a b => Outcome.returned (Comparable.apply op a b)) other
        = Outcome.returned (r.operator_vs_Result hash_code op other))
    ∧ (∀ (h : CallableRun σ Arg R) (k : CallableRun σ ArgE R)
        (h' : CallableRun σ Arg (Result U E)) (k' : CallableRun σ ArgE (Result T U))
        (diagnostic : String),
        (r.map_run moved hash_code h s = Outcome.terminated diagnostic → h.fatal diagnostic)
        ∧ (r.map_err_run moved hash_code k s = Outcome.terminated diagnostic
          → k.fatal diagnostic)
        ∧ (r.map_or_run moved hash_code h d s = Outcome.terminated diagnostic
          → h.fatal diagnostic)
        ∧ (r.map_or_else_run moved hash_code h k s = Outcome.terminated diagnostic
          → h.fatal diagnostic ∨ k.fatal diagnostic)
        ∧ (r.and_then_run moved hash_code h' s = Outcome.terminated diagnostic
          → h'.fatal diagnostic)
        ∧ (r.or_else_run moved hash_code k' s = Outcome.terminated diagnostic
          → k'.fatal diagnostic))
    ∧ (∀ diagnostic : String,
        r.unwrap_or hash_code t ≠ Outcome.terminated diagnostic
        ∧ r.unwrap_or_default hash_code ≠ Outcome.terminated diagnostic
        ∧ r.unwrap_unchecked ≠ Outcome.terminated diagnostic
        ∧ r.unwrap_err_unchecked ≠ Outcome.terminated diagnostic)
    ∧ (∃ x : Result uint8_t uint8_t, Result.Constructed parity_hash x
        ∧ x.unwrap parity_hash
          = Outcome.terminated "Tried to unwrap a result containing an error")
    ∧ (∃ x : Result uint8_t uint8_t, Result.Constructed parity_hash x
        ∧ x.unwrap_err parity_hash
          = Outcome.terminated "Tried to unwrap an error containing a result")
    ∧ (∃ x : Result uint8_t uint8_t, Result.Constructed parity_hash x
        ∧ x.expect parity_hash "no value" = Outcome.terminated "no value") := by
  refine ⟨⟨?_, ?_, ?_, ?_, ?_, ?_⟩, ⟨?_, ?_, ?_, ?_, ?_⟩, ⟨?_, ?_, ?_, ?_, ?_⟩,
    fun h k h' k' diagnostic => ⟨?_, ?_, ?_, ?_, ?_, ?_⟩,
    fun diagnostic => ⟨?_, ?_, ?_, ?_⟩,
    ⟨Result.ctor_Err parity_hash (Err 5), Result.Constructed.from_Err _, by decide⟩,
    ⟨Result.ctor_Ok parity_hash (Ok 5), Result.Constructed.from_Ok _, by decide⟩,
    ⟨Result.ctor_Err parity_hash (Err 5), Result.Constructed.from_Err _, by decide⟩⟩
  · exact (Result.map_run_spec moved hash_code r f s).2.1 hf
  · exact (Result.map_err_run_spec moved hash_code r g s).2.1 hg
  · exact (Result.map_or_run_spec moved hash_code r f d s).2.1 hf
  · exact (Result.map_or_else_run_spec moved hash_code r f g s).2.1 hf hg
  · exact (Result.and_then_run_spec moved hash_code r f' s).2.1 hf'
  · exact (Result.or_else_run_spec moved hash_code r g' s).2.1 hg'
  · unfold Result.operator_vs_Ok_run
    split
    · exact hcmpT _ _
    · exact ⟨false, rfl⟩
  · unfold Result.operator_vs_Err_run
    split
    · exact hcmpE _ _
    · exact ⟨false, rfl⟩
  · unfold Result.operator_only_Ok_run
    split
    · exact hcmpT _ _
    · exact ⟨false, rfl⟩
  · unfold Result.operator_only_Err_run
    split
    · exact hcmpE _ _
    · exact ⟨false, rfl⟩
  · unfold Result.operator_vs_Result_run
    split
    · exact hcmpT _ _
    · split
      · exact hcmpE _ _
      · exact ⟨false, rfl⟩
  · by_cases hs : r.is_ok hash_code = true <;>
      simp [Result.operator_vs_Ok_run, Result.operator_vs_Ok, hs]
  · by_cases hs : r.is_err hash_code = true <;>
      simp [Result.operator_vs_Err_run, Result.operator_vs_Err, hs]
  · cases hb : (r.is_ok hash_code && other.is_ok hash_code) <;>
      simp only [Result.operator_only_Ok_run, Result.operator_only_Ok, hb] <;> rfl
  · cases hb : (r.is_err hash_code && other.is_err hash_code) <;>
      simp only [Result.operator_only_Err_run, Result.operator_only_Err, hb] <;> rfl
  · unfold Result.operator_vs_Result_run Result.operator_vs_Result
    split
    · rfl
    · split <;> rfl
  · exact (Result.map_run_spec moved hash_code r h s).2.2 diagnostic
  · exact (Result.map_err_run_spec moved hash_code r k s).2.2 diagnostic
  · exact (Result.map_or_run_spec moved hash_code r h d s).2.2 diagnostic
  · exact (Result.map_or_else_run_spec moved hash_code r h k s).2.2 diagnostic
  · exact (Result.and_then_run_spec moved hash_code r h' s).2.2 diagnostic
  · exact (Result.or_else_run_spec moved hash_code r k' s).2.2 diagnostic
  · unfold Result.unwrap_or
    split <;> simp
  · unfold Result.unwrap_or_default
    split <;> simp
  · simp [Result.unwrap_unchecked]
  · simp [Result.unwrap_err_unchecked]

/-- Witness of C25 at `Result<std::uint8_t, std::uint8_t>` built from `Err(5)`,
with callables that count their invocations and the built-in `<` of
`std::uint8_t`: `map` returns, and `r < r` returns a boolean. -/
theorem C25_only_checked_extraction_terminates_witness :
    ((CallableSt.run (CallableSt.unary (fun (x : uint8_t) (calls : Nat) =>
          (x + 1, calls + 1)))).total
      ∧ (CallableSt.run (CallableSt.unary (fun (x : uint8_t) (calls : Nat) =>
          ((Result.ctor_Ok parity_hash (Ok x) : Result uint8_t uint8_t), calls + 1)))).total
      ∧ (∀ (a b : uint8_t), ∃ v,
          (fun (x y : uint8_t) => Outcome.returned (Comparable.apply Op.lt x y)) a b
            = Outcome.returned v))
    ∧ (∃ x, (Result.ctor_Err parity_hash (Err (5 : uint8_t)) : Result uint8_t uint8_t).map_run
          id parity_hash
          (CallableSt.run (CallableSt.unary (fun (x : uint8_t) (calls : Nat) =>
            (x + 1, calls + 1)))) 0 = Outcome.returned x)
    ∧ (∃ b, (Result.ctor_Err parity_hash (Err (5 : uint8_t)) :
          Result uint8_t uint8_t).operator_vs_Result_run parity_hash
          (fun (x y : uint8_t) => Outcome.returned (Comparable.apply Op.lt x y))
          (fun (x y : uint8_t) => Outcome.returned (Comparable.apply Op.lt x y))
          (Result.ctor_Err parity_hash (Err (5 : uint8_t)) : Result uint8_t uint8_t)
        = Outcome.returned b) :=
  ⟨⟨CallableSt.run_total _, CallableSt.run_total _, fun _ _ => ⟨_, rfl⟩⟩,
    (C25_only_checked_extraction_terminates id parity_hash Op.lt
      (CallableSt.run (CallableSt.unary (fun (x : uint8_t) (calls : Nat) =>
        (x + 1, calls + 1))))
      (CallableSt.run (CallableSt.unary (fun (x : uint8_t) (calls : Nat) =>
        (x + 1, calls + 1))))
      (CallableSt.run (CallableSt.unary (fun (x : uint8_t) (calls : Nat) =>
        ((Result.ctor_Ok parity_hash (Ok x) : Result uint8_t uint8_t), calls + 1))))
      (CallableSt.run (CallableSt.unary (fun (x : uint8_t) (calls : Nat) =>
        ((Result.ctor_Ok parity_hash (Ok x) : Result uint8_t uint8_t), calls + 1))))
      (fun (x y : uint8_t) => Outcome.returned (Comparable.apply Op.lt x y))
      (fun (x y : uint8_t) => Outcome.returned (Comparable.apply Op.lt x y))
      (CallableSt.run_total _) (CallableSt.run_total _) (CallableSt.run_total _)
      (CallableSt.run_total _) (fun _ _ => ⟨_, rfl⟩) (fun _ _ => ⟨_, rfl⟩)
      (Result.ctor_Err parity_hash (Err (5 : uint8_t)) : Result uint8_t uint8_t)
      (Result.ctor_Err parity_hash (Err (5 : uint8_t)) : Result uint8_t uint8_t)
      0 0 0).1.1,
    (C25_only_checked_extraction_terminates id parity_hash Op.lt
      (CallableSt.run (CallableSt.unary (fun (x : uint8_t) (calls : Nat) =>
        (x + 1, calls + 1))))
      (CallableSt.run (CallableSt.unary (fun (x : uint8_t) (calls : Nat) =>
        (x + 1, calls + 1))))
      (CallableSt.run (CallableSt.unary (fun (x : uint8_t) (calls : Nat) =>
        ((Result.ctor_Ok parity_hash (Ok x) : Result uint8_t uint8_t), calls + 1))))
      (CallableSt.run (CallableSt.unary (fun (x : uint8_t) (calls : Nat) =>
        ((Result.ctor_Ok parity_hash (Ok x) : Result uint8_t uint8_t), calls + 1))))
      (fun (x y : uint8_t) => Outcome.returned (Comparable.apply Op.lt x y))
      (fun (x y : uint8_t) => Outcome.returned (Comparable.apply Op.lt x y))
      (CallableSt.run_total _) (CallableSt.run_total _) (CallableSt.run_total _)
      (CallableSt.run_total _) (fun _ _ => ⟨_, rfl⟩) (fun _ _ => ⟨_, rfl⟩)
      (Result.ctor_Err parity_hash (Err (5 : uint8_t)) : Result uint8_t uint8_t)
      (Result.ctor_Err parity_hash (Err (5 : uint8_t)) : Result uint8_t uint8_t)
      0 0 0).2.1.2.2.2.2⟩

/-! ## Frame and algebraic properties -/

/-- The call `unwrap()` on a success-active Result, unlike a transform, moves the
payload out of the receiver: with a move constructor that zeroes what it
leaves, the receiver built from `Ok(5)` holds the byte 0 after the call. -/
theorem Result.unwrap_run_rewrites_receiver :
    ∃ after : Result uint8_t uint8_t,
      (Result.ctor_Ok parity_hash (Ok (5 : uint8_t)) : Result uint8_t uint8_t).unwrap_run
          (fun bytes => bytes.map (fun _ => 0)) parity_hash
        = Outcome.returned (5, after)
      ∧ after._storage._storage = [0]
      ∧ (Result.ctor_Ok parity_hash (Ok (5 : uint8_t)) :
          Result uint8_t uint8_t)._storage._storage = [5] :=
  ⟨_, rfl, rfl, rfl⟩

/-- C31. The six transforms read the receiver by copy and do not modify it.  For
every Result `r`, in any state, every move constructor of the payload types
(`moved`) and all callables that return: each of `r.map(f)`, `r.map_err(g)`,
`r.map_or(f, d)`, `r.map_or_else(f, g)`, `r.and_then(f)`, `r.or_else(g)` returns
the value of the transform and leaves the receiver equal to `r`, discriminant
and buffer; a call with any callable, if it returns, leaves the receiver equal
to `r`; and whatever is applied next to the receiver (a second transform, with
the state the first one left) gives what it gives on the original `r`. -/
theorem C31_transforms_leave_receiver {σ Arg ArgE R U : Type} [CppType R] [CppType U]
    [Convertible T Arg] [Convertible E ArgE] (moved : List Nat → List Nat)
    (hash_code : TypeInfo → Nat) (r : Result T E)
    (f : CallableSt σ Arg R) (g : CallableSt σ ArgE R) (f' : CallableSt σ Arg (Result U E))
    (g' : CallableSt σ ArgE (Result T U)) (d : R) (s : σ) :
    (r.map_run moved hash_code (CallableSt.run f) s
        = Outcome.returned ((r.map_st hash_code f s).1, r, (r.map_st hash_code f s).2)
      ∧ r.map_err_run moved hash_code (CallableSt.run g) s
        = Outcome.returned ((r.map_err_st hash_code g s).1, r, (r.map_err_st hash_code g s).2)
      ∧ r.map_or_run moved hash_code (CallableSt.run f) d s
        = Outcome.returned
            ((r.map_or_st hash_code f d s).1, r, (r.map_or_st hash_code f d s).2)
      ∧ r.map_or_else_run moved hash_code (CallableSt.run f) (CallableSt.run g) s
        = Outcome.returned ((r.map_or_else_st hash_code f g s).1, r,
            (r.map_or_else_st hash_code f g s).2)
      ∧ r.and_then_run moved hash_code (CallableSt.run f') s
        = Outcome.returned
            ((r.and_then_st hash_code f' s).1, r, (r.and_then_st hash_code f' s).2)
      ∧ r.or_else_run moved hash_code (CallableSt.run g') s
        = Outcome.returned
            ((r.or_else_st hash_code g' s).1, r, (r.or_else_st hash_code g' s).2))
    ∧ (∀ (h : CallableRun σ Arg R) (k : CallableRun σ ArgE R)
        (h' : CallableRun σ Arg (Result U E)) (k' : CallableRun σ ArgE (Result T U)),
        (∀ x, r.map_run moved hash_code h s = Outcome.returned x
          → x.2.1._storage._type = r._storage._type
            ∧ x.2.1._storage._storage = r._storage._storage)
        ∧ (∀ x, r.map_err_run moved hash_code k s = Outcome.returned x
          → x.2.1._storage._type = r._storage._type
            ∧ x.2.1._storage._storage = r._storage._storage)
        ∧ (∀ x, r.map_or_run moved hash_code h d s = Outcome.returned x
          → x.2.1._storage._type = r._storage._type
            ∧ x.2.1._storage._storage = r._storage._storage)
        ∧ (∀ x, r.map_or_else_run moved hash_code h k s = Outcome.returned x
          → x.2.1._storage._type = r._storage._type
            ∧ x.2.1._storage._storage = r._storage._storage)
        ∧ (∀ x, r.and_then_run moved hash_code h' s = Outcome.returned x
          → x.2.1._storage._type = r._storage._type
            ∧ x.2.1._storage._storage = r._storage._storage)
        ∧ (∀ x, r.or_else_run moved hash_code k' s = Outcome.returned x
          → x.2.1._storage._type = r._storage._type
            ∧ x.2.1._storage._storage = r._storage._storage))
    ∧ (∀ {α : Type} (next : Result T E → σ → Outcome α),
        (r.map_run moved hash_code (CallableSt.run f) s).bind (fun x => next x.2.1 x.2.2)
          = next r (r.map_st hash_code f s).2
        ∧ (r.map_err_run moved hash_code (CallableSt.run g) s).bind
            (fun x => next x.2.1 x.2.2)
          = next r (r.map_err_st hash_code g s).2
        ∧ (r.map_or_run moved hash_code (CallableSt.run f) d s).bind
            (fun x => next x.2.1 x.2.2)
          = next r (r.map_or_st hash_code f d s).2
        ∧ (r.map_or_else_run moved hash_code (CallableSt.run f) (CallableSt.run g) s).bind
            (fun x => next x.2.1 x.2.2)
          = next r (r.map_or_else_st hash_code f g s).2
        ∧ (r.and_then_run moved hash_code (CallableSt.run f') s).bind
            (fun x => next x.2.1 x.2.2)
          = next r (r.and_then_st hash_code f' s).2
        ∧ (r.or_else_run moved hash_code (CallableSt.run g') s).bind
            (fun x => next x.2.1 x.2.2)
          = next r (r.or_else_st hash_code g' s).2) := by
  refine ⟨⟨Result.map_run_lift moved hash_code r f s,
      Result.map_err_run_lift moved hash_code r g s,
      Result.map_or_run_lift moved hash_code r f d s,
      Result.map_or_else_run_lift moved hash_code r f g s,
      Result.and_then_run_lift moved hash_code r f' s,
      Result.or_else_run_lift moved hash_code r g' s⟩,
    fun h k h' k' => ⟨?_, ?_, ?_, ?_, ?_, ?_⟩, fun next => ⟨?_, ?_, ?_, ?_, ?_, ?_⟩⟩
  · intro x hx
    rw [(Result.map_run_spec moved hash_code r h s).1 x hx]
    exact ⟨rfl, rfl⟩
  · intro x hx
    rw [(Result.map_err_run_spec moved hash_code r k s).1 x hx]
    exact ⟨rfl, rfl⟩
  · intro x hx
    rw [(Result.map_or_run_spec moved hash_code r h d s).1 x hx]
    exact ⟨rfl, rfl⟩
  · intro x hx
    rw [(Result.map_or_else_run_spec moved hash_code r h k s).1 x hx]
    exact ⟨rfl, rfl⟩
  · intro x hx
    rw [(Result.and_then_run_spec moved hash_code r h' s).1 x hx]
    exact ⟨rfl, rfl⟩
  · intro x hx
    rw [(Result.or_else_run_spec moved hash_code r k' s).1 x hx]
    exact ⟨rfl, rfl⟩
  · rw [Result.map_run_lift]
    rfl
  · rw [Result.map_err_run_lift]
    rfl
  · rw [Result.map_or_run_lift]
    rfl
  · rw [Result.map_or_else_run_lift]
    rfl
  · rw [Result.and_then_run_lift]
    rfl
  · rw [Result.or_else_run_lift]
    rfl

/-- Witness of C31 at `Result<std::uint8_t, std::uint8_t>` built from `Ok(5)`, with
a move constructor that zeroes what it leaves and `f = x -> x+1` counting its
invocations: `r.map(f)` returns the Result built from `Ok(6)` after one
invocation, and the receiver keeps its discriminant and its buffer. -/
theorem C31_transforms_leave_receiver_witness :
    (Result.ctor_Ok parity_hash (Ok (5 : uint8_t)) : Result uint8_t uint8_t).map_run
        (fun bytes => bytes.map (fun _ => 0)) parity_hash
        (CallableSt.run (CallableSt.unary (fun (x : uint8_t) (calls : Nat) =>
          (x + 1, calls + 1)))) 0
      = Outcome.returned
          ((Result.ctor_Ok parity_hash (Ok (6 : uint8_t)) : Result uint8_t uint8_t),
            (Result.ctor_Ok parity_hash (Ok (5 : uint8_t)) : Result uint8_t uint8_t), 1)
    ∧ (Result.ctor_Ok parity_hash (Ok (5 : uint8_t)) : Result uint8_t uint8_t)._storage._type
        = (Result.ctor_Ok parity_hash (Ok (5 : uint8_t)) :
            Result uint8_t uint8_t)._storage._type
    ∧ (Result.ctor_Ok parity_hash (Ok (5 : uint8_t)) :
          Result uint8_t uint8_t)._storage._storage
        = (Result.ctor_Ok parity_hash (Ok (5 : uint8_t)) :
            Result uint8_t uint8_t)._storage._storage :=
  ⟨(C31_transforms_leave_receiver (fun bytes => bytes.map (fun _ => 0)) parity_hash
      (Result.ctor_Ok parity_hash (Ok (5 : uint8_t)) : Result uint8_t uint8_t)
      (CallableSt.unary (fun (x : uint8_t) (calls : Nat) => (x + 1, calls + 1)))
      (CallableSt.unary (fun (x : uint8_t) (calls : Nat) => (x + 1, calls + 1)))
      (CallableSt.unary (fun (x : uint8_t) (calls : Nat) =>
        ((Result.ctor_Ok parity_hash (Ok x) : Result uint8_t uint8_t), calls + 1)))
      (CallableSt.unary (fun (x : uint8_t) (calls : Nat) =>
        ((Result.ctor_Ok parity_hash (Ok x) : Result uint8_t uint8_t), calls + 1)))
      0 0).1.1,
    ((C31_transforms_leave_receiver (fun bytes => bytes.map (fun _ => 0)) parity_hash
      (Result.ctor_Ok parity_hash (Ok (5 : uint8_t)) : Result uint8_t uint8_t)
      (CallableSt.unary (fun (x : uint8_t) (calls : Nat) => (x + 1, calls + 1)))
      (CallableSt.unary (fun (x : uint8_t) (calls : Nat) => (x + 1, calls + 1)))
      (CallableSt.unary (fun (x : uint8_t) (calls : Nat) =>
        ((Result.ctor_Ok parity_hash (Ok x) : Result uint8_t uint8_t), calls + 1)))
      (CallableSt.unary (fun (x : uint8_t) (calls : Nat) =>
        ((Result.ctor_Ok parity_hash (Ok x) : Result uint8_t uint8_t), calls + 1)))
      0 0).2.1
        (CallableSt.run (CallableSt.unary (fun (x : uint8_t) (calls : Nat) =>
          (x + 1, calls + 1))))
        (CallableSt.run (CallableSt.unary (fun (x : uint8_t) (calls : Nat) =>
          (x + 1, calls + 1))))
        (CallableSt.run (CallableSt.unary (fun (x : uint8_t) (calls : Nat) =>
          ((Result.ctor_Ok parity_hash (Ok x) : Result uint8_t uint8_t), calls + 1))))
        (CallableSt.run (CallableSt.unary (fun (x : uint8_t) (calls : Nat) =>
          ((Result.ctor_Ok parity_hash (Ok x) : Result uint8_t uint8_t), calls + 1))))).1
      ((Result.ctor_Ok parity_hash (Ok (6 : uint8_t)) : Result uint8_t uint8_t),
        (Result.ctor_Ok parity_hash (Ok (5 : uint8_t)) : Result uint8_t uint8_t), 1)
      rfl⟩

/-- C32, as stated, fails: in the shape where only the success payloads have
`==`, here `Result<std::uint8_t, void>`, the Result built from `Err()` compared
`==` with an identical Result gives false. -/
theorem C32_failure_not_equal_to_itself :
    (Result.ctor_Err parity_hash Err_void : Result uint8_t CppVoid).operator_only_Ok parity_hash
        Op.eq (Result.ctor_Err parity_hash Err_void : Result uint8_t CppVoid) = false
    ∧ (Result.ctor_Ok parity_hash Ok_void : Result CppVoid uint8_t).operator_only_Err parity_hash
        Op.eq (Result.ctor_Ok parity_hash Ok_void : Result CppVoid uint8_t) = false := by
  decide

/-- The `==` of `std::uint8_t` is reflexive. -/
theorem uint8_t_eq_reflexive (a : uint8_t) : Comparable.apply Op.eq a a = true := by
  simp [Comparable.apply]

/-- C32, amended. For payload types with a reflexive `==` and `r'` identical to
`r`: in the shape where both payload pairs have `==`, `r == r'` is true for
every constructed `r`, in either state; in the shape where only the success
payloads have `==` (whatever the failure type, `void` included) `r == r'` is
`is_ok()`, true exactly on a success-active `r`; in the shape where only the
failure payloads have `==` (whatever the success type) it is `is_err()`, true
exactly on a failure-active `r`. -/
theorem C32_equality_reflexive_on_comparable_channel (hash_code : TypeInfo → Nat) :
    (∀ {A B : Type} [CppType A] [CppType B] [Comparable Op.eq A A] [Comparable Op.eq B B],
        (∀ a : A, Comparable.apply Op.eq a a = true) →
        (∀ b : B, Comparable.apply Op.eq b b = true) →
        ∀ r : Result A B, Result.Constructed hash_code r →
          r.operator_vs_Result hash_code Op.eq r = true)
    ∧ (∀ {A B : Type} [CppType A] [CppType B] [Comparable Op.eq A A],
        (∀ a : A, Comparable.apply Op.eq a a = true) →
        ∀ r : Result A B, r.operator_only_Ok hash_code Op.eq r = r.is_ok hash_code)
    ∧ (∀ {A B : Type} [CppType A] [CppType B] [Comparable Op.eq B B],
        (∀ b : B, Comparable.apply Op.eq b b = true) →
        ∀ r : Result A B, r.operator_only_Err hash_code Op.eq r = r.is_err hash_code) := by
  refine ⟨?_, ?_, ?_⟩
  · intro A B _ _ _ _ hreflA hreflB r hr
    cases hr with
    | from_Ok w =>
      simp [Result.operator_vs_Result, Result.is_ok_ctor_Ok, hreflA]
    | from_Err w =>
      by_cases h : (Result.ctor_Err hash_code w : Result A B).is_ok hash_code = true
      · simp [Result.operator_vs_Result, h, hreflA]
      · simp [Result.operator_vs_Result, h, Result.is_err_ctor_Err, hreflB]
  · intro A B _ _ _ hreflA r
    simp [Result.operator_only_Ok, hreflA]
  · intro A B _ _ _ hreflB r
    simp [Result.operator_only_Err, hreflB]

/-- Witness of C32 (amended): `Result<std::uint8_t, std::uint8_t>` built from
`Err(5)` equals itself, and in `Result<std::uint8_t, void>` the Result built from
`Ok(5)` equals itself. -/
theorem C32_equality_reflexive_on_comparable_channel_witness :
    (∀ a : uint8_t, Comparable.apply Op.eq a a = true)
    ∧ (Result.ctor_Err parity_hash (Err (5 : uint8_t))
        : Result uint8_t uint8_t).operator_vs_Result parity_hash Op.eq
          (Result.ctor_Err parity_hash (Err (5 : uint8_t)) : Result uint8_t uint8_t) = true
    ∧ (Result.ctor_Ok parity_hash (Ok (5 : uint8_t))
        : Result uint8_t CppVoid).operator_only_Ok parity_hash Op.eq
          (Result.ctor_Ok parity_hash (Ok (5 : uint8_t)) : Result uint8_t CppVoid)
        = (Result.ctor_Ok parity_hash (Ok (5 : uint8_t))
          : Result uint8_t CppVoid).is_ok parity_hash :=
  ⟨uint8_t_eq_reflexive,
    (C32_equality_reflexive_on_comparable_channel parity_hash).1 uint8_t_eq_reflexive
      uint8_t_eq_reflexive _ (Result.Constructed.from_Err _),
    (C32_equality_reflexive_on_comparable_channel parity_hash).2.1 uint8_t_eq_reflexive _⟩

/-- C33. Functor identity: for every constructed Result `r`, in either state,
`r.map(x -> x)` is `r`: same discriminant, same buffer, same payload.  The hash
codes of the two wrapper types are assumed distinct. -/
theorem C33_map_identity (hash_code : TypeInfo → Nat)
    (hne : hash_code (TypeInfo.Ok (CppType.name T))
      ≠ hash_code (TypeInfo.Err (CppType.name E)))
    (r : Result T E) (hr : Result.Constructed hash_code r) :
    r.map hash_code (Callable.unary (fun x : T => x)) = r
    ∧ (r.map hash_code (Callable.unary (fun x : T => x))).is_ok hash_code = r.is_ok hash_code
    ∧ (r.map hash_code (Callable.unary (fun x : T => x))).is_err hash_code
        = r.is_err hash_code
    ∧ (r.map hash_code (Callable.unary (fun x : T => x))).storage.get T = r.storage.get T
    ∧ (r.map hash_code (Callable.unary (fun x : T => x))).storage.get E = r.storage.get E := by
  have h : r.map hash_code (Callable.unary (fun x : T => x)) = r := by
    cases hr with
    | from_Ok w =>
      simp [Result.map, Result.is_ok_ctor_Ok, Proxy.map, Resolve.Map.map, Impl.Map.map_Arg,
        Result.payload_ctor_Ok, Ok, Convertible.convert]
    | from_Err w =>
      simp [Result.map, Result.is_ok_ctor_Err_of_ne hash_code hne, Wrapper.Get.get_Err,
        Result.payload_ctor_Err]
  rw [h]
  exact ⟨rfl, rfl, rfl, rfl, rfl⟩

/-- Witness of C33 at `Result<std::uint8_t, std::uint16_t>` built from `Err(300)`. -/
theorem C33_map_identity_witness :
    (parity_hash (TypeInfo.Ok (CppType.name uint8_t))
        ≠ parity_hash (TypeInfo.Err (CppType.name uint16_t))
      ∧ Result.Constructed parity_hash
          (Result.ctor_Err parity_hash (Err (300 : uint16_t)) : Result uint8_t uint16_t))
    ∧ (Result.ctor_Err parity_hash (Err (300 : uint16_t)) : Result uint8_t uint16_t).map
        parity_hash (Callable.unary (fun x : uint8_t => x))
      = (Result.ctor_Err parity_hash (Err (300 : uint16_t)) : Result uint8_t uint16_t) :=
  ⟨⟨by decide, Result.Constructed.from_Err _⟩,
    (C33_map_identity parity_hash (by decide) _ (Result.Constructed.from_Err _)).1⟩

/-- C34. Functor composition: for all pure one-argument functions `f` and `g` and
every constructed Result `r`, in either state, `r.map(f).map(g)` is
`r.map(x -> g(f(x)))`: same discriminant, same payload.  The hash codes of the
two wrapper types are assumed distinct for `Result<T, E>` and for the
intermediate `Result<R, E>`. -/
theorem C34_map_composition {A B R S : Type} [CppType R] [CppType S] [Convertible T A]
    [Convertible R B] (hash_code : TypeInfo → Nat)
    (hne : hash_code (TypeInfo.Ok (CppType.name T))
      ≠ hash_code (TypeInfo.Err (CppType.name E)))
    (hne' : hash_code (TypeInfo.Ok (CppType.name R))
      ≠ hash_code (TypeInfo.Err (CppType.name E)))
    (f : A → R) (g : B → S) (r : Result T E) (hr : Result.Constructed hash_code r) :
    (r.map hash_code (Callable.unary f)).map hash_code (Callable.unary g)
      = r.map hash_code (Callable.unary (fun x : A => g (Convertible.convert (f x)))) := by
  cases hr with
  | from_Ok w =>
    simp [Result.map, Result.is_ok_ctor_Ok, Proxy.map, Resolve.Map.map, Impl.Map.map_Arg,
      Result.payload_ctor_Ok, Ok]
  | from_Err w =>
    simp [Result.map, Result.is_ok_ctor_Err_of_ne hash_code hne,
      Result.is_ok_ctor_Err_of_ne hash_code hne', Wrapper.Get.get_Err,
      Result.payload_ctor_Err]

/-- Witness of C34 at `Result<std::uint8_t, std::uint8_t>` built from `Ok(5)`, with
`f = x -> x+1` and `g = x -> x+x`: both sides are the Result built from `Ok(12)`. -/
theorem C34_map_composition_witness :
    (parity_hash (TypeInfo.Ok (CppType.name uint8_t))
        ≠ parity_hash (TypeInfo.Err (CppType.name uint8_t))
      ∧ parity_hash (TypeInfo.Ok (CppType.name uint8_t))
        ≠ parity_hash (TypeInfo.Err (CppType.name uint8_t))
      ∧ Result.Constructed parity_hash
          (Result.ctor_Ok parity_hash (Ok (5 : uint8_t)) : Result uint8_t uint8_t))
    ∧ ((Result.ctor_Ok parity_hash (Ok (5 : uint8_t)) : Result uint8_t uint8_t).map parity_hash
          (Callable.unary (fun x : uint8_t => x + 1))).map parity_hash
          (Callable.unary (fun x : uint8_t => x + x))
      = (Result.ctor_Ok parity_hash (Ok (5 : uint8_t)) : Result uint8_t uint8_t).map parity_hash
          (Callable.unary (fun x : uint8_t =>
            (fun y : uint8_t => y + y) (Convertible.convert ((fun z : uint8_t => z + 1) x)))) :=
  ⟨⟨by decide, by decide, Result.Constructed.from_Ok _⟩,
    C34_map_composition parity_hash (by decide) (by decide) (fun x : uint8_t => x + 1)
      (fun x : uint8_t => x + x) _ (Result.Constructed.from_Ok _)⟩

/-- On a Result built from a success wrapper `and_then` is the call of the
callable on the payload. -/
theorem Result.and_then_st_ctor_Ok {σ A U : Type} [CppType U] [Convertible T A]
    (hash_code : TypeInfo → Nat) (w : Wrapper.Ok T) (f : A → σ → Result U E × σ) (s : σ) :
    (Result.ctor_Ok hash_code w : Result T E).and_then_st hash_code (CallableSt.unary f) s
      = f (Convertible.convert w._t) s := by
  simp [Result.and_then_st, Result.is_ok_ctor_Ok, Proxy.map_st, Resolve.Map.map_st,
    Impl.Map.map_Arg_st, Result.payload_ctor_Ok, Ok]

/-- C35. Bind associativity: for all callables `f : T -> Result<U, E>` and
`g : U -> Result<V, E>`, with or without side effects, and every constructed
`Result<T, E>` `r`, in either state, `r.and_then(f).and_then(g)` is
`r.and_then(x -> f(x).and_then(g))`: the same Result and the same final state.
The hash codes of the two wrapper types are assumed distinct for `Result<T, E>`
and for the intermediate `Result<U, E>`. -/
theorem C35_and_then_associative {σ A B U V : Type} [CppType U] [CppType V]
    [Convertible T A] [Convertible U B] (hash_code : TypeInfo → Nat)
    (hne : hash_code (TypeInfo.Ok (CppType.name T))
      ≠ hash_code (TypeInfo.Err (CppType.name E)))
    (hne' : hash_code (TypeInfo.Ok (CppType.name U))
      ≠ hash_code (TypeInfo.Err (CppType.name E)))
    (f : A → σ → Result U E × σ) (g : B → σ → Result V E × σ)
    (r : Result T E) (hr : Result.Constructed hash_code r) (s : σ) :
    (r.and_then_st hash_code (CallableSt.unary f) s).1.and_then_st hash_code
        (CallableSt.unary g) (r.and_then_st hash_code (CallableSt.unary f) s).2
      = r.and_then_st hash_code
          (CallableSt.unary (fun (x : A) (s' : σ) =>
            (f x s').1.and_then_st hash_code (CallableSt.unary g) (f x s').2)) s := by
  cases hr with
  | from_Ok w =>
    rw [Result.and_then_st_ctor_Ok, Result.and_then_st_ctor_Ok]
  | from_Err w =>
    simp [Result.and_then_st, Result.is_ok_ctor_Err_of_ne hash_code hne,
      Result.is_ok_ctor_Err_of_ne hash_code hne', Wrapper.Get.get_Err,
      Result.payload_ctor_Err]

/-- Witness of C35 at `Result<std::uint8_t, std::uint8_t>` built from `Ok(5)`, with
`f = x -> success(x+1)` and `g = x -> success(x+x)` counting their invocations:
both sides are the Result built from `Ok(12)` after two invocations. -/
theorem C35_and_then_associative_witness :
    (parity_hash (TypeInfo.Ok (CppType.name uint8_t))
        ≠ parity_hash (TypeInfo.Err (CppType.name uint8_t))
      ∧ Result.Constructed parity_hash
          (Result.ctor_Ok parity_hash (Ok (5 : uint8_t)) : Result uint8_t uint8_t))
    ∧ (Result.ctor_Ok parity_hash (Ok (5 : uint8_t)) : Result uint8_t uint8_t).and_then_st
        parity_hash
        (CallableSt.unary (fun (x : uint8_t) (s' : Nat) =>
          ((fun (y : uint8_t) (calls : Nat) =>
              ((Result.ctor_Ok parity_hash (Ok (y + 1)) : Result uint8_t uint8_t), calls + 1))
            x s').1.and_then_st parity_hash
            (CallableSt.unary (fun (y : uint8_t) (calls : Nat) =>
              ((Result.ctor_Ok parity_hash (Ok (y + y)) : Result uint8_t uint8_t), calls + 1)))
            ((fun (y : uint8_t) (calls : Nat) =>
              ((Result.ctor_Ok parity_hash (Ok (y + 1)) : Result uint8_t uint8_t), calls + 1))
            x s').2)) 0
      = ((Result.ctor_Ok parity_hash (Ok (12 : uint8_t)) : Result uint8_t uint8_t), 2) :=
  ⟨⟨by decide, Result.Constructed.from_Ok _⟩,
    (C35_and_then_associative parity_hash (by decide) (by decide)
      (fun (y : uint8_t) (calls : Nat) =>
        ((Result.ctor_Ok parity_hash (Ok (y + 1)) : Result uint8_t uint8_t), calls + 1))
      (fun (y : uint8_t) (calls : Nat) =>
        ((Result.ctor_Ok parity_hash (Ok (y + y)) : Result uint8_t uint8_t), calls + 1))
      (Result.ctor_Ok parity_hash (Ok (5 : uint8_t)) : Result uint8_t uint8_t)
      (Result.Constructed.from_Ok _) 0).symm.trans (by
        rw [Result.and_then_st_ctor_Ok, Result.and_then_st_ctor_Ok]
        rfl)⟩

/-- C36. `map_or` is `map` followed by `unwrap_or`: for every callable `f` with
non-`void` return type `R`, every fallback `d` and every Result `r`, in either
state, `r.map(f).unwrap_or(d)` returns the value of `r.map_or(f, d)`, with the
same final state.  The hash codes of the two wrapper types are assumed distinct
for the intermediate `Result<R, E>`. -/
theorem C36_map_or_is_map_then_unwrap_or {σ Arg R : Type} [CppType R] [Convertible T Arg]
    (hash_code : TypeInfo → Nat) (_hR : Result.map_or_enabled R = true)
    (hne : hash_code (TypeInfo.Ok (CppType.name R))
      ≠ hash_code (TypeInfo.Err (CppType.name E)))
    (r : Result T E) (d : R) :
    (∀ (f : CallableSt σ Arg R) (s : σ),
        ((r.map_st hash_code f s).1.unwrap_or hash_code d, (r.map_st hash_code f s).2)
          = (Outcome.returned (r.map_or_st hash_code f d s).1,
              (r.map_or_st hash_code f d s).2))
    ∧ (∀ f : Callable Arg R,
        (r.map hash_code f).unwrap_or hash_code d
          = Outcome.returned
              (r.map_or_st hash_code (Callable.lift CppVoid f) d CppVoid.unit).1) := by
  have key : ∀ {τ : Type} (f : CallableSt τ Arg R) (s : τ),
      ((r.map_st hash_code f s).1.unwrap_or hash_code d, (r.map_st hash_code f s).2)
        = (Outcome.returned (r.map_or_st hash_code f d s).1,
            (r.map_or_st hash_code f d s).2) := by
    intro τ f s
    by_cases h : r.is_ok hash_code = true
    · cases f <;>
        simp [Result.map_st, Result.map_or_st, h, Proxy.map_st, Resolve.Map.map_st,
          Impl.Map.map_Arg_st, Impl.Map.map_void_st, Result.unwrap_or, Result.is_ok_ctor_Ok]
    · simp [Result.map_st, Result.map_or_st, h, Result.unwrap_or,
        Result.is_ok_ctor_Err_of_ne hash_code hne]
  refine ⟨fun f s => key f s, fun f => ?_⟩
  have h := key (Callable.lift CppVoid f) CppVoid.unit
  rw [Result.map_st_lift] at h
  exact (Prod.mk.inj h).1

/-- Witness of C36 at `Result<std::uint8_t, std::uint8_t>` built from `Err(5)`, with
`f = x -> x+1` and fallback 42. -/
theorem C36_map_or_is_map_then_unwrap_or_witness :
    (Result.map_or_enabled uint8_t = true
      ∧ parity_hash (TypeInfo.Ok (CppType.name uint8_t))
        ≠ parity_hash (TypeInfo.Err (CppType.name uint8_t)))
    ∧ ((Result.ctor_Err parity_hash (Err (5 : uint8_t)) : Result uint8_t uint8_t).map
          parity_hash (Callable.unary (fun x : uint8_t => x + 1))).unwrap_or parity_hash 42
      = Outcome.returned
          ((Result.ctor_Err parity_hash (Err (5 : uint8_t)) : Result uint8_t uint8_t).map_or_st
            parity_hash (Callable.lift CppVoid (Callable.unary (fun x : uint8_t => x + 1))) 42
            CppVoid.unit).1 :=
  ⟨⟨by decide, by decide⟩,
    (@C36_map_or_is_map_then_unwrap_or uint8_t uint8_t _ _ Nat uint8_t uint8_t _ _
      parity_hash (by decide) (by decide)
      (Result.ctor_Err parity_hash (Err (5 : uint8_t)) : Result uint8_t uint8_t) 42).2
      (Callable.unary (fun x : uint8_t => x + 1))⟩

/-- The comparisons of `std::uint8_t` are those of an integer type: `<=` is `<`
or `==`, and `>=` is `>` or `==`. -/
theorem uint8_t_order_consistent (a b : uint8_t) :
    (Comparable.apply Op.le a b = (Comparable.apply Op.lt a b || Comparable.apply Op.eq a b))
    ∧ (Comparable.apply Op.ge a b
        = (Comparable.apply Op.gt a b || Comparable.apply Op.eq a b)) := by
  simp only [Comparable.apply]
  constructor
  · by_cases h1 : a.val < b.val <;> by_cases h2 : a.val = b.val <;> simp [h1, h2] <;> omega
  · by_cases h1 : a.val > b.val <;> by_cases h2 : a.val = b.val <;> simp [h1, h2] <;> omega

/-- C37. The ordering operators on Results are mutually consistent: for payload
types whose operators are those of integers (`<=` is `<` or `==`, `>=` is `>` or
`==`, on the success pair and on the failure pair) and all Results `a`, `b`, in
every combination of states, `a <= b` holds if and only if `a < b` or `a == b`
holds, and `a >= b` holds if and only if `a > b` or `a == b` holds. -/
theorem C37_ordering_operators_consistent {F G : Type} [CppType F] [CppType G]
    [∀ op : Op, Comparable op T F] [∀ op : Op, Comparable op E G]
    (hash_code : TypeInfo → Nat)
    (hT : ∀ (x : T) (y : F),
      (Comparable.apply Op.le x y = (Comparable.apply Op.lt x y || Comparable.apply Op.eq x y))
      ∧ (Comparable.apply Op.ge x y
          = (Comparable.apply Op.gt x y || Comparable.apply Op.eq x y)))
    (hE : ∀ (x : E) (y : G),
      (Comparable.apply Op.le x y = (Comparable.apply Op.lt x y || Comparable.apply Op.eq x y))
      ∧ (Comparable.apply Op.ge x y
          = (Comparable.apply Op.gt x y || Comparable.apply Op.eq x y)))
    (a : Result T E) (b : Result F G) :
    (a.operator_vs_Result hash_code Op.le b = true
      ↔ (a.operator_vs_Result hash_code Op.lt b = true
        ∨ a.operator_vs_Result hash_code Op.eq b = true))
    ∧ (a.operator_vs_Result hash_code Op.ge b = true
      ↔ (a.operator_vs_Result hash_code Op.gt b = true
        ∨ a.operator_vs_Result hash_code Op.eq b = true)) := by
  unfold Result.operator_vs_Result
  by_cases h1 : (a.is_ok hash_code && b.is_ok hash_code) = true
  · simp only [h1, if_true]
    rw [(hT _ _).1, (hT _ _).2]
    simp
  · by_cases h2 : (a.is_err hash_code && b.is_err hash_code) = true
    · simp only [h1, h2, if_true, if_false]
      rw [(hE _ _).1, (hE _ _).2]
      simp
    · simp [h1, h2]

/-- Witness of C37 at `Result<std::uint8_t, std::uint8_t>`, for the Results built
from `Ok(3)` and `Ok(7)` and for the mixed pair built from `Err(3)` and `Ok(3)`. -/
theorem C37_ordering_operators_consistent_witness :
    (∀ (x y : uint8_t),
      (Comparable.apply Op.le x y = (Comparable.apply Op.lt x y || Comparable.apply Op.eq x y))
      ∧ (Comparable.apply Op.ge x y
          = (Comparable.apply Op.gt x y || Comparable.apply Op.eq x y)))
    ∧ (((Result.ctor_Ok parity_hash (Ok (3 : uint8_t)) : Result uint8_t uint8_t).operator_vs_Result
          parity_hash Op.le
          (Result.ctor_Ok parity_hash (Ok (7 : uint8_t)) : Result uint8_t uint8_t) = true
        ↔ ((Result.ctor_Ok parity_hash (Ok (3 : uint8_t)) :
              Result uint8_t uint8_t).operator_vs_Result parity_hash Op.lt
              (Result.ctor_Ok parity_hash (Ok (7 : uint8_t)) : Result uint8_t uint8_t) = true
          ∨ (Result.ctor_Ok parity_hash (Ok (3 : uint8_t)) :
              Result uint8_t uint8_t).operator_vs_Result parity_hash Op.eq
              (Result.ctor_Ok parity_hash (Ok (7 : uint8_t)) : Result uint8_t uint8_t) = true))
      ∧ ((Result.ctor_Err parity_hash (Err (3 : uint8_t)) :
            Result uint8_t uint8_t).operator_vs_Result parity_hash Op.ge
            (Result.ctor_Ok parity_hash (Ok (3 : uint8_t)) : Result uint8_t uint8_t) = true
        ↔ ((Result.ctor_Err parity_hash (Err (3 : uint8_t)) :
              Result uint8_t uint8_t).operator_vs_Result parity_hash Op.gt
              (Result.ctor_Ok parity_hash (Ok (3 : uint8_t)) : Result uint8_t uint8_t) = true
          ∨ (Result.ctor_Err parity_hash (Err (3 : uint8_t)) :
              Result uint8_t uint8_t).operator_vs_Result parity_hash Op.eq
              (Result.ctor_Ok parity_hash (Ok (3 : uint8_t)) : Result uint8_t uint8_t) = true))) :=
  ⟨uint8_t_order_consistent,
    (C37_ordering_operators_consistent parity_hash uint8_t_order_consistent
      uint8_t_order_consistent
      (Result.ctor_Ok parity_hash (Ok (3 : uint8_t)) : Result uint8_t uint8_t)
      (Result.ctor_Ok parity_hash (Ok (7 : uint8_t)) : Result uint8_t uint8_t)).1,
    (C37_ordering_operators_consistent parity_hash uint8_t_order_consistent
      uint8_t_order_consistent
      (Result.ctor_Err parity_hash (Err (3 : uint8_t)) : Result uint8_t uint8_t)
      (Result.ctor_Ok parity_hash (Ok (3 : uint8_t)) : Result uint8_t uint8_t)).2⟩

end Claims

end CppResult
